import Mathlib

set_option maxRecDepth 2000000
set_option maxHeartbeats 2000000
set_option linter.unnecessarySimpa false


/-! Shallow embedding of `generate.py`, the static-site generator of
woodpecker-damage-repair.  Python strings are modelled as Lean `String`
(sequences of Unicode code points, matching Python's `len` and slicing on
code points); `html.escape` / `re.sub` / `str.strip` are translated to
explicit recursive functions on `List Char`. -/

/-- Python `html.escape(s, quote=True)` escapes one character.  Python applies
`&` replacement first, so the net effect is an independent per-character map. -/
def escChar (c : Char) : List Char :=
  if c = '&' then "&amp;".data
  else if c = '<' then "&lt;".data
  else if c = '>' then "&gt;".data
  else if c = '"' then "&quot;".data
  else if c = '\'' then "&#x27;".data
  else [c]

/-- `esc` from generate.py: `html.escape(s, quote=True)`. -/
def esc (s : String) : String :=
  String.mk (s.data.foldr (fun c r => escChar c ++ r) [])

/-- Whitespace stripped by Python `str.strip()` / `str.rstrip()` (ASCII part
plus the common Unicode space characters; every string in this program is
ASCII apart from a few typographic marks, none of them whitespace). -/
def isPySpace (c : Char) : Bool :=
  c == ' ' || c == '\t' || c == '\n' || c == '\r' || c.toNat == 0x0b || c.toNat == 0x0c ||
  c.toNat == 0x1c || c.toNat == 0x1d || c.toNat == 0x1e || c.toNat == 0x1f ||
  c.toNat == 0x85 || c.toNat == 0xa0 || c.toNat == 0x1680 ||
  (0x2000 <= c.toNat && c.toNat <= 0x200a) || c.toNat == 0x2028 || c.toNat == 0x2029 ||
  c.toNat == 0x202f || c.toNat == 0x205f || c.toNat == 0x3000

def pyStripList (l : List Char) : List Char :=
  ((l.dropWhile isPySpace).reverse.dropWhile isPySpace).reverse

/-- Python `str.strip()`. -/
def pyStrip (s : String) : String := String.mk (pyStripList s.data)

/-- Python `str.rstrip()`. -/
def pyRstrip (s : String) : String :=
  String.mk ((s.data.reverse.dropWhile isPySpace).reverse)

/-- Python `str.strip("-")`. -/
def stripDashes (l : List Char) : List Char :=
  ((l.dropWhile (· == '-')).reverse.dropWhile (· == '-')).reverse

/-- A character matching `[a-z0-9]`. -/
def isSlugChar (c : Char) : Bool :=
  ('a' ≤ c && c ≤ 'z') || ('0' ≤ c && c ≤ '9')

/-- Python `re.sub(r"&", " and ", s)`: every `&` becomes `" and "`. -/
def subAmp (l : List Char) : List Char :=
  l.foldr (fun c r => (if c = '&' then " and ".data else [c]) ++ r) []

/-- Python `re.sub(r"[^a-z0-9]+", "-", s)`: each maximal run of characters
outside `[a-z0-9]` becomes a single hyphen.  The flag records whether we are
inside such a run. -/
def subNonAlnumAux : Bool → List Char → List Char
  | _, [] => []
  | inRun, c :: rest =>
    if isSlugChar c then c :: subNonAlnumAux false rest
    else if inRun then subNonAlnumAux true rest
    else '-' :: subNonAlnumAux true rest

def subNonAlnum (l : List Char) : List Char := subNonAlnumAux false l

/-- Python `re.sub(r"-{2,}", "-", s)`: each run of hyphens becomes a single
hyphen (a lone hyphen is left alone, which is the same thing). -/
def subHyphenRunsAux : Bool → List Char → List Char
  | _, [] => []
  | inRun, c :: rest =>
    if c = '-' then
      if inRun then subHyphenRunsAux true rest
      else '-' :: subHyphenRunsAux true rest
    else c :: subHyphenRunsAux false rest

def subHyphenRuns (l : List Char) : List Char := subHyphenRunsAux false l

/-- `slugify` from generate.py.  `Char.toLower` agrees with Python
`str.lower()` on ASCII, and every roster string is ASCII. -/
def slugify (s : String) : String :=
  String.mk (stripDashes (subHyphenRuns (subNonAlnum (subAmp
    ((pyStripList s.data).map Char.toLower)))))

/-- `city_state_slug` from generate.py. -/
def city_state_slug (city state : String) : String :=
  slugify city ++ "-" ++ slugify state

/-- Python slice `l[:stop]` for an `int` stop (negative indices count from
the end, clamped at 0). -/
def pyTakeInt (stop : Int) (l : List Char) : List Char :=
  if stop < 0 then l.take ((l.length : Int) + stop).toNat
  else l.take stop.toNat

/-- `clamp_title` from generate.py, with Python slicing semantics for
`title[: max_chars - 1]` (the limit is a Python `int`). -/
def clamp_title (title : String) (max_chars : Int := 70) : String :=
  if (title.length : Int) ≤ max_chars then title
  else pyRstrip (String.mk (pyTakeInt (max_chars - 1) title.data)) ++ "…"

/-- `city_h1` from generate.py. -/
def city_h1 (service city state : String) : String :=
  clamp_title (service ++ " in " ++ city ++ ", " ++ state) 70

def CITIES : List (String × String) := [
  ("New York", "NY"),
  ("Los Angeles", "CA"),
  ("Chicago", "IL"),
  ("Dallas", "TX"),
  ("Fort Worth", "TX"),
  ("Philadelphia", "PA"),
  ("Houston", "TX"),
  ("Atlanta", "GA"),
  ("Washington", "DC"),
  ("Hagerstown", "MD"),
  ("Boston", "MA"),
  ("Manchester", "NH"),
  ("San Francisco", "CA"),
  ("Oakland", "CA"),
  ("San Jose", "CA"),
  ("Tampa", "FL"),
  ("St. Petersburg", "FL"),
  ("Sarasota", "FL"),
  ("Phoenix", "AZ"),
  ("Prescott", "AZ"),
  ("Seattle", "WA"),
  ("Tacoma", "WA"),
  ("Detroit", "MI"),
  ("Orlando", "FL"),
  ("Daytona Beach", "FL"),
  ("Melbourne", "FL"),
  ("Minneapolis", "MN"),
  ("St. Paul", "MN"),
  ("Denver", "CO"),
  ("Miami", "FL"),
  ("Fort Lauderdale", "FL"),
  ("Cleveland", "OH"),
  ("Akron", "OH"),
  ("Canton", "OH"),
  ("Sacramento", "CA"),
  ("Stockton", "CA"),
  ("Modesto", "CA"),
  ("Charlotte", "NC"),
  ("Raleigh", "NC"),
  ("Durham", "NC"),
  ("Fayetteville", "NC"),
  ("Portland", "OR"),
  ("St. Louis", "MO"),
  ("Indianapolis", "IN"),
  ("Nashville", "TN"),
  ("Pittsburgh", "PA"),
  ("Salt Lake City", "UT"),
  ("Baltimore", "MD"),
  ("San Diego", "CA"),
  ("San Antonio", "TX"),
  ("Hartford", "CT"),
  ("New Haven", "CT"),
  ("Kansas City", "MO"),
  ("Austin", "TX"),
  ("Columbus", "OH"),
  ("Greenville", "SC"),
  ("Spartanburg", "SC"),
  ("Asheville", "NC"),
  ("Anderson", "SC"),
  ("Cincinnati", "OH"),
  ("Milwaukee", "WI"),
  ("West Palm Beach", "FL"),
  ("Fort Pierce", "FL"),
  ("Las Vegas", "NV"),
  ("Jacksonville", "FL"),
  ("Harrisburg", "PA"),
  ("Lancaster", "PA"),
  ("Lebanon", "PA"),
  ("York", "PA"),
  ("Grand Rapids", "MI"),
  ("Kalamazoo", "MI"),
  ("Battle Creek", "MI"),
  ("Norfolk", "VA"),
  ("Portsmouth", "VA"),
  ("Newport News", "VA"),
  ("Birmingham", "AL"),
  ("Anniston", "AL"),
  ("Tuscaloosa", "AL"),
  ("Greensboro", "NC"),
  ("High Point", "NC"),
  ("Winston-Salem", "NC"),
  ("Oklahoma City", "OK"),
  ("Albuquerque", "NM"),
  ("Santa Fe", "NM"),
  ("Louisville", "KY"),
  ("New Orleans", "LA"),
  ("Memphis", "TN"),
  ("Providence", "RI"),
  ("New Bedford", "MA"),
  ("Fort Myers", "FL"),
  ("Naples", "FL"),
  ("Buffalo", "NY"),
  ("Fresno", "CA"),
  ("Visalia", "CA"),
  ("Richmond", "VA"),
  ("Petersburg", "VA"),
  ("Mobile", "AL"),
  ("Pensacola", "FL"),
  ("Fort Walton Beach", "FL"),
  ("Little Rock", "AR"),
  ("Pine Bluff", "AR"),
  ("Wilkes-Barre", "PA"),
  ("Scranton", "PA"),
  ("Hazleton", "PA"),
  ("Knoxville", "TN"),
  ("Tulsa", "OK"),
  ("Albany", "NY"),
  ("Schenectady", "NY"),
  ("Troy", "NY"),
  ("Lexington", "KY"),
  ("Dayton", "OH"),
  ("Tucson", "AZ"),
  ("Sierra Vista", "AZ"),
  ("Spokane", "WA"),
  ("Des Moines", "IA"),
  ("Ames", "IA"),
  ("Green Bay", "WI"),
  ("Appleton", "WI"),
  ("Honolulu", "HI"),
  ("Roanoke", "VA"),
  ("Lynchburg", "VA"),
  ("Wichita", "KS"),
  ("Hutchinson", "KS"),
  ("Flint", "MI"),
  ("Saginaw", "MI"),
  ("Bay City", "MI"),
  ("Omaha", "NE"),
  ("Springfield", "MO"),
  ("Huntsville", "AL"),
  ("Decatur", "AL"),
  ("Florence", "AL"),
  ("Columbia", "SC"),
  ("Madison", "WI"),
  ("Portland", "ME"),
  ("Auburn", "ME"),
  ("Rochester", "NY"),
  ("Harlingen", "TX"),
  ("Weslaco", "TX"),
  ("Brownsville", "TX"),
  ("McAllen", "TX"),
  ("Toledo", "OH"),
  ("Charleston", "WV"),
  ("Huntington", "WV"),
  ("Waco", "TX"),
  ("Temple", "TX"),
  ("Bryan", "TX"),
  ("Savannah", "GA"),
  ("Charleston", "SC"),
  ("Chattanooga", "TN"),
  ("Colorado Springs", "CO"),
  ("Pueblo", "CO"),
  ("Syracuse", "NY"),
  ("El Paso", "TX"),
  ("Las Cruces", "NM"),
  ("Paducah", "KY"),
  ("Cape Girardeau", "MO"),
  ("Harrisburg", "IL"),
  ("Shreveport", "LA"),
  ("Texarkana", "TX"),
  ("Champaign", "IL"),
  ("Urbana", "IL"),
  ("Springfield", "IL"),
  ("Decatur", "IL"),
  ("Burlington", "VT"),
  ("Plattsburgh", "NY"),
  ("Cedar Rapids", "IA"),
  ("Waterloo", "IA"),
  ("Iowa City", "IA"),
  ("Dubuque", "IA"),
  ("Baton Rouge", "LA"),
  ("Fort Smith", "AR"),
  ("Fayetteville", "AR"),
  ("Springdale", "AR"),
  ("Rogers", "AR"),
  ("Myrtle Beach", "SC"),
  ("Florence", "SC"),
  ("Boise", "ID"),
  ("Jackson", "MS"),
  ("South Bend", "IN"),
  ("Elkhart", "IN"),
  ("Johnson City", "TN"),
  ("Kingsport", "TN"),
  ("Bristol", "VA"),
  ("Greenville", "NC"),
  ("New Bern", "NC"),
  ("Washington", "NC"),
  ("Reno", "NV"),
  ("Davenport", "IA"),
  ("Rock Island", "IL"),
  ("Moline", "IL"),
  ("Tallahassee", "FL"),
  ("Thomasville", "GA"),
  ("Tyler", "TX"),
  ("Longview", "TX"),
  ("Lufkin", "TX"),
  ("Nacogdoches", "TX"),
  ("Lincoln", "NE"),
  ("Hastings", "NE"),
  ("Kearney", "NE"),
  ("Augusta", "GA"),
  ("Aiken", "SC"),
  ("Evansville", "IN"),
  ("Fort Wayne", "IN"),
  ("Sioux Falls", "SD"),
  ("Mitchell", "SD"),
  ("Johnstown", "PA"),
  ("Altoona", "PA"),
  ("State College", "PA"),
  ("Fargo", "ND"),
  ("Valley City", "ND"),
  ("Yakima", "WA"),
  ("Pasco", "WA"),
  ("Richland", "WA"),
  ("Kennewick", "WA"),
  ("Springfield", "MA"),
  ("Holyoke", "MA"),
  ("Traverse City", "MI"),
  ("Cadillac", "MI"),
  ("Lansing", "MI"),
  ("Youngstown", "OH"),
  ("Macon", "GA"),
  ("Eugene", "OR"),
  ("Montgomery", "AL"),
  ("Selma", "AL"),
  ("Peoria", "IL"),
  ("Bloomington", "IL"),
  ("Santa Barbara", "CA"),
  ("Santa Maria", "CA"),
  ("San Luis Obispo", "CA"),
  ("Lafayette", "LA"),
  ("Bakersfield", "CA"),
  ("Wilmington", "NC"),
  ("Columbus", "GA"),
  ("Monterey", "CA"),
  ("Salinas", "CA"),
  ("La Crosse", "WI"),
  ("Eau Claire", "WI"),
  ("Corpus Christi", "TX"),
  ("Salisbury", "MD"),
  ("Amarillo", "TX"),
  ("Wausau", "WI"),
  ("Rhinelander", "WI"),
  ("Columbus", "MS"),
  ("Tupelo", "MS"),
  ("West Point", "MS"),
  ("Starkville", "MS"),
  ("Columbia", "MO"),
  ("Jefferson City", "MO"),
  ("Chico", "CA"),
  ("Redding", "CA"),
  ("Rockford", "IL"),
  ("Duluth", "MN"),
  ("Superior", "WI"),
  ("Medford", "OR"),
  ("Klamath Falls", "OR"),
  ("Lubbock", "TX"),
  ("Topeka", "KS"),
  ("Monroe", "LA"),
  ("El Dorado", "AR"),
  ("Beaumont", "TX"),
  ("Port Arthur", "TX"),
  ("Odessa", "TX"),
  ("Midland", "TX"),
  ("Palm Springs", "CA"),
  ("Anchorage", "AK"),
  ("Minot", "ND"),
  ("Bismarck", "ND"),
  ("Dickinson", "ND"),
  ("Williston", "ND"),
  ("Panama City", "FL"),
  ("Sioux City", "IA"),
  ("Wichita Falls", "TX"),
  ("Lawton", "OK"),
  ("Joplin", "MO"),
  ("Pittsburg", "KS"),
  ("Albany", "GA"),
  ("Rochester", "MN"),
  ("Mason City", "IA"),
  ("Austin", "MN"),
  ("Erie", "PA"),
  ("Idaho Falls", "ID"),
  ("Pocatello", "ID"),
  ("Jackson", "WY"),
  ("Bangor", "ME"),
  ("Gainesville", "FL"),
  ("Biloxi", "MS"),
  ("Gulfport", "MS"),
  ("Terre Haute", "IN"),
  ("Sherman", "TX"),
  ("Ada", "OK"),
  ("Missoula", "MT"),
  ("Binghamton", "NY"),
  ("Wheeling", "WV"),
  ("Steubenville", "OH"),
  ("Yuma", "AZ"),
  ("El Centro", "CA"),
  ("Billings", "MT"),
  ("Abilene", "TX"),
  ("Sweetwater", "TX"),
  ("Bluefield", "WV"),
  ("Beckley", "WV"),
  ("Oak Hill", "WV"),
  ("Hattiesburg", "MS"),
  ("Laurel", "MS"),
  ("Rapid City", "SD"),
  ("Dothan", "AL"),
  ("Utica", "NY"),
  ("Clarksburg", "WV"),
  ("Weston", "WV"),
  ("Harrisonburg", "VA"),
  ("Jackson", "TN"),
  ("Quincy", "IL"),
  ("Hannibal", "MO"),
  ("Keokuk", "IA"),
  ("Charlottesville", "VA"),
  ("Lake Charles", "LA"),
  ("Elmira", "NY"),
  ("Corning", "NY"),
  ("Watertown", "NY"),
  ("Bowling Green", "KY"),
  ("Marquette", "MI"),
  ("Jonesboro", "AR"),
  ("Alexandria", "LA"),
  ("Laredo", "TX"),
  ("Butte", "MT"),
  ("Bozeman", "MT"),
  ("Bend", "OR"),
  ("Grand Junction", "CO"),
  ("Montrose", "CO"),
  ("Twin Falls", "ID"),
  ("Lafayette", "IN"),
  ("Lima", "OH"),
  ("Great Falls", "MT"),
  ("Meridian", "MS"),
  ("Cheyenne", "WY"),
  ("Scottsbluff", "NE"),
  ("Parkersburg", "WV"),
  ("Greenwood", "MS"),
  ("Greenville", "MS"),
  ("Eureka", "CA"),
  ("San Angelo", "TX"),
  ("Casper", "WY"),
  ("Riverton", "WY"),
  ("Mankato", "MN"),
  ("Ottumwa", "IA"),
  ("Kirksville", "MO"),
  ("St. Joseph", "MO"),
  ("Fairbanks", "AK"),
  ("Zanesville", "OH"),
  ("Victoria", "TX"),
  ("Helena", "MT"),
  ("Presque Isle", "ME"),
  ("Juneau", "AK"),
  ("Alpena", "MI"),
  ("North Platte", "NE"),
  ("Glendive", "MT")
]

def H2_SHARED : List String := [
  "What Is Woodpecker Damage to Houses?",
  "Why Woodpeckers Peck on Houses",
  "Common Types of Woodpecker Damage",
  "Woodpecker Holes in Wood and Cedar Siding",
  "Woodpecker Damage to EIFS and Stucco",
  "Professional Woodpecker Damage Repair vs DIY",
  "When to Hire a Woodpecker Damage Repair Service"
]

def P_SHARED : List String := [
  "Woodpecker damage occurs when woodpeckers peck, drill, or create holes in the exterior of a house. This damage commonly affects wood siding, cedar siding, EIFS, and stucco surfaces. Over time, repeated pecking can expose the structure to moisture intrusion and further deterioration.",
  "Woodpeckers peck on houses for several reasons, including searching for insects, creating nesting cavities, or establishing territory. Soft siding materials and hollow-sounding surfaces often attract repeated pecking behavior.",
  "Common types of woodpecker damage include small round holes, larger nesting cavities, clustered peck marks, and surface chipping. Left unaddressed, these openings allow water, pests, and air infiltration.",
  "Woodpecker holes in wood and cedar siding are especially common because these materials are softer and more attractive to birds. Repairing cedar siding requires proper filling, sealing, and color-matching to restore both appearance and protection.",
  "EIFS and stucco are also frequent targets for woodpeckers. Damage to these systems often involves punctures or cavities that require specialized EIFS patching and sealing techniques to prevent moisture damage.",
  "DIY woodpecker hole repair may seem straightforward, but improper filling or sealing can trap moisture or fail to stop repeat damage. Professional repair focuses on restoring the surface correctly while addressing underlying vulnerabilities.",
  "Hiring a professional is recommended when damage affects siding integrity, involves EIFS or stucco systems, or when repeated woodpecker activity continues despite temporary fixes."
]

def H2_HOWTO : List String := [
  "Can You Repair Woodpecker Damage Yourself?",
  "How to Fix Woodpecker Holes in a House",
  "How to Repair Woodpecker Holes in Wood Siding",
  "How to Repair Woodpecker Damage in Cedar Siding",
  "How to Repair Woodpecker Damage in EIFS or Stucco",
  "Common Mistakes When Repairing Woodpecker Holes",
  "When DIY Woodpecker Damage Repair Is Not Recommended"
]

def P_HOWTO : List String := [
  "Minor woodpecker damage can sometimes be repaired by homeowners, but success depends on the siding type and extent of the damage. Improper repairs may fail to stop repeat pecking or allow moisture intrusion. For widespread or recurring damage, professional \x7bwoodpecker damage repair services\x7d are often the safer option.",
  "Fixing woodpecker holes in a house typically involves cleaning the damaged area, filling holes with appropriate exterior-grade filler, sanding the surface smooth, sealing the repair, and repainting or finishing to match the surrounding siding.",
  "Repairing woodpecker holes in wood siding requires using fillers designed for exterior wood, followed by proper sealing and paint. Skipping these steps can lead to rot or visible patching.",
  "Cedar siding repairs must be handled carefully to preserve the wood grain and appearance. Improper filling or painting can make repairs stand out and reduce siding durability.",
  "EIFS and stucco repairs involve specialized patch materials and sealing techniques. Incorrect repairs can compromise the moisture barrier and lead to costly structural issues.",
  "Common DIY mistakes include using interior fillers, failing to seal repairs properly, mismatching paint, and ignoring the cause of the woodpecker activity. These errors often result in repeat damage.",
  "DIY repair is not recommended when damage is extensive, affects EIFS or stucco systems, or when woodpeckers continue pecking after repairs. In these cases, contacting a provider that offers \x7bwoodpecker damage repair services\x7d is the safest next step."
]

def H2_COST : List String := [
  "How Much Does Woodpecker Damage Repair Cost?",
  "What Affects the Cost of Woodpecker Damage Repair?",
  "Cost to Repair Woodpecker Holes in Siding",
  "Woodpecker Damage Repair Cost for EIFS and Stucco",
  "Does Insurance Cover Woodpecker Damage?",
  "When Professional Woodpecker Damage Repair Is Worth the Cost"
]

def P_COST : List String := [
  "Woodpecker damage repair typically costs between $200 and $1,500, depending on the number of holes, siding type, and extent of damage. Many homeowners compare DIY repairs against professional \x7bwoodpecker damage repair services\x7d before deciding.",
  "Repair costs are influenced by siding material, size and quantity of holes, accessibility, height of the repair area, and whether moisture damage is present behind the siding.",
  "Repairing woodpecker holes in wood or cedar siding generally costs less than repairing EIFS or stucco, which require specialized materials and techniques.",
  "EIFS and stucco repairs are often more expensive due to moisture barrier considerations and the need for precise patching to prevent future damage.",
  "Insurance coverage for woodpecker damage varies by policy. Some homeowners insurance plans may cover damage if it is sudden and accidental, while others consider it maintenance-related. Policy review is recommended.",
  "Professional repair is worth the cost when damage affects structural integrity, involves EIFS systems, or when repeat woodpecker activity continues. In these cases, professional \x7bwoodpecker damage repair services\x7d provide long-term protection and peace of mind."
]

def CSS_RAW : String := "\n:root\x7b\n  --bg:#fafaf9;\n  --surface:#ffffff;\n  --ink:#111827;\n  --muted:#4b5563;\n  --line:#e7e5e4;\n  --soft:#f5f5f4;\n\n  --cta:#16a34a;\n  --cta2:#15803d;\n\n  --max:980px;\n  --radius:16px;\n  --shadow:0 10px 30px rgba(17,24,39,0.06);\n  --shadow2:0 10px 24px rgba(17,24,39,0.08);\n\x7d\n*\x7bbox-sizing:border-box\x7d\nhtml\x7bcolor-scheme:light\x7d\nbody\x7b\n  margin:0;\n  font-family:ui-sans-serif,system-ui,-apple-system,Segoe UI,Roboto,Helvetica,Arial;\n  color:var(--ink);\n  background:var(--bg);\n  line-height:1.6;\n\x7d\na\x7bcolor:inherit\x7d\na:focus\x7boutline:2px solid var(--cta); outline-offset:2px\x7d\n\n.topbar\x7b\n  position:sticky;\n  top:0;\n  z-index:50;\n  background:rgba(250,250,249,0.92);\n  backdrop-filter:saturate(140%) blur(10px);\n  border-bottom:1px solid var(--line);\n\x7d\n.topbar-inner\x7b\n  max-width:var(--max);\n  margin:0 auto;\n  padding:12px 18px;\n  display:flex;\n  align-items:center;\n  justify-content:space-between;\n  gap:14px;\n\x7d\n.brand\x7b\n  font-weight:900;\n  letter-spacing:-0.02em;\n  text-decoration:none;\n\x7d\n.nav\x7b\n  display:flex;\n  align-items:center;\n  gap:12px;\n  flex-wrap:wrap;\n  justify-content:flex-end;\n\x7d\n.nav a\x7b\n  text-decoration:none;\n  font-size:13px;\n  color:var(--muted);\n  padding:7px 10px;\n  border-radius:12px;\n  border:1px solid transparent;\n\x7d\n.nav a:hover\x7b\n  background:var(--soft);\n  border-color:var(--line);\n\x7d\n.nav a[aria-current=\"page\"]\x7b\n  color:var(--ink);\n  background:var(--soft);\n  border:1px solid var(--line);\n\x7d\n\n.btn\x7b\n  display:inline-block;\n  padding:9px 12px;\n  background:var(--cta);\n  color:#fff;\n  border-radius:12px;\n  text-decoration:none;\n  font-weight:900;\n  font-size:13px;\n  border:1px solid rgba(0,0,0,0.04);\n  box-shadow:0 8px 18px rgba(22,163,74,0.18);\n\x7d\n.btn:hover\x7bbackground:var(--cta2)\x7d\n.btn:focus\x7boutline:2px solid var(--cta2); outline-offset:2px\x7d\n\n/* IMPORTANT: nav links apply grey text; ensure CTA stays white in the toolbar */\n.nav a.btn\x7b\n  color:#fff;\n  background:var(--cta);\n  border-color:rgba(0,0,0,0.04);\n\x7d\n.nav a.btn:hover\x7bbackground:var(--cta2)\x7d\n.nav a.btn:focus\x7boutline:2px solid var(--cta2); outline-offset:2px\x7d\n\nheader\x7b\n  border-bottom:1px solid var(--line);\n  background:\n    radial-gradient(1200px 380px at 10% -20%, rgba(22,163,74,0.08), transparent 55%),\n    radial-gradient(900px 320px at 95% -25%, rgba(17,24,39,0.06), transparent 50%),\n    #fbfbfa;\n\x7d\n.hero\x7b\n  max-width:var(--max);\n  margin:0 auto;\n  padding:34px 18px 24px;\n  display:grid;\n  gap:10px;\n  text-align:left;\n\x7d\n.hero h1\x7b\n  margin:0;\n  font-size:30px;\n  letter-spacing:-0.03em;\n  line-height:1.18;\n\x7d\n.sub\x7bmargin:0; color:var(--muted); max-width:78ch; font-size:14px\x7d\n\nmain\x7b\n  max-width:var(--max);\n  margin:0 auto;\n  padding:22px 18px 46px;\n\x7d\n.card\x7b\n  background:var(--surface);\n  border:1px solid var(--line);\n  border-radius:var(--radius);\n  padding:18px;\n  box-shadow:var(--shadow);\n\x7d\n.img\x7b\n  margin-top:14px;\n  border-radius:14px;\n  overflow:hidden;\n  border:1px solid var(--line);\n  background:var(--soft);\n  box-shadow:var(--shadow2);\n\x7d\n.img img\x7bdisplay:block; width:100%; height:auto\x7d\n\nh2\x7b\n  margin:18px 0 8px;\n  font-size:16px;\n  letter-spacing:-0.01em;\n\x7d\np\x7bmargin:0 0 10px\x7d\n.muted\x7bcolor:var(--muted); font-size:13px\x7d\nhr\x7bborder:0; border-top:1px solid var(--line); margin:18px 0\x7d\n\n.city-grid\x7b\n  list-style:none;\n  padding:0;\n  margin:10px 0 0;\n  display:grid;\n  gap:10px;\n  grid-template-columns:repeat(auto-fit,minmax(180px,1fr));\n\x7d\n.city-grid a\x7b\n  display:block;\n  text-decoration:none;\n  color:var(--ink);\n  background:#fff;\n  border:1px solid var(--line);\n  border-radius:14px;\n  padding:12px 12px;\n  font-weight:800;\n  font-size:14px;\n  box-shadow:0 10px 24px rgba(17,24,39,0.05);\n\x7d\n.city-grid a:hover\x7b\n  transform:translateY(-1px);\n  box-shadow:0 14px 28px rgba(17,24,39,0.08);\n\x7d\n\n.callout\x7b\n  margin:16px 0 12px;\n  padding:14px 14px;\n  border-radius:14px;\n  border:1px solid rgba(22,163,74,0.22);\n  background:linear-gradient(180deg, rgba(22,163,74,0.08), rgba(22,163,74,0.03));\n\x7d\n.callout-title\x7b\n  display:flex;\n  align-items:center;\n  gap:10px;\n  font-weight:900;\n  letter-spacing:-0.01em;\n  margin:0 0 6px;\n\x7d\n.badge\x7b\n  display:inline-block;\n  padding:3px 10px;\n  border-radius:999px;\n  background:rgba(22,163,74,0.14);\n  border:1px solid rgba(22,163,74,0.22);\n  color:var(--ink);\n  font-size:12px;\n  font-weight:900;\n\x7d\n.callout p\x7bmargin:0; color:var(--muted); font-size:13px\x7d\n\nfooter\x7b\n  border-top:1px solid var(--line);\n  background:#fbfbfa;\n\x7d\n.footer-inner\x7b\n  max-width:var(--max);\n  margin:0 auto;\n  padding:28px 18px;\n  display:grid;\n  gap:10px;\n  text-align:left;\n\x7d\n.footer-inner h2\x7bmargin:0; font-size:18px\x7d\n.footer-links\x7bdisplay:flex; gap:12px; flex-wrap:wrap\x7d\n.footer-links a\x7bcolor:var(--muted); text-decoration:none; font-size:13px; padding:6px 0\x7d\n.small\x7bcolor:var(--muted); font-size:12px; margin-top:8px\x7d\n"

def BRAND_NAME : String := "Woodpecker Damage Repair Company"
def H1_TITLE : String := "Woodpecker Damage Repair/Wood Siding & EIFS Services"
def COST_TITLE : String := "Woodpecker Damage Repair Cost"
def HOWTO_TITLE : String := "How to Repair Woodpecker Damage"

-- counts: CITIES=356

/-! The fixed configuration and HTML templates of generate.py, translated
string-for-string.  Python f-strings become explicit concatenations; the
literal text between interpolations is bound to named constants (`BH…`,
`HB…`, …), split at tag boundaries, so that the flattening lemmas below can
reason about the pieces.  Concatenating the pieces in order reproduces each
f-string exactly.  `SiteConfig.output_dir` is a filesystem path and is not
modelled. -/

structure SiteConfig where
  service_name : String := "Wasp Nest/Wasp Hive Removal & Wasp Control Services"
  brand_name : String := "Peephole Installation Company"
  cta_text : String := "Get Free Estimate"
  cta_href : String := "mailto:hello@example.com?subject=Free%20Quote%20Request"
  image_filename : String := "picture.png"
  cost_low : Nat := 150
  cost_high : Nat := 450

def CONFIG : SiteConfig := {}

/-- `CSS` in generate.py is the raw triple-quoted literal with `.strip()`
applied. -/
def CSS : String := pyStrip CSS_RAW

/-- One entry of the navigation bar (the inner `item` closure of
`nav_html`). -/
def nav_item (current href label key : String) : String :=
  "<a href=\"" ++ esc href ++ "\"" ++
    (if current = key then " aria-current=\"page\"" else "") ++ ">" ++
    esc label ++ "</a>"

/-- `nav_html` from generate.py. -/
def nav_html (current : String) : String :=
  "<nav class=\"nav\" aria-label=\"Primary navigation\">" ++
  nav_item current "/" "Home" "home" ++
  nav_item current "/cost/" "Cost" "cost" ++
  nav_item current "/how-to/" "How-To" "howto" ++
  "<a class=\"btn\" href=\"" ++ esc CONFIG.cta_href ++ "\">" ++ esc CONFIG.cta_text ++ "</a>" ++
  "</nav>"

/-! pieces of the `base_html` f-string -/

def BH1 : String := "<!doctype html>\n<html lang=\"en\">\n<head>\n  <meta charset=\"utf-8\" />\n  <meta name=\"viewport\" content=\"width=device-width, initial-scale=1\" />\n  "
def TTO : String := "<title>"
def TTC : String := "</title>"
def BH2 : String := "\n  <meta name=\"description\" content=\""
def BH3 : String := "\" />\n  <link rel=\"canonical\" href=\""
def BH4 : String := "\" />\n  <style>\n"
def BH5 : String := "\n  </style>\n</head>\n<body>\n  <div class=\"topbar\">\n    <div class=\"topbar-inner\">\n      <a class=\"brand\" href=\"/\">"
def BH6 : String := "</a>\n      "
def BH7 : String := "\n    </div>\n  </div>\n"
def BH8 : String := "\n</body>\n</html>\n"

/-- `base_html` from generate.py. -/
def base_html (title canonical_path description current_nav body : String) : String :=
  BH1 ++ TTO ++ esc title ++ TTC ++ BH2 ++ esc description ++ BH3 ++
  esc canonical_path ++ BH4 ++ CSS ++ BH5 ++ esc BRAND_NAME ++ BH6 ++
  nav_html current_nav ++ BH7 ++ body ++ BH8

/-! pieces of the `header_block` / `footer_block` / `page_shell` f-strings -/

def H1O : String := "<h1>"
def H1C : String := "</h1>"
def H2O : String := "<h2>"
def H2C : String := "</h2>"
def HB1 : String := "\n<header>\n  <div class=\"hero\">\n    "
def HB2 : String := "\n  </div>\n</header>\n"

/-- `header_block` from generate.py (its `sub` parameter is unused in the
source as well). -/
def header_block (h1 sub : String) : String :=
  pyRstrip (HB1 ++ H1O ++ esc h1 ++ H1C ++ HB2)

def FB1 : String := "\n<footer>\n  <div class=\"footer-inner\">\n    "
def FB2 : String := "\n    <p class=\"sub\">Ready to move forward? Request a free quote.</p>\n    <div>\n      <a class=\"btn\" href=\""
def FB3 : String := "\">"
def FB4 : String := "</a>\n    </div>\n    <div class=\"footer-links\">\n      <a href=\"/\">Home</a>\n      <a href=\"/cost/\">Cost</a>\n      <a href=\"/how-to/\">How-To</a>\n    </div>\n    <div class=\"small\">© "
def FB5 : String := ". All rights reserved.</div>\n  </div>\n</footer>\n"

/-- `footer_block` from generate.py. -/
def footer_block : String :=
  pyRstrip (FB1 ++ H2O ++ "Next steps" ++ H2C ++ FB2 ++ esc CONFIG.cta_href ++
    FB3 ++ esc CONFIG.cta_text ++ FB4 ++ esc BRAND_NAME ++ FB5)

def PS1 : String := "\n<main>\n  <section class=\"card\">\n    <div class=\"img\">\n      <img src=\""
def PS2 : String := "\" alt=\"Service image\" loading=\"lazy\" />\n    </div>\n    "
def PS3 : String := "\n  </section>\n</main>\n"

/-- `page_shell` from generate.py. -/
def page_shell (h1 sub inner_html : String) : String :=
  pyRstrip (header_block h1 sub ++ PS1 ++ esc ("/" ++ CONFIG.image_filename) ++
    PS2 ++ inner_html ++ PS3 ++ footer_block)

/-! pieces of the content-section f-strings -/

def POP : String := "\n<p>"
def PCB : String := "</</p>\n\n"
def PCBE : String := "</</p>\n"
def PCL : String := "</p>\n\n"
def PCLE : String := "</p>\n"
def NL : String := "\n"

/-- `shared_sections_html` from generate.py.  The source computes `local`
from `local_line` but its f-string never interpolates it, and each paragraph
is closed by the literal characters `</</p>`, exactly as in the source. -/
def shared_sections_html (local_line : Option String := none) : String :=
  let loc : String := match local_line with
    | some l => " <span class=\"muted\">" ++ esc l ++ "</span>"
    | none => ""
  pyRstrip (NL ++
    H2O ++ esc (H2_SHARED.getD 0 "") ++ H2C ++ POP ++ esc (P_SHARED.getD 0 "") ++ PCB ++
    H2O ++ esc (H2_SHARED.getD 1 "") ++ H2C ++ POP ++ esc (P_SHARED.getD 1 "") ++ PCB ++
    H2O ++ esc (H2_SHARED.getD 2 "") ++ H2C ++ POP ++ esc (P_SHARED.getD 2 "") ++ PCB ++
    H2O ++ esc (H2_SHARED.getD 3 "") ++ H2C ++ POP ++ esc (P_SHARED.getD 3 "") ++ PCB ++
    H2O ++ esc (H2_SHARED.getD 4 "") ++ H2C ++ POP ++ esc (P_SHARED.getD 4 "") ++ PCB ++
    H2O ++ esc (H2_SHARED.getD 5 "") ++ H2C ++ POP ++ esc (P_SHARED.getD 5 "") ++ PCBE)

def CT1 : String := "\n<hr />\n\n<p class=\"muted\">\n  Typical installed range (single nest, many homes): $"
def CT2 : String := "–$"
def CT3 : String := ". Final pricing depends on access, nest location, and time on site.\n</p>\n"

/-- `cost_sections_html` from generate.py. -/
def cost_sections_html : String :=
  pyRstrip (NL ++
    H2O ++ esc (H2_COST.getD 0 "") ++ H2C ++ POP ++ esc (P_COST.getD 0 "") ++ PCL ++
    H2O ++ esc (H2_COST.getD 1 "") ++ H2C ++ POP ++ esc (P_COST.getD 1 "") ++ PCL ++
    H2O ++ esc (H2_COST.getD 2 "") ++ H2C ++ POP ++ esc (P_COST.getD 2 "") ++ PCL ++
    H2O ++ esc (H2_COST.getD 3 "") ++ H2C ++ POP ++ esc (P_COST.getD 3 "") ++ PCL ++
    H2O ++ esc (H2_COST.getD 4 "") ++ H2C ++ POP ++ esc (P_COST.getD 4 "") ++ PCL ++
    H2O ++ esc (H2_COST.getD 5 "") ++ H2C ++ POP ++ esc (P_COST.getD 5 "") ++ PCLE ++
    CT1 ++ toString CONFIG.cost_low ++ CT2 ++ toString CONFIG.cost_high ++ CT3)

/-- `howto_sections_html` from generate.py. -/
def howto_sections_html : String :=
  pyRstrip (NL ++
    H2O ++ esc (H2_HOWTO.getD 0 "") ++ H2C ++ POP ++ esc (P_HOWTO.getD 0 "") ++ PCL ++
    H2O ++ esc (H2_HOWTO.getD 1 "") ++ H2C ++ POP ++ esc (P_HOWTO.getD 1 "") ++ PCL ++
    H2O ++ esc (H2_HOWTO.getD 2 "") ++ H2C ++ POP ++ esc (P_HOWTO.getD 2 "") ++ PCL ++
    H2O ++ esc (H2_HOWTO.getD 3 "") ++ H2C ++ POP ++ esc (P_HOWTO.getD 3 "") ++ PCL ++
    H2O ++ esc (H2_HOWTO.getD 4 "") ++ H2C ++ POP ++ esc (P_HOWTO.getD 4 "") ++ PCL ++
    H2O ++ esc (H2_HOWTO.getD 5 "") ++ H2C ++ POP ++ esc (P_HOWTO.getD 5 "") ++ PCLE)

def CO1 : String := "\n<div class=\"callout\" role=\"note\" aria-label=\"Typical cost range\">\n  <div class=\"callout-title\">\n    <span class=\"badge\">Typical range</span>\n    <span>$"
def CO2 : String := "–$"
def CO3 : String := " for one nest</span>\n  </div>\n  <p>\n    In "
def CO4 : String := ", "
def CO5 : String := ", most pricing comes down to access and where the nest is located.\n    If you want a fast, no-pressure estimate, use the “"
def CO6 : String := "” button above.\n  </p>\n</div>\n"

/-- `city_cost_callout_html` from generate.py. -/
def city_cost_callout_html (city state : String) : String :=
  pyRstrip (CO1 ++ toString CONFIG.cost_low ++ CO2 ++ toString CONFIG.cost_high ++
    CO3 ++ esc city ++ CO4 ++ esc state ++ CO5 ++ esc CONFIG.cta_text ++ CO6)

/-- `make_page` from generate.py. -/
def make_page (h1 canonical description nav_key sub inner : String) : String :=
  let h1c := clamp_title h1 70
  base_html h1c canonical (clamp_title description 155) nav_key
    (page_shell h1c sub inner)

def LL1 : String := "<li><a href=\""
def LL2 : String := "\">"
def LL3 : String := ", "
def LL4 : String := "</a></li>"

/-- One home-page city link (the generator expression inside
`homepage_html`). -/
def city_link_li (cs : String × String) : String :=
  LL1 ++ esc ("/" ++ city_state_slug cs.1 cs.2 ++ "/") ++ LL2 ++
  esc cs.1 ++ LL3 ++ esc cs.2 ++ LL4

def HP1 : String := "\n<hr />\n"
def HP2 : String := "\n<p class=\"muted\">Select a city page for the same guide with a light local line.</p>\n<ul class=\"city-grid\">\n"
def HP3 : String := "\n</ul>\n<hr />\n<p class=\"muted\">\n  Also available: <a href=\"/cost/\">Wasp Nest Removal Cost</a> and <a href=\"/how-to/\">How to Get Rid of Wasp Nest</a>.\n</p>\n"

/-- `homepage_html` from generate.py. -/
def homepage_html : String :=
  let city_links := String.intercalate "\n" (CITIES.map city_link_li)
  let inner :=
    shared_sections_html none ++
    HP1 ++ H2O ++ "Choose your city" ++ H2C ++ HP2 ++ city_links ++ HP3
  make_page H1_TITLE "/"
    "Straight answers on wasp nest removal and wasp control."
    "home"
    "How removal works, what prevents repeat activity, and when to call help."
    inner

/-- The city-page meta description (the f-string in `city_page_html`). -/
def city_desc (city state : String) : String :=
  "Wasp nest removal and wasp control guide with local context for " ++ city ++ ", " ++ state ++ "."

def CY1 : String := "\n<hr />\n"
def CY2 : String := "\n<p class=\"muted\">\n  Typical installed range for one nest often falls around $"
def CY3 : String := "–$"
def CY4 : String := ". Access and nest location drive most pricing.\n  See the <a href=\"/cost/\">cost page</a> for details.\n</p>\n"

/-- `city_page_html` from generate.py. -/
def city_page_html (city state : String) : String :=
  let inner :=
    shared_sections_html (some ("Serving " ++ city ++ ", " ++ state ++ ".")) ++
    city_cost_callout_html city state ++
    CY1 ++ H2O ++ "Wasp Nest Removal Cost" ++ H2C ++ CY2 ++
    toString CONFIG.cost_low ++ CY3 ++ toString CONFIG.cost_high ++ CY4
  make_page (city_h1 H1_TITLE city state)
    ("/" ++ city_state_slug city state ++ "/")
    (city_desc city state)
    "home"
    "Same core guide, plus a quick local note and a typical cost range."
    inner

/-- `cost_page_html` from generate.py. -/
def cost_page_html : String :=
  make_page COST_TITLE "/cost/"
    "Typical wasp nest removal cost ranges and what changes pricing."
    "cost"
    "Simple ranges and the factors that usually move the price."
    cost_sections_html

/-- `howto_page_html` from generate.py. -/
def howto_page_html : String :=
  make_page HOWTO_TITLE "/how-to/"
    "Clear steps for dealing with a wasp nest without making it worse."
    "howto"
    "A practical guide that prioritizes safety and reduces repeat activity."
    howto_sections_html

/-- `robots_txt` from generate.py. -/
def robots_txt : String := "User-agent: *\nAllow: /\nSitemap: /sitemap.xml\n"

def SM1 : String := "<?xml version=\"1.0\" encoding=\"UTF-8\"?>\n"
def SM2 : String := "<urlset xmlns=\"http://www.sitemaps.org/schemas/sitemap/0.9\">\n"
def SM3 : String := "</urlset>\n"
def LOCO : String := "  <url><loc>"
def LOCC : String := "</loc></url>\n"

/-- `sitemap_xml` from generate.py. -/
def sitemap_xml (urls : List String) : String :=
  SM1 ++ SM2 ++ String.join (urls.map (fun u => LOCO ++ u ++ LOCC)) ++ SM3

/-- The `urls` list computed in `main` of generate.py: the three static
paths, then one path per roster city in roster order. -/
def site_urls : List String :=
  ["/", "/cost/", "/how-to/"] ++ CITIES.map (fun cs => "/" ++ city_state_slug cs.1 cs.2 ++ "/")

/-- Every HTML page written by `main` of generate.py, in the order written:
home, cost, how-to, then one page per roster city. -/
def all_pages : List String :=
  [homepage_html, cost_page_html, howto_page_html] ++
    CITIES.map (fun cs => city_page_html cs.1 cs.2)

/-! Verification-side observers of the generated HTML: substring search,
first-occurrence splitting, and extraction of all texts enclosed by a tag
pair.  These are specification instruments (they read the output; they
translate no source code). -/

/-- `isPre p l` : `p` is a prefix of `l` (character lists). -/
def isPre : List Char → List Char → Bool
  | [], _ => true
  | _ :: _, [] => false
  | p :: ps, c :: cs => p == c && isPre ps cs

/-- `containsSub pat l` : `pat` occurs somewhere in `l`. -/
def containsSub (pat : List Char) : List Char → Bool
  | [] => pat.isEmpty
  | c :: rest => isPre pat (c :: rest) || containsSub pat rest

/-- Split at the first occurrence of `pat`: the part before it and the part
after it, or `none` when `pat` does not occur. -/
def splitAtSub (pat : List Char) : List Char → Option (List Char × List Char)
  | [] => none
  | c :: rest =>
    if isPre pat (c :: rest) then some ([], (c :: rest).drop pat.length)
    else (splitAtSub pat rest).map (fun xy => (c :: xy.1, xy.2))

/-- The text strictly between the first occurrence of `op` and the next
occurrence of `cl` after it. -/
def textBetween (op cl : List Char) (s : List Char) : Option (List Char) :=
  match splitAtSub op s with
  | some (_, r) =>
    match splitAtSub cl r with
    | some (t, _) => some t
    | none => none
  | none => none

/-- Text content of the first `<title>` element of a page. -/
def titleText (page : String) : Option String :=
  (textBetween "<title>".data "</title>".data page.data).map (fun l => String.mk l)

/-- Text content of the first `<h1>` element of a page. -/
def h1Text (page : String) : Option String :=
  (textBetween "<h1>".data "</h1>".data page.data).map (fun l => String.mk l)

theorem splitAtSub_sizes {pat : List Char} :
    ∀ {l x y : List Char}, splitAtSub pat l = some (x, y) →
      x.length + pat.length + y.length = l.length ∧ pat.length ≤ l.length := by
  intro l
  induction l with
  | nil => intro x y h; simp [splitAtSub] at h
  | cons c rest ih =>
    intro x y h
    by_cases hpre : isPre pat (c :: rest) = true
    · have hk : pat.length ≤ (c :: rest).length := by
        clear h ih
        induction pat generalizing c rest with
        | nil => simp
        | cons p ps ihp =>
          simp only [isPre, Bool.and_eq_true] at hpre
          cases rest with
          | nil =>
            cases ps with
            | nil => simp
            | cons q qs => simp [isPre] at hpre
          | cons d ds =>
            have := @ihp d ds hpre.2
            simpa [List.length_cons] using Nat.succ_le_succ this
      simp only [splitAtSub, hpre, if_true, Option.some.injEq, Prod.mk.injEq] at h
      obtain ⟨hx, hy⟩ := h
      subst hx; subst hy
      refine ⟨?_, hk⟩
      simp only [List.length_nil, List.length_drop, List.length_cons] at *
      omega
    · rw [Bool.not_eq_true] at hpre
      simp only [splitAtSub, hpre, Bool.false_eq_true, if_false] at h
      cases hsp : splitAtSub pat rest with
      | none => rw [hsp] at h; simp at h
      | some xy =>
        rw [hsp] at h
        obtain ⟨x', y'⟩ := xy
        simp only [Option.map_some', Option.some.injEq, Prod.mk.injEq] at h
        obtain ⟨hx, hy⟩ := h
        obtain ⟨h1, h2⟩ := ih hsp
        subst hx; subst hy
        refine ⟨?_, ?_⟩ <;>
          (simp only [List.length_cons] at *; omega)

/-- All texts strictly enclosed between successive `op` … `cl` pairs, in
document order. -/
def subsBetween (op cl : List Char) (l : List Char) : List (List Char) :=
  if hop : op.length = 0 then [] else
  if hcl : cl.length = 0 then [] else
  match hsp : splitAtSub op l with
  | none => []
  | some (_, r) =>
    match hsp2 : splitAtSub cl r with
    | none => []
    | some (t, rem) => t :: subsBetween op cl rem
termination_by l.length
decreasing_by
  have h1 := (splitAtSub_sizes hsp).1
  have h2 := (splitAtSub_sizes hsp2).1
  omega

/-- All `<h2>…</h2>` text contents of a page, in document order. -/
def h2Texts (page : String) : List String :=
  (subsBetween "<h2>".data "</h2>".data page.data).map (fun l => String.mk l)

/-- All `<loc>…</loc>` text contents of a sitemap, in document order. -/
def locTexts (xml : String) : List String :=
  (subsBetween "<loc>".data "</loc>".data xml.data).map (fun l => String.mk l)

/-- `pat` occurs exactly once in `l`: an occurrence with no other occurrence
before or after it. -/
def hasOnce (pat l : List Char) : Prop :=
  ∃ a b, l = a ++ pat ++ b ∧ containsSub pat a = false ∧ containsSub pat b = false

/-! Compositional lemmas about the observers: how substring search and
first-occurrence splitting interact with list concatenation.  All page-level
facts below are derived from these, so that no large string is ever
evaluated in a single kernel reduction. -/

theorem isPre_length {pat l : List Char} (h : isPre pat l = true) :
    pat.length ≤ l.length := by
  induction pat generalizing l with
  | nil => simp
  | cons p ps ih =>
    cases l with
    | nil => simp [isPre] at h
    | cons c cs =>
      simp only [isPre, Bool.and_eq_true] at h
      simpa [List.length_cons] using Nat.succ_le_succ (ih h.2)

theorem isPre_of_short {pat l : List Char} (h : l.length < pat.length) :
    isPre pat l = false := by
  cases hv : isPre pat l with
  | false => rfl
  | true => exact absurd (isPre_length hv) (by omega)

theorem isPre_append_self (pat r : List Char) : isPre pat (pat ++ r) = true := by
  induction pat with
  | nil => rfl
  | cons p ps ih => simp [isPre, ih]

theorem isPre_take (pat l : List Char) :
    isPre pat (l.take pat.length) = isPre pat l := by
  induction pat generalizing l with
  | nil => simp [isPre]
  | cons p ps ih =>
    cases l with
    | nil => simp
    | cons c cs => simp [isPre, List.take_succ_cons, ih]

theorem isPre_append_right {pat l : List Char} (r : List Char)
    (h : isPre pat l = true) : isPre pat (l ++ r) = true := by
  induction pat generalizing l with
  | nil => rfl
  | cons p ps ih =>
    cases l with
    | nil => simp [isPre] at h
    | cons c cs =>
      simp only [isPre, Bool.and_eq_true] at h ⊢
      exact ⟨h.1, ih h.2⟩

theorem isPre_prefix_mono {x y l : List Char} (h : isPre (x ++ y) l = true) :
    isPre x l = true := by
  induction x generalizing l with
  | nil => rfl
  | cons p ps ih =>
    cases l with
    | nil => simp [isPre] at h
    | cons c cs =>
      simp only [List.cons_append, isPre, Bool.and_eq_true] at h ⊢
      exact ⟨h.1, ih h.2⟩

/-- `isPre` only looks at the first `pat.length` characters: appending after
a long-enough prefix changes nothing. -/
theorem isPre_window (pat : List Char) (x y : List Char) (hx : x ≠ []) :
    isPre pat (x ++ y.take (pat.length - 1)) = isPre pat (x ++ y) := by
  rw [← isPre_take pat (x ++ y.take (pat.length - 1)), ← isPre_take pat (x ++ y)]
  congr 1
  rw [List.take_append_eq_append_take, List.take_append_eq_append_take, List.take_take]
  have hx1 : 1 ≤ x.length := by
    cases x with
    | nil => exact absurd rfl hx
    | cons a as => simp
  rw [Nat.min_eq_left (by omega)]

theorem contains_nil_pat (l : List Char) : containsSub [] l = true := by
  cases l <;> simp [containsSub, isPre, List.isEmpty]

theorem contains_of_short {pat l : List Char} (h : l.length < pat.length) :
    containsSub pat l = false := by
  induction l with
  | nil =>
    cases pat with
    | nil => simp at h
    | cons p ps => simp [containsSub, List.isEmpty]
  | cons c rest ih =>
    simp only [containsSub, Bool.or_eq_false_iff]
    constructor
    · exact isPre_of_short h
    · exact ih (by simp at h ⊢; omega)

theorem contains_append_left {pat a : List Char} (b : List Char)
    (h : containsSub pat a = true) : containsSub pat (a ++ b) = true := by
  induction a with
  | nil =>
    simp only [containsSub, List.isEmpty_iff] at h
    subst h
    simp [contains_nil_pat]
  | cons c rest ih =>
    simp only [containsSub, Bool.or_eq_true] at h
    show (isPre pat ((c :: rest) ++ b) || containsSub pat (rest ++ b)) = true
    simp only [Bool.or_eq_true]
    rcases h with h | h
    · exact Or.inl (isPre_append_right b h)
    · exact Or.inr (ih h)

theorem contains_append_right {pat : List Char} (a : List Char) {b : List Char}
    (h : containsSub pat b = true) : containsSub pat (a ++ b) = true := by
  induction a with
  | nil => simpa using h
  | cons c rest ih =>
    show (isPre pat ((c :: rest) ++ b) || containsSub pat (rest ++ b)) = true
    simp only [Bool.or_eq_true]
    exact Or.inr ih

theorem contains_take {pat l : List Char} {n : Nat}
    (h : containsSub pat (l.take n) = true) : containsSub pat l = true := by
  have := contains_append_left (l.drop n) h
  rwa [List.take_append_drop] at this

/-- Splitting a search across a concatenation: an occurrence is either one
that starts in `a` (visible in `a` plus a `pat.length - 1` window of `b`),
or one inside `b`. -/
theorem contains_split (pat : List Char) (a b : List Char) :
    containsSub pat (a ++ b) =
      (containsSub pat (a ++ b.take (pat.length - 1)) || containsSub pat b) := by
  induction a with
  | nil =>
    simp only [List.nil_append]
    cases hcb : containsSub pat (b.take (pat.length - 1)) with
    | true => simp [contains_take hcb]
    | false => simp
  | cons c a' ih =>
    have hwin : isPre pat (c :: (a' ++ b.take (pat.length - 1))) =
        isPre pat (c :: (a' ++ b)) := by
      have := isPre_window pat (c :: a') b (by simp)
      simpa using this
    show (isPre pat (c :: (a' ++ b)) || containsSub pat (a' ++ b)) =
      ((isPre pat (c :: (a' ++ b.take (pat.length - 1))) ||
        containsSub pat (a' ++ b.take (pat.length - 1))) || containsSub pat b)
    rw [hwin, ih, Bool.or_assoc]

/-- No occurrence of `p :: ps` in `P ++ W` when: none lies inside `P`, the
head `p` does not occur in the last `ps.length` characters of `P`, and `W`
is shorter than the pattern. -/
theorem contains_append_short {p : Char} {ps P W : List Char}
    (h1 : containsSub (p :: ps) P = false)
    (h2 : p ∉ P.drop (P.length - ps.length))
    (h3 : W.length ≤ ps.length) :
    containsSub (p :: ps) (P ++ W) = false := by
  induction P with
  | nil =>
    exact contains_of_short (by simp; omega)
  | cons c P' ih =>
    simp only [containsSub, Bool.or_eq_false_iff] at h1
    obtain ⟨h1head, h1tail⟩ := h1
    show (isPre (p :: ps) (c :: (P' ++ W)) || containsSub (p :: ps) (P' ++ W)) = false
    simp only [Bool.or_eq_false_iff]
    constructor
    · by_cases hlen : ps.length ≤ P'.length
      · -- the pattern fits inside c :: P'
        have : isPre (p :: ps) (c :: (P' ++ W)) = isPre (p :: ps) (c :: P') := by
          rw [← isPre_take (p :: ps) (c :: (P' ++ W)), ← isPre_take (p :: ps) (c :: P')]
          congr 1
          simp only [List.length_cons, List.take_succ_cons]
          congr 1
          rw [List.take_append_eq_append_take]
          have : ps.length - P'.length = 0 := by omega
          simp [this]
        exact this.trans h1head
      · -- position 0 is within the last ps.length characters of c :: P'
        have hc : c ∈ (c :: P').drop ((c :: P').length - ps.length) := by
          have h0 : (c :: P').length - ps.length = 0 := by
            simp only [List.length_cons]; omega
          rw [h0]
          exact List.mem_cons_self c P'
        have hne : ¬ (p == c) = true := by
          intro he
          have hpc : p = c := eq_of_beq he
          subst hpc
          exact h2 hc
        simp [isPre, hne]
    · refine ih h1tail ?_
      intro hmem
      refine h2 ?_
      by_cases hlen : ps.length ≤ P'.length
      · have harith : (c :: P').length - ps.length = (P'.length - ps.length) + 1 := by
          simp only [List.length_cons]; omega
        rwa [harith, List.drop_succ_cons]
      · have h0 : (c :: P').length - ps.length = 0 := by
          simp only [List.length_cons]; omega
        rw [h0]
        exact List.mem_cons_of_mem c (List.mem_of_mem_drop hmem)

/-- Simpler variant: the head never occurs in `P` at all. -/
theorem contains_append_short₂ {p : Char} {ps P W : List Char}
    (h1 : p ∉ P) (h3 : W.length ≤ ps.length) :
    containsSub (p :: ps) (P ++ W) = false := by
  refine contains_append_short ?_ ?_ h3
  · induction P with
    | nil => simp [containsSub, List.isEmpty]
    | cons c P' ih =>
      simp only [containsSub, Bool.or_eq_false_iff]
      refine ⟨?_, ih (fun hm => h1 (List.mem_cons_of_mem c hm))⟩
      have : ¬ (p == c) = true := by
        intro he
        exact h1 (by rw [eq_of_beq he]; exact List.mem_cons_self c P')
      simp [isPre, this]
  · intro hmem
    exact h1 (List.mem_of_mem_drop hmem)

/-- A pattern whose head is missing from `l` does not occur in `l`. -/
theorem contains_false_of_head_notin {p : Char} {ps l : List Char}
    (h : p ∉ l) : containsSub (p :: ps) l = false := by
  have := @contains_append_short₂ p ps l [] h (by simp)
  simpa using this

/-! Streaming lemmas: first-occurrence splitting over concatenations, a
"no-occurrence" stream over a list of parts, and extraction of tag-enclosed
texts over a concatenation of parts. -/

theorem splitAtSub_append_skip {pat : List Char} {a b : List Char}
    (h : containsSub pat (a ++ b.take (pat.length - 1)) = false) :
    splitAtSub pat (a ++ b) = (splitAtSub pat b).map (fun xy => (a ++ xy.1, xy.2)) := by
  induction a with
  | nil =>
    simp only [List.nil_append]
    cases o : splitAtSub pat b with
    | none => simp
    | some xy => simp
  | cons c a' ih =>
    have h' : (isPre pat (c :: (a' ++ b.take (pat.length - 1))) ||
        containsSub pat (a' ++ b.take (pat.length - 1))) = false := h
    simp only [Bool.or_eq_false_iff] at h'
    have hh : isPre pat (c :: (a' ++ b)) = false := by
      have hwin := isPre_window pat (c :: a') b (by simp)
      simp only [List.cons_append] at hwin
      rw [← hwin]
      exact h'.1
    show splitAtSub pat (c :: (a' ++ b)) = _
    simp only [splitAtSub, hh, Bool.false_eq_true, if_false]
    rw [ih h'.2]
    cases o : splitAtSub pat b with
    | none => simp
    | some xy =>
      obtain ⟨x, y⟩ := xy
      simp

theorem splitAtSub_self {p : Char} (ps r : List Char) :
    splitAtSub (p :: ps) ((p :: ps) ++ r) = some ([], r) := by
  have hpre : isPre (p :: ps) (p :: (ps ++ r)) = true := isPre_append_self (p :: ps) r
  show splitAtSub (p :: ps) (p :: (ps ++ r)) = _
  simp only [splitAtSub, hpre, if_true, Option.some.injEq, Prod.mk.injEq,
    true_and, List.nil_eq]
  show (p :: (ps ++ r)).drop (ps.length + 1) = r
  simp only [List.drop_succ_cons]
  exact List.drop_left ps r

theorem splitAtSub_none_iff {pat : List Char} (hp : pat ≠ []) {l : List Char} :
    splitAtSub pat l = none ↔ containsSub pat l = false := by
  induction l with
  | nil =>
    cases pat with
    | nil => exact absurd rfl hp
    | cons p ps => simp [splitAtSub, containsSub, List.isEmpty]
  | cons c rest ih =>
    by_cases hpre : isPre pat (c :: rest) = true
    · simp [splitAtSub, containsSub, hpre]
    · have hf : isPre pat (c :: rest) = false := by rwa [Bool.not_eq_true] at hpre
      simp [splitAtSub, containsSub, hf, Option.map_eq_none', ih]

/-- Concatenation of a list of parts. -/
def catL (ps : List (List Char)) : List Char := ps.foldr (· ++ ·) []

theorem catL_cons (p : List Char) (ps : List (List Char)) :
    catL (p :: ps) = p ++ catL ps := rfl

/-- A certificate that `pat` occurs nowhere in the concatenation of the
parts: for each part, no occurrence starts in it (checked on the part plus a
`pat.length - 1` look-ahead window). -/
def ZeroStream (pat : List Char) : List (List Char) → Prop
  | [] => True
  | p :: ps =>
    containsSub pat (p ++ (catL ps).take (pat.length - 1)) = false ∧ ZeroStream pat ps

theorem contains_catL_false {pat : List Char} (hp : pat ≠ []) :
    ∀ ps, ZeroStream pat ps → containsSub pat (catL ps) = false := by
  intro ps
  induction ps with
  | nil =>
    intro _
    cases pat with
    | nil => exact absurd rfl hp
    | cons p ps' => simp [catL, containsSub, List.isEmpty]
  | cons q qs ih =>
    intro hz
    rw [catL_cons, contains_split]
    simp [hz.1, ih hz.2]

theorem subsBetween_of_not_contains {op cl l : List Char} (hop : op ≠ [])
    (h : containsSub op l = false) : subsBetween op cl l = [] := by
  have hol : ¬ op.length = 0 := fun h0 => hop (List.length_eq_zero.mp h0)
  have hsp : splitAtSub op l = none := (splitAtSub_none_iff hop).mpr h
  rw [subsBetween.eq_def, dif_neg hol]
  by_cases hc0 : cl.length = 0
  · rw [dif_pos hc0]
  · rw [dif_neg hc0]
    split
    · rfl
    · rename_i heq
      rw [hsp] at heq
      cases heq

theorem subsBetween_skip {op cl a b : List Char}
    (h : containsSub op (a ++ b.take (op.length - 1)) = false) :
    subsBetween op cl (a ++ b) = subsBetween op cl b := by
  by_cases hol : op.length = 0
  · rw [subsBetween.eq_def, subsBetween.eq_def]; simp [hol]
  by_cases hcl : cl.length = 0
  · rw [subsBetween.eq_def, subsBetween.eq_def]; simp [hol, hcl]
  rw [subsBetween.eq_def, subsBetween.eq_def]
  simp only [hol, hcl, dite_false]
  rw [splitAtSub_append_skip h]
  cases o : splitAtSub op b with
  | none => simp
  | some xy =>
    obtain ⟨x, r⟩ := xy
    simp

theorem subsBetween_extract {op cl t rest : List Char} (hop : op ≠ []) (hcl : cl ≠ [])
    (ht : containsSub cl (t ++ (cl ++ rest).take (cl.length - 1)) = false) :
    subsBetween op cl (op ++ (t ++ (cl ++ rest))) = t :: subsBetween op cl rest := by
  have hol : ¬ op.length = 0 := fun h0 => hop (List.length_eq_zero.mp h0)
  have hcll : ¬ cl.length = 0 := fun h0 => hcl (List.length_eq_zero.mp h0)
  have h2 : splitAtSub cl (t ++ (cl ++ rest)) = some (t, rest) := by
    rw [splitAtSub_append_skip ht]
    cases cl with
    | nil => exact absurd rfl hcl
    | cons q qs =>
      rw [splitAtSub_self]
      simp
  cases op with
  | nil => exact absurd rfl hop
  | cons p ps =>
    have h1 : splitAtSub (p :: ps) ((p :: ps) ++ (t ++ (cl ++ rest))) =
        some ([], t ++ (cl ++ rest)) := splitAtSub_self ps (t ++ (cl ++ rest))
    rw [subsBetween.eq_def, dif_neg hol, dif_neg hcll]
    split
    · rename_i heq
      rw [h1] at heq
      cases heq
    · rename_i x r heq
      rw [h1] at heq
      injection heq with heq
      injection heq with hx hr
      subst hx
      subst hr
      split
      · rename_i heq2
        rw [h2] at heq2
        cases heq2
      · rename_i t' rem heq2
        rw [h2] at heq2
        injection heq2 with heq2
        injection heq2 with ht' hrem
        subst ht'
        subst hrem
        rfl

/-- Monotonicity used to transfer a negative search for a prefix pattern to
the longer pattern. -/
theorem contains_false_of_prefix {x y l : List Char}
    (h : containsSub x l = false) : containsSub (x ++ y) l = false := by
  induction l with
  | nil =>
    cases x with
    | nil => simp [containsSub, List.isEmpty] at h
    | cons a as => simp [containsSub, List.isEmpty]
  | cons c rest ih =>
    have h' : (isPre x (c :: rest) || containsSub x rest) = false := h
    simp only [Bool.or_eq_false_iff] at h'
    show (isPre (x ++ y) (c :: rest) || containsSub (x ++ y) rest) = false
    simp only [Bool.or_eq_false_iff]
    refine ⟨?_, ih h'.2⟩
    cases hv : isPre (x ++ y) (c :: rest) with
    | false => rfl
    | true => exact absurd (isPre_prefix_mono hv) (by simp [h'.1])

/-! Facts about the translated helpers: the escaper never emits `<`, how
`rstrip` distributes over concatenation, length bounds for the clamp, and
the hyphen-run analysis used for the slug pipeline. -/

theorem data_append (s t : String) : (s ++ t).data = s.data ++ t.data := by
  cases s; cases t; rfl

theorem mk_data (l : List Char) : (String.mk l).data = l := rfl

theorem str_eq_of_data {s t : String} (h : s.data = t.data) : s = t := by
  cases s; cases t; rw [show ∀ l : List Char, (String.mk l).data = l from fun _ => rfl,
    show ∀ l : List Char, (String.mk l).data = l from fun _ => rfl] at h
  rw [h]

theorem esc_data (s : String) :
    (esc s).data = s.data.foldr (fun c r => escChar c ++ r) [] := rfl

theorem escChar_no_lt {c x : Char} (hx : x ∈ escChar c) : x ≠ '<' := by
  unfold escChar at hx
  split at hx
  · have : "&amp;".data = ['&', 'a', 'm', 'p', ';'] := rfl
    rw [this] at hx
    intro he; subst he; simp at hx
  split at hx
  · have : "&lt;".data = ['&', 'l', 't', ';'] := rfl
    rw [this] at hx
    intro he; subst he; simp at hx
  split at hx
  · have : "&gt;".data = ['&', 'g', 't', ';'] := rfl
    rw [this] at hx
    intro he; subst he; simp at hx
  split at hx
  · have : "&quot;".data = ['&', 'q', 'u', 'o', 't', ';'] := rfl
    rw [this] at hx
    intro he; subst he; simp at hx
  split at hx
  · have : "&#x27;".data = ['&', '#', 'x', '2', '7', ';'] := rfl
    rw [this] at hx
    intro he; subst he; simp at hx
  · rename_i hne1 hne2 hne3 hne4 hne5
    simp only [List.mem_singleton] at hx
    subst hx
    exact hne2

theorem esc_no_lt (s : String) : '<' ∉ (esc s).data := by
  rw [esc_data]
  induction s.data with
  | nil => simp
  | cons c rest ih =>
    simp only [List.foldr_cons, List.mem_append]
    intro h
    rcases h with h | h
    · exact escChar_no_lt h rfl
    · exact ih h

/-! rstrip over concatenation -/

/-- `rstrip` on character lists. -/
def rstripL (l : List Char) : List Char := (l.reverse.dropWhile isPySpace).reverse

theorem rstripL_data (s : String) : (pyRstrip s).data = rstripL s.data := rfl

theorem dropWhile_append_of_ne {p : Char → Bool} {x : List Char} (y : List Char)
    (h : x.dropWhile p ≠ []) : (x ++ y).dropWhile p = x.dropWhile p ++ y := by
  induction x with
  | nil => exact absurd rfl h
  | cons c rest ih =>
    cases hp : p c with
    | true =>
      rw [List.dropWhile_cons_of_pos hp] at h
      show ((c :: rest) ++ y).dropWhile p = _
      rw [List.cons_append, List.dropWhile_cons_of_pos hp,
        List.dropWhile_cons_of_pos hp, ih h]
    | false =>
      have hp' : ¬ p c = true := by simp [hp]
      rw [List.cons_append, List.dropWhile_cons_of_neg hp',
        List.dropWhile_cons_of_neg hp', List.cons_append]

theorem rstripL_append {a b : List Char} (h : rstripL b ≠ []) :
    rstripL (a ++ b) = a ++ rstripL b := by
  unfold rstripL at *
  have hb : b.reverse.dropWhile isPySpace ≠ [] := by
    intro h0
    exact h (by rw [h0]; rfl)
  rw [List.reverse_append, dropWhile_append_of_ne a.reverse hb,
    List.reverse_append, List.reverse_reverse]

theorem pyRstrip_append (s t : String) (h : pyRstrip t ≠ "") :
    pyRstrip (s ++ t) = s ++ pyRstrip t := by
  refine str_eq_of_data ?_
  rw [data_append]
  show rstripL ((s ++ t).data) = s.data ++ rstripL t.data
  rw [data_append]
  refine rstripL_append ?_
  intro h0
  refine h (str_eq_of_data ?_)
  rw [rstripL_data, h0]

/-! clamp length bounds -/

theorem length_data (s : String) : s.length = s.data.length := rfl

theorem rstripL_length_le (l : List Char) : (rstripL l).length ≤ l.length := by
  unfold rstripL
  calc ((l.reverse.dropWhile isPySpace).reverse).length
      = (l.reverse.dropWhile isPySpace).length := List.length_reverse _
    _ ≤ l.reverse.length := (List.dropWhile_sublist isPySpace).length_le
    _ = l.length := List.length_reverse _

theorem clamp_title_length (t : String) (m : Int) (hm : 1 ≤ m) :
    ((clamp_title t m).length : Int) ≤ m := by
  unfold clamp_title
  by_cases hle : (t.length : Int) ≤ m
  · simpa [hle]
  · simp only [hle, if_false]
    have hlen : (t.length : Int) > m := by omega
    have hm1 : (0 : Int) ≤ m - 1 := by omega
    have htake : pyTakeInt (m - 1) t.data = t.data.take (m - 1).toNat := by
      unfold pyTakeInt
      rw [if_neg (by omega)]
    rw [length_data, data_append, htake]
    have h1 : (rstripL (t.data.take (m - 1).toNat)).length ≤ (m - 1).toNat := by
      calc (rstripL (t.data.take (m - 1).toNat)).length
          ≤ (t.data.take (m - 1).toNat).length := rstripL_length_le _
        _ ≤ (m - 1).toNat := by
            rw [List.length_take]
            exact Nat.min_le_left _ _
    have h2 : ("…".data).length = 1 := rfl
    rw [List.length_append]
    show ((rstripL (t.data.take (m-1).toNat)).length + ("…".data).length : Int) ≤ m
    rw [h2]
    omega

theorem clamp_title_of_le {t : String} {m : Int} (h : (t.length : Int) ≤ m) :
    clamp_title t m = t := by
  unfold clamp_title
  rw [if_pos h]

theorem clamp_title_idem (t : String) (m : Int) (hm : 1 ≤ m) :
    clamp_title (clamp_title t m) m = clamp_title t m :=
  clamp_title_of_le (clamp_title_length t m hm)

/-! the hyphen-run analysis for the slug pipeline (claim C5) -/

/-- No two adjacent hyphens. -/
def noTwoDash : List Char → Bool
  | [] => true
  | [_] => true
  | a :: b :: rest => !(a == '-' && b == '-') && noTwoDash (b :: rest)

theorem noTwoDash_cons {c : Char} {l : List Char} (hl : noTwoDash l = true)
    (h : c ≠ '-' ∨ l.head? ≠ some '-') : noTwoDash (c :: l) = true := by
  cases l with
  | nil => rfl
  | cons b rest =>
    show (!(c == '-' && b == '-') && noTwoDash (b :: rest)) = true
    have hb : (c == '-' && b == '-') = false := by
      rcases h with h | h
      · simp [h]
      · have hbne : b ≠ '-' := by simpa using h
        simp [hbne]
    simp [hb, hl]

theorem noTwoDash_tail {c : Char} {l : List Char}
    (h : noTwoDash (c :: l) = true) : noTwoDash l = true := by
  cases l with
  | nil => rfl
  | cons b rest =>
    have h' : (!(c == '-' && b == '-') && noTwoDash (b :: rest)) = true := h
    simp only [Bool.and_eq_true] at h'
    exact h'.2

theorem subNonAlnumAux_true_head (l : List Char) :
    (subNonAlnumAux true l).head? ≠ some '-' := by
  induction l with
  | nil => simp [subNonAlnumAux]
  | cons c rest ih =>
    by_cases hc : isSlugChar c = true
    · have hcd : c ≠ '-' := by
        intro he; rw [he] at hc; simp [isSlugChar] at hc
      simp [subNonAlnumAux, hc, hcd]
    · have hc' : isSlugChar c = false := by simpa using hc
      simpa [subNonAlnumAux, hc'] using ih

theorem subNonAlnumAux_noTwoDash (l : List Char) :
    ∀ b, noTwoDash (subNonAlnumAux b l) = true := by
  induction l with
  | nil => intro b; rfl
  | cons c rest ih =>
    intro b
    by_cases hc : isSlugChar c = true
    · have hcd : c ≠ '-' := by
        intro he; rw [he] at hc; simp [isSlugChar] at hc
      simp only [subNonAlnumAux, hc, if_true]
      exact noTwoDash_cons (ih false) (Or.inl hcd)
    · have hc' : isSlugChar c = false := by simpa using hc
      cases b with
      | true => simpa [subNonAlnumAux, hc'] using ih true
      | false =>
        simp only [subNonAlnumAux, hc', Bool.false_eq_true, if_false]
        exact noTwoDash_cons (ih true) (Or.inr (subNonAlnumAux_true_head rest))

theorem subHyphenRunsAux_id {l : List Char} (hl : noTwoDash l = true) :
    ∀ prev, (prev = true → l.head? ≠ some '-') → subHyphenRunsAux prev l = l := by
  induction l with
  | nil => intro prev _; rfl
  | cons c rest ih =>
    intro prev hprev
    by_cases hc : c = '-'
    · have hpf : prev = false := by
        cases prev with
        | false => rfl
        | true => exact absurd (by simp [hc]) (hprev rfl)
      subst hpf
      have hrest : rest.head? ≠ some '-' := by
        cases rest with
        | nil => simp
        | cons b rbs =>
          have h' : (!(c == '-' && b == '-') && noTwoDash (b :: rbs)) = true := hl
          simp only [Bool.and_eq_true, Bool.not_eq_true'] at h'
          have hb : (b == '-') = false := by
            by_contra hbb
            have hbt : (b == '-') = true := by simpa using hbb
            rw [hc] at h'
            simp [hbt] at h'
          have hbne : b ≠ '-' := by simpa using hb
          simp [hbne]
      simp only [subHyphenRunsAux, hc, if_true, Bool.false_eq_true, if_false]
      rw [ih (noTwoDash_tail hl) true (fun _ => hrest)]
    · simp only [subHyphenRunsAux, hc, if_false]
      rw [ih (noTwoDash_tail hl) false (by intro h0; cases h0)]

theorem subHyphenRuns_id_of_noTwoDash {l : List Char} (hl : noTwoDash l = true) :
    subHyphenRuns l = l :=
  subHyphenRunsAux_id hl false (by intro h0; cases h0)

/-- The redundant second substitution (`-{2,}` → `-`) of `slugify` is a
no-op: the first substitution already leaves no adjacent hyphens. -/
theorem subHyphenRuns_subNonAlnum (l : List Char) :
    subHyphenRuns (subNonAlnum l) = subNonAlnum l :=
  subHyphenRuns_id_of_noTwoDash (subNonAlnumAux_noTwoDash l false)

/-! Step lemmas for walking a page part-by-part.  A page is flattened to
`catL parts`; a "no-occurrence" certificate is built with the `ZeroStream`
constructors below (one per part), and the `<h2>`-text extraction walks the
same parts with the skip/extract wrappers.  No step ever inspects the
look-ahead window's content, so parts that depend on the city never have to
be evaluated. -/

theorem length_take_le' (n : Nat) (l : List Char) : (l.take n).length ≤ n := by
  rw [List.length_take]
  exact Nat.min_le_left _ _

/-- Step over a part in which no occurrence lies and whose last
`pat.length - 1` characters avoid the pattern head (so no occurrence
straddles its right edge either). -/
theorem ZeroStream.cons_tail {p : Char} {ps x : List Char} {parts : List (List Char)}
    (h1 : containsSub (p :: ps) x = false)
    (h2 : p ∉ x.drop (x.length - ps.length))
    (hrest : ZeroStream (p :: ps) parts) : ZeroStream (p :: ps) (x :: parts) := by
  refine ⟨?_, hrest⟩
  show containsSub (p :: ps) (x ++ (catL parts).take ((p :: ps).length - 1)) = false
  have hlen : ((catL parts).take ((p :: ps).length - 1)).length ≤ ps.length := by
    simpa using length_take_le' ((p :: ps).length - 1) (catL parts)
  exact contains_append_short h1 h2 hlen

/-- Step over a part that avoids the pattern head entirely (e.g. an escaped
interpolation for a `<`-headed pattern). -/
theorem ZeroStream.cons_notin {p : Char} {ps x : List Char} {parts : List (List Char)}
    (hx : p ∉ x)
    (hrest : ZeroStream (p :: ps) parts) : ZeroStream (p :: ps) (x :: parts) := by
  refine ⟨?_, hrest⟩
  show containsSub (p :: ps) (x ++ (catL parts).take ((p :: ps).length - 1)) = false
  have hlen : ((catL parts).take ((p :: ps).length - 1)).length ≤ ps.length := by
    simpa using length_take_le' ((p :: ps).length - 1) (catL parts)
  exact contains_append_short₂ hx hlen

theorem ZeroStream.nil (pat : List Char) : ZeroStream pat [] := trivial

/-- The two zero-region witnesses of `hasOnce`, with the regions given as
part lists. -/
theorem hasOnce_of_parts {pat : List Char} {l : List Char}
    (pre post : List (List Char)) (hp : pat ≠ [])
    (hsplit : l = catL pre ++ pat ++ catL post)
    (h1 : ZeroStream pat pre) (h2 : ZeroStream pat post) : hasOnce pat l :=
  ⟨catL pre, catL post, hsplit, contains_catL_false hp pre h1,
    contains_catL_false hp post h2⟩

/-! skip / extract wrappers for `subsBetween` over `catL` -/

/-- Skip a part with no occurrence of the opening tag and a safe right
edge. -/
theorem subsBetween_skip_tail {p : Char} {ps cl x : List Char} {rest : List Char}
    (h1 : containsSub (p :: ps) x = false)
    (h2 : p ∉ x.drop (x.length - ps.length)) :
    subsBetween (p :: ps) cl (x ++ rest) = subsBetween (p :: ps) cl rest := by
  refine subsBetween_skip ?_
  have hlen : (rest.take ((p :: ps).length - 1)).length ≤ ps.length := by
    simpa using length_take_le' ((p :: ps).length - 1) rest
  exact contains_append_short h1 h2 hlen

/-- Skip a part avoiding the opening tag's head character entirely. -/
theorem subsBetween_skip_notin {p : Char} {ps cl x : List Char} {rest : List Char}
    (hx : p ∉ x) :
    subsBetween (p :: ps) cl (x ++ rest) = subsBetween (p :: ps) cl rest := by
  refine subsBetween_skip ?_
  have hlen : (rest.take ((p :: ps).length - 1)).length ≤ ps.length := by
    simpa using length_take_le' ((p :: ps).length - 1) rest
  exact contains_append_short₂ hx hlen

/-- Extract one enclosed text whose content avoids the closing tag's head
character (escaped text never contains `<`). -/
theorem subsBetween_extract_notin {op : List Char} {q : Char} {qs t rest : List Char}
    (hop : op ≠ []) (ht : q ∉ t) :
    subsBetween op (q :: qs) (op ++ (t ++ ((q :: qs) ++ rest))) =
      t :: subsBetween op (q :: qs) rest := by
  refine subsBetween_extract hop (by simp) ?_
  have hlen : (((q :: qs) ++ rest).take ((q :: qs).length - 1)).length ≤ qs.length := by
    simpa using length_take_le' ((q :: qs).length - 1) ((q :: qs) ++ rest)
  exact contains_append_short₂ ht hlen

/-- Terminal step: nothing after the last extraction. -/
theorem subsBetween_tail_zero {pat cl : List Char} {parts : List (List Char)}
    (hp : pat ≠ []) (h : ZeroStream pat parts) :
    subsBetween pat cl (catL parts) = [] :=
  subsBetween_of_not_contains hp (contains_catL_false hp parts h)

/-! `rstrip` elimination used to flatten the templates: peeling the
concatenation from the left, and idempotence. -/

theorem dropWhile_idem (p : Char → Bool) (l : List Char) :
    (l.dropWhile p).dropWhile p = l.dropWhile p := by
  induction l with
  | nil => rfl
  | cons c rest ih =>
    cases hp : p c with
    | true => rw [List.dropWhile_cons_of_pos hp, ih]
    | false =>
      have hp' : ¬ p c = true := by simp [hp]
      rw [List.dropWhile_cons_of_neg hp', List.dropWhile_cons_of_neg hp']

theorem pyRstrip_idem (s : String) : pyRstrip (pyRstrip s) = pyRstrip s := by
  refine str_eq_of_data ?_
  rw [rstripL_data, rstripL_data]
  show rstripL (rstripL s.data) = rstripL s.data
  unfold rstripL
  rw [List.reverse_reverse, dropWhile_idem]

theorem append_ne_empty_right {t : String} (s : String) (h : t ≠ "") :
    s ++ t ≠ "" := by
  intro h0
  refine h (str_eq_of_data ?_)
  have := congrArg String.data h0
  rw [data_append] at this
  have : t.data = [] := by
    cases hd : t.data with
    | nil => rfl
    | cons a as =>
      rw [hd] at this
      exact absurd (congrArg List.length this) (by simp)
  rw [this]

theorem append_ne_empty_left {s : String} (t : String) (h : s ≠ "") :
    s ++ t ≠ "" := by
  intro h0
  refine h (str_eq_of_data ?_)
  have := congrArg String.data h0
  rw [data_append] at this
  have : s.data = [] := by
    cases hd : s.data with
    | nil => rfl
    | cons a as =>
      rw [hd] at this
      exact absurd (congrArg List.length this) (by simp)
  rw [this]

/-- One peeling step: if the remainder rstrips to a known nonempty value,
the head passes through untouched. -/
theorem pyRstrip_cons (x : String) {R R' : String} (h : pyRstrip R = R')
    (hne : R' ≠ "") : pyRstrip (x ++ R) = x ++ R' ∧ x ++ R' ≠ "" := by
  constructor
  · rw [pyRstrip_append x R (by rw [h]; exact hne), h]
  · exact append_ne_empty_right x hne

theorem string_assoc (a b c : String) : (a ++ b) ++ c = a ++ (b ++ c) := by
  refine str_eq_of_data ?_
  simp [data_append, List.append_assoc]

theorem not_mem_of_contains_false {a : Char} {l : List Char}
    (h : l.contains a = false) : a ∉ l := by
  intro hm
  rw [List.contains_eq_any_beq] at h
  have : l.any (a == ·) = true := by
    rw [List.any_eq_true]
    exact ⟨a, hm, by simp⟩
  rw [this] at h
  cases h

/-! Flattening lemmas: each template block equals the concatenation of its
pieces with the trailing `rstrip` applied only to the final literal. -/

def HB2R : String := "\n  </div>\n</header>"
def FB5R : String := ". All rights reserved.</div>\n  </div>\n</footer>"
def PCBER : String := "</</p>"
def PCLER : String := "</p>"
def CO6R : String := "\u201d button above.\n  </p>\n</div>"
def CT3R : String := ". Final pricing depends on access, nest location, and time on site.\n</p>"


theorem header_flat (h1 sub : String) :
    header_block h1 sub = HB1 ++ H1O ++ esc h1 ++ H1C ++ HB2R := by
  simp only [header_block]
  rw [pyRstrip_append _ HB2 (by decide), show pyRstrip HB2 = HB2R from by decide]

theorem footer_flat :
    footer_block = FB1 ++ H2O ++ "Next steps" ++ H2C ++ FB2 ++ esc CONFIG.cta_href ++ FB3 ++ esc CONFIG.cta_text ++ FB4 ++ esc BRAND_NAME ++ FB5R := by
  simp only [footer_block]
  rw [pyRstrip_append _ FB5 (by decide), show pyRstrip FB5 = FB5R from by decide]

theorem footer_rstrip : pyRstrip footer_block = footer_block :=
  pyRstrip_idem _

theorem footer_ne : footer_block ≠ "" := by
  rw [footer_flat]
  intro h0
  have h1 := congrArg String.data h0
  rw [data_append] at h1
  exact absurd (congrArg List.length h1) (by decide)


theorem shared_flat (local_line : Option String) :
    shared_sections_html local_line = NL ++ H2O ++ esc (H2_SHARED.getD 0 "") ++ H2C ++ POP ++ esc (P_SHARED.getD 0 "") ++ PCB ++ H2O ++ esc (H2_SHARED.getD 1 "") ++ H2C ++ POP ++ esc (P_SHARED.getD 1 "") ++ PCB ++ H2O ++ esc (H2_SHARED.getD 2 "") ++ H2C ++ POP ++ esc (P_SHARED.getD 2 "") ++ PCB ++ H2O ++ esc (H2_SHARED.getD 3 "") ++ H2C ++ POP ++ esc (P_SHARED.getD 3 "") ++ PCB ++ H2O ++ esc (H2_SHARED.getD 4 "") ++ H2C ++ POP ++ esc (P_SHARED.getD 4 "") ++ PCB ++ H2O ++ esc (H2_SHARED.getD 5 "") ++ H2C ++ POP ++ esc (P_SHARED.getD 5 "") ++ PCBER := by
  simp only [shared_sections_html]
  rw [pyRstrip_append _ PCBE (by decide), show pyRstrip PCBE = PCBER from by decide]

theorem cost_sections_flat :
    cost_sections_html = NL ++ H2O ++ esc (H2_COST.getD 0 "") ++ H2C ++ POP ++ esc (P_COST.getD 0 "") ++ PCL ++ H2O ++ esc (H2_COST.getD 1 "") ++ H2C ++ POP ++ esc (P_COST.getD 1 "") ++ PCL ++ H2O ++ esc (H2_COST.getD 2 "") ++ H2C ++ POP ++ esc (P_COST.getD 2 "") ++ PCL ++ H2O ++ esc (H2_COST.getD 3 "") ++ H2C ++ POP ++ esc (P_COST.getD 3 "") ++ PCL ++ H2O ++ esc (H2_COST.getD 4 "") ++ H2C ++ POP ++ esc (P_COST.getD 4 "") ++ PCL ++ H2O ++ esc (H2_COST.getD 5 "") ++ H2C ++ POP ++ esc (P_COST.getD 5 "") ++ PCLE ++ CT1 ++ toString CONFIG.cost_low ++ CT2 ++ toString CONFIG.cost_high ++ CT3R := by
  simp only [cost_sections_html]
  rw [pyRstrip_append _ CT3 (by decide), show pyRstrip CT3 = CT3R from by decide]

theorem howto_sections_flat :
    howto_sections_html = NL ++ H2O ++ esc (H2_HOWTO.getD 0 "") ++ H2C ++ POP ++ esc (P_HOWTO.getD 0 "") ++ PCL ++ H2O ++ esc (H2_HOWTO.getD 1 "") ++ H2C ++ POP ++ esc (P_HOWTO.getD 1 "") ++ PCL ++ H2O ++ esc (H2_HOWTO.getD 2 "") ++ H2C ++ POP ++ esc (P_HOWTO.getD 2 "") ++ PCL ++ H2O ++ esc (H2_HOWTO.getD 3 "") ++ H2C ++ POP ++ esc (P_HOWTO.getD 3 "") ++ PCL ++ H2O ++ esc (H2_HOWTO.getD 4 "") ++ H2C ++ POP ++ esc (P_HOWTO.getD 4 "") ++ PCL ++ H2O ++ esc (H2_HOWTO.getD 5 "") ++ H2C ++ POP ++ esc (P_HOWTO.getD 5 "") ++ PCLER := by
  simp only [howto_sections_html]
  rw [pyRstrip_append _ PCLE (by decide), show pyRstrip PCLE = PCLER from by decide]

theorem callout_flat (city state : String) :
    city_cost_callout_html city state = CO1 ++ toString CONFIG.cost_low ++ CO2 ++ toString CONFIG.cost_high ++ CO3 ++ esc city ++ CO4 ++ esc state ++ CO5 ++ esc CONFIG.cta_text ++ CO6R := by
  simp only [city_cost_callout_html]
  rw [pyRstrip_append _ CO6 (by decide), show pyRstrip CO6 = CO6R from by decide]

theorem page_shell_flat (h1 sub inner_html : String) :
    page_shell h1 sub inner_html =
      header_block h1 sub ++ PS1 ++ esc ("/" ++ CONFIG.image_filename) ++
        PS2 ++ inner_html ++ PS3 ++ footer_block := by
  simp only [page_shell]
  rw [pyRstrip_append _ footer_block (by rw [footer_rstrip]; exact footer_ne),
    footer_rstrip]


/-! Page part lists: every page's character data equals the concatenation
of its parts, with all `rstrip`s eliminated and the `clamp_title` calls on
constant titles and descriptions reduced away. -/

theorem clamp_cost_title : clamp_title COST_TITLE 70 = COST_TITLE :=
  clamp_title_of_le (by decide)

theorem clamp_howto_title : clamp_title HOWTO_TITLE 70 = HOWTO_TITLE :=
  clamp_title_of_le (by decide)

theorem clamp_home_title : clamp_title H1_TITLE 70 = H1_TITLE :=
  clamp_title_of_le (by decide)

theorem clamp_cost_desc :
    clamp_title "Typical wasp nest removal cost ranges and what changes pricing." 155 =
      "Typical wasp nest removal cost ranges and what changes pricing." :=
  clamp_title_of_le (by decide)

theorem clamp_howto_desc :
    clamp_title "Clear steps for dealing with a wasp nest without making it worse." 155 =
      "Clear steps for dealing with a wasp nest without making it worse." :=
  clamp_title_of_le (by decide)

theorem clamp_home_desc :
    clamp_title "Straight answers on wasp nest removal and wasp control." 155 =
      "Straight answers on wasp nest removal and wasp control." :=
  clamp_title_of_le (by decide)

theorem clamp_city_h1 (city state : String) :
    clamp_title (city_h1 H1_TITLE city state) 70 = city_h1 H1_TITLE city state := by
  rw [city_h1]
  exact clamp_title_idem _ 70 (by decide)


def costParts : List (List Char) :=
  [BH1.data,
   TTO.data,
   (esc (COST_TITLE)).data,
   TTC.data,
   BH2.data,
   (esc ("Typical wasp nest removal cost ranges and what changes pricing.")).data,
   BH3.data,
   (esc ("/cost/")).data,
   BH4.data,
   CSS.data,
   BH5.data,
   (esc BRAND_NAME).data,
   BH6.data,
   (nav_html "cost").data,
   BH7.data,
   HB1.data,
   H1O.data,
   (esc (COST_TITLE)).data,
   H1C.data,
   HB2R.data,
   PS1.data,
   (esc ("/" ++ CONFIG.image_filename)).data,
   PS2.data,
   NL.data,
   H2O.data,
   (esc (H2_COST.getD 0 "")).data,
   H2C.data,
   POP.data,
   (esc (P_COST.getD 0 "")).data,
   PCL.data,
   H2O.data,
   (esc (H2_COST.getD 1 "")).data,
   H2C.data,
   POP.data,
   (esc (P_COST.getD 1 "")).data,
   PCL.data,
   H2O.data,
   (esc (H2_COST.getD 2 "")).data,
   H2C.data,
   POP.data,
   (esc (P_COST.getD 2 "")).data,
   PCL.data,
   H2O.data,
   (esc (H2_COST.getD 3 "")).data,
   H2C.data,
   POP.data,
   (esc (P_COST.getD 3 "")).data,
   PCL.data,
   H2O.data,
   (esc (H2_COST.getD 4 "")).data,
   H2C.data,
   POP.data,
   (esc (P_COST.getD 4 "")).data,
   PCL.data,
   H2O.data,
   (esc (H2_COST.getD 5 "")).data,
   H2C.data,
   POP.data,
   (esc (P_COST.getD 5 "")).data,
   PCLE.data,
   CT1.data,
   (toString CONFIG.cost_low).data,
   CT2.data,
   (toString CONFIG.cost_high).data,
   CT3R.data,
   PS3.data,
   FB1.data,
   H2O.data,
   ("Next steps").data,
   H2C.data,
   FB2.data,
   (esc CONFIG.cta_href).data,
   FB3.data,
   (esc CONFIG.cta_text).data,
   FB4.data,
   (esc BRAND_NAME).data,
   FB5R.data,
   BH8.data]

def howtoParts : List (List Char) :=
  [BH1.data,
   TTO.data,
   (esc (HOWTO_TITLE)).data,
   TTC.data,
   BH2.data,
   (esc ("Clear steps for dealing with a wasp nest without making it worse.")).data,
   BH3.data,
   (esc ("/how-to/")).data,
   BH4.data,
   CSS.data,
   BH5.data,
   (esc BRAND_NAME).data,
   BH6.data,
   (nav_html "howto").data,
   BH7.data,
   HB1.data,
   H1O.data,
   (esc (HOWTO_TITLE)).data,
   H1C.data,
   HB2R.data,
   PS1.data,
   (esc ("/" ++ CONFIG.image_filename)).data,
   PS2.data,
   NL.data,
   H2O.data,
   (esc (H2_HOWTO.getD 0 "")).data,
   H2C.data,
   POP.data,
   (esc (P_HOWTO.getD 0 "")).data,
   PCL.data,
   H2O.data,
   (esc (H2_HOWTO.getD 1 "")).data,
   H2C.data,
   POP.data,
   (esc (P_HOWTO.getD 1 "")).data,
   PCL.data,
   H2O.data,
   (esc (H2_HOWTO.getD 2 "")).data,
   H2C.data,
   POP.data,
   (esc (P_HOWTO.getD 2 "")).data,
   PCL.data,
   H2O.data,
   (esc (H2_HOWTO.getD 3 "")).data,
   H2C.data,
   POP.data,
   (esc (P_HOWTO.getD 3 "")).data,
   PCL.data,
   H2O.data,
   (esc (H2_HOWTO.getD 4 "")).data,
   H2C.data,
   POP.data,
   (esc (P_HOWTO.getD 4 "")).data,
   PCL.data,
   H2O.data,
   (esc (H2_HOWTO.getD 5 "")).data,
   H2C.data,
   POP.data,
   (esc (P_HOWTO.getD 5 "")).data,
   PCLER.data,
   PS3.data,
   FB1.data,
   H2O.data,
   ("Next steps").data,
   H2C.data,
   FB2.data,
   (esc CONFIG.cta_href).data,
   FB3.data,
   (esc CONFIG.cta_text).data,
   FB4.data,
   (esc BRAND_NAME).data,
   FB5R.data,
   BH8.data]

def homeParts : List (List Char) :=
  [BH1.data,
   TTO.data,
   (esc (H1_TITLE)).data,
   TTC.data,
   BH2.data,
   (esc ("Straight answers on wasp nest removal and wasp control.")).data,
   BH3.data,
   (esc ("/")).data,
   BH4.data,
   CSS.data,
   BH5.data,
   (esc BRAND_NAME).data,
   BH6.data,
   (nav_html "home").data,
   BH7.data,
   HB1.data,
   H1O.data,
   (esc (H1_TITLE)).data,
   H1C.data,
   HB2R.data,
   PS1.data,
   (esc ("/" ++ CONFIG.image_filename)).data,
   PS2.data,
   NL.data,
   H2O.data,
   (esc (H2_SHARED.getD 0 "")).data,
   H2C.data,
   POP.data,
   (esc (P_SHARED.getD 0 "")).data,
   PCB.data,
   H2O.data,
   (esc (H2_SHARED.getD 1 "")).data,
   H2C.data,
   POP.data,
   (esc (P_SHARED.getD 1 "")).data,
   PCB.data,
   H2O.data,
   (esc (H2_SHARED.getD 2 "")).data,
   H2C.data,
   POP.data,
   (esc (P_SHARED.getD 2 "")).data,
   PCB.data,
   H2O.data,
   (esc (H2_SHARED.getD 3 "")).data,
   H2C.data,
   POP.data,
   (esc (P_SHARED.getD 3 "")).data,
   PCB.data,
   H2O.data,
   (esc (H2_SHARED.getD 4 "")).data,
   H2C.data,
   POP.data,
   (esc (P_SHARED.getD 4 "")).data,
   PCB.data,
   H2O.data,
   (esc (H2_SHARED.getD 5 "")).data,
   H2C.data,
   POP.data,
   (esc (P_SHARED.getD 5 "")).data,
   PCBER.data,
   HP1.data,
   H2O.data,
   ("Choose your city").data,
   H2C.data,
   HP2.data,
   (String.intercalate "\n" (CITIES.map city_link_li)).data,
   HP3.data,
   PS3.data,
   FB1.data,
   H2O.data,
   ("Next steps").data,
   H2C.data,
   FB2.data,
   (esc CONFIG.cta_href).data,
   FB3.data,
   (esc CONFIG.cta_text).data,
   FB4.data,
   (esc BRAND_NAME).data,
   FB5R.data,
   BH8.data]

def cityParts (city state : String) : List (List Char) :=
  [BH1.data,
   TTO.data,
   (esc (city_h1 H1_TITLE city state)).data,
   TTC.data,
   BH2.data,
   (esc (clamp_title (city_desc city state) 155)).data,
   BH3.data,
   (esc ("/" ++ city_state_slug city state ++ "/")).data,
   BH4.data,
   CSS.data,
   BH5.data,
   (esc BRAND_NAME).data,
   BH6.data,
   (nav_html "home").data,
   BH7.data,
   HB1.data,
   H1O.data,
   (esc (city_h1 H1_TITLE city state)).data,
   H1C.data,
   HB2R.data,
   PS1.data,
   (esc ("/" ++ CONFIG.image_filename)).data,
   PS2.data,
   NL.data,
   H2O.data,
   (esc (H2_SHARED.getD 0 "")).data,
   H2C.data,
   POP.data,
   (esc (P_SHARED.getD 0 "")).data,
   PCB.data,
   H2O.data,
   (esc (H2_SHARED.getD 1 "")).data,
   H2C.data,
   POP.data,
   (esc (P_SHARED.getD 1 "")).data,
   PCB.data,
   H2O.data,
   (esc (H2_SHARED.getD 2 "")).data,
   H2C.data,
   POP.data,
   (esc (P_SHARED.getD 2 "")).data,
   PCB.data,
   H2O.data,
   (esc (H2_SHARED.getD 3 "")).data,
   H2C.data,
   POP.data,
   (esc (P_SHARED.getD 3 "")).data,
   PCB.data,
   H2O.data,
   (esc (H2_SHARED.getD 4 "")).data,
   H2C.data,
   POP.data,
   (esc (P_SHARED.getD 4 "")).data,
   PCB.data,
   H2O.data,
   (esc (H2_SHARED.getD 5 "")).data,
   H2C.data,
   POP.data,
   (esc (P_SHARED.getD 5 "")).data,
   PCBER.data,
   CO1.data,
   (toString CONFIG.cost_low).data,
   CO2.data,
   (toString CONFIG.cost_high).data,
   CO3.data,
   (esc city).data,
   CO4.data,
   (esc state).data,
   CO5.data,
   (esc CONFIG.cta_text).data,
   CO6R.data,
   CY1.data,
   H2O.data,
   ("Wasp Nest Removal Cost").data,
   H2C.data,
   CY2.data,
   (toString CONFIG.cost_low).data,
   CY3.data,
   (toString CONFIG.cost_high).data,
   CY4.data,
   PS3.data,
   FB1.data,
   H2O.data,
   ("Next steps").data,
   H2C.data,
   FB2.data,
   (esc CONFIG.cta_href).data,
   FB3.data,
   (esc CONFIG.cta_text).data,
   FB4.data,
   (esc BRAND_NAME).data,
   FB5R.data,
   BH8.data]

theorem cost_parts_eq : cost_page_html.data = catL costParts := by
  simp only [cost_page_html, make_page]
  rw [clamp_cost_title, clamp_cost_desc]
  rw [page_shell_flat, header_flat, cost_sections_flat, footer_flat]
  simp only [base_html, costParts, catL, List.foldr, data_append, List.append_assoc, List.append_nil]

theorem howto_parts_eq : howto_page_html.data = catL howtoParts := by
  simp only [howto_page_html, make_page]
  rw [clamp_howto_title, clamp_howto_desc]
  rw [page_shell_flat, header_flat, howto_sections_flat, footer_flat]
  simp only [base_html, howtoParts, catL, List.foldr, data_append, List.append_assoc, List.append_nil]

theorem home_parts_eq : homepage_html.data = catL homeParts := by
  simp only [homepage_html, make_page]
  rw [clamp_home_title, clamp_home_desc]
  rw [page_shell_flat, header_flat, shared_flat, footer_flat]
  simp only [base_html, homeParts, catL, List.foldr, data_append, List.append_assoc, List.append_nil]

theorem city_parts_eq (city state : String) :
    (city_page_html city state).data = catL (cityParts city state) := by
  simp only [city_page_html, make_page]
  rw [clamp_city_h1]
  rw [page_shell_flat, header_flat, shared_flat, callout_flat, footer_flat]
  simp only [base_html, cityParts, catL, List.foldr, data_append, List.append_assoc, List.append_nil]

/-! Uniform walk steps.  Each page is a concatenation of parts; walking a
search or an extraction across it takes one lemma application per part.  The
side condition for skipping a constant part is a single boolean (`partOk`),
decidable part-by-part, and the look-ahead window of a skipped part is never
inspected, so city-dependent parts are handled purely symbolically. -/

/-- Head of a pattern (patterns are never empty where this is used). -/
def hChar (pat : List Char) : Char := pat.headD 'a'

/-- `pat` does not occur in `x`, and no occurrence can straddle `x`'s right
edge under the conservative head-character test. -/
def partOk : List Char → List Char → Bool
  | [], _ => false
  | p :: ps, x => !(containsSub (p :: ps) x) && !((x.drop (x.length - ps.length)).contains p)

/-- The property all skip steps need: no occurrence of `pat` in `x` extended
by any window shorter than the pattern. -/
def SafePart (pat x : List Char) : Prop :=
  ∀ W : List Char, W.length ≤ pat.length - 1 → containsSub pat (x ++ W) = false

theorem safe_of_partOk {pat x : List Char} (h : partOk pat x = true) :
    SafePart pat x := by
  cases pat with
  | nil => simp [partOk] at h
  | cons p ps =>
    simp only [partOk, Bool.and_eq_true, Bool.not_eq_true'] at h
    intro W hW
    refine contains_append_short h.1 (not_mem_of_contains_false h.2) ?_
    simpa using hW

theorem safe_of_notin {pat x : List Char} (hp : pat ≠ []) (h : hChar pat ∉ x) :
    SafePart pat x := by
  cases pat with
  | nil => exact absurd rfl hp
  | cons p ps =>
    intro W hW
    refine contains_append_short₂ h ?_
    simpa using hW

theorem contains_false_of_safe {pat x : List Char} (hs : SafePart pat x) :
    containsSub pat x = false := by
  have := hs [] (by simp)
  simpa using this

/-! skip steps for `subsBetween` -/

theorem skipStepG (pat x : List Char) {cl rest : List Char} (hs : SafePart pat x) :
    subsBetween pat cl (x ++ rest) = subsBetween pat cl rest :=
  subsBetween_skip (hs _ (length_take_le' _ _))

theorem skipStep (pat x : List Char) {cl rest : List Char} (h : partOk pat x = true) :
    subsBetween pat cl (x ++ rest) = subsBetween pat cl rest :=
  skipStepG _ _ (safe_of_partOk h)

theorem skipStepN (pat x : List Char) {cl rest : List Char} (hp : pat ≠ [])
    (h : hChar pat ∉ x) :
    subsBetween pat cl (x ++ rest) = subsBetween pat cl rest :=
  skipStepG _ _ (safe_of_notin hp h)

/-- Extraction step: the opening pattern sits at the head, the enclosed text
avoids the closing pattern's head character. -/
theorem sbExtract (op cl t : List Char) {rest : List Char} (hop : op ≠ []) (hcl : cl ≠ [])
    (ht : hChar cl ∉ t) :
    subsBetween op cl (op ++ (t ++ (cl ++ rest))) = t :: subsBetween op cl rest := by
  refine subsBetween_extract hop hcl ?_
  cases cl with
  | nil => exact absurd rfl hcl
  | cons q qs =>
    refine contains_append_short₂ ht ?_
    simpa using length_take_le' ((q :: qs).length - 1) ((q :: qs) ++ rest)

/-- Terminal step: the pattern does not occur in the final piece. -/
theorem sbEnd (op x : List Char) {cl : List Char} (hop : op ≠ []) (h : containsSub op x = false) :
    subsBetween op cl x = [] :=
  subsBetween_of_not_contains hop h

/-! `ZeroStream` steps -/

theorem zsConsG {pat x : List Char} {parts : List (List Char)} (hs : SafePart pat x)
    (hrest : ZeroStream pat parts) : ZeroStream pat (x :: parts) :=
  ⟨hs _ (length_take_le' _ _), hrest⟩

theorem zsCons {pat x : List Char} {parts : List (List Char)} (h : partOk pat x = true)
    (hrest : ZeroStream pat parts) : ZeroStream pat (x :: parts) :=
  zsConsG (safe_of_partOk h) hrest

theorem zsConsN {pat x : List Char} {parts : List (List Char)} (hp : pat ≠ [])
    (h : hChar pat ∉ x) (hrest : ZeroStream pat parts) : ZeroStream pat (x :: parts) :=
  zsConsG (safe_of_notin hp h) hrest

/-! skip and extraction steps for `textBetween` -/

theorem tbSkipG (op x : List Char) {cl rest : List Char} (hs : SafePart op x) :
    textBetween op cl (x ++ rest) = textBetween op cl rest := by
  unfold textBetween
  rw [splitAtSub_append_skip (hs _ (length_take_le' _ _))]
  cases o : splitAtSub op rest with
  | none => simp
  | some xy => simp

theorem tbSkip (op x : List Char) {cl rest : List Char} (h : partOk op x = true) :
    textBetween op cl (x ++ rest) = textBetween op cl rest :=
  tbSkipG _ _ (safe_of_partOk h)

theorem tbSkipN (op x : List Char) {cl rest : List Char} (hp : op ≠ [])
    (h : hChar op ∉ x) :
    textBetween op cl (x ++ rest) = textBetween op cl rest :=
  tbSkipG _ _ (safe_of_notin hp h)

theorem tbExtract (op cl t : List Char) {rest : List Char} (hop : op ≠ []) (hcl : cl ≠ [])
    (ht : hChar cl ∉ t) :
    textBetween op cl (op ++ (t ++ (cl ++ rest))) = some t := by
  have h2 : splitAtSub cl (t ++ (cl ++ rest)) = some (t, rest) := by
    have hsafe : containsSub cl (t ++ (cl ++ rest).take (cl.length - 1)) = false := by
      cases cl with
      | nil => exact absurd rfl hcl
      | cons q qs =>
        refine contains_append_short₂ ht ?_
        simpa using length_take_le' ((q :: qs).length - 1) ((q :: qs) ++ rest)
    rw [splitAtSub_append_skip hsafe]
    cases cl with
    | nil => exact absurd rfl hcl
    | cons q qs =>
      rw [splitAtSub_self]
      simp
  cases op with
  | nil => exact absurd rfl hop
  | cons p ps =>
    unfold textBetween
    rw [splitAtSub_self]
    simp only []
    rw [h2]

/-! Chunked handling of the one large constant part (the stylesheet), and
unfolding equations for `String.join` / `String.intercalate`. -/

theorem str_mk_data (s : String) : String.mk s.data = s := rfl

/-- Chunking: a part is safe when its left chunk shows no occurrence up to
the right chunk's window and the right chunk is itself safe.  The length
side condition is phrased on a `take` so that it never evaluates the full
length of the right chunk. -/
theorem safe_append {pat a b : List Char}
    (h3 : (b.take (pat.length - 1)).length = pat.length - 1)
    (h1 : containsSub pat (a ++ b.take (pat.length - 1)) = false)
    (h2 : SafePart pat b) : SafePart pat (a ++ b) := by
  intro W hW
  rw [List.append_assoc, contains_split]
  have hle : pat.length - 1 ≤ b.length := by
    rw [List.length_take] at h3
    omega
  have hbW : (b ++ W).take (pat.length - 1) = b.take (pat.length - 1) :=
    List.take_append_of_le_length hle
  rw [hbW, h1, h2 W hW]
  rfl

def cssA : List Char := CSS.data.take 1600
def cssB : List Char := (CSS.data.drop 1600).take 1600
def cssC : List Char := CSS.data.drop 3200

theorem css_split3 : CSS.data = cssA ++ (cssB ++ cssC) := by
  show CSS.data = CSS.data.take 1600 ++ ((CSS.data.drop 1600).take 1600 ++ CSS.data.drop 3200)
  rw [show CSS.data.drop 3200 = (CSS.data.drop 1600).drop 1600 by rw [List.drop_drop]]
  rw [List.take_append_drop, List.take_append_drop]

theorem css_safe_h1 : SafePart "<h1>".data CSS.data := by
  rw [css_split3]
  refine safe_append (by decide) (by decide) ?_
  refine safe_append (by decide) (by decide) ?_
  exact safe_of_partOk (by decide)

theorem css_safe_h2 : SafePart "<h2>".data CSS.data := by
  rw [css_split3]
  refine safe_append (by decide) (by decide) ?_
  refine safe_append (by decide) (by decide) ?_
  exact safe_of_partOk (by decide)

theorem css_safe_title : SafePart "<title>".data CSS.data := by
  rw [css_split3]
  refine safe_append (by decide) (by decide) ?_
  refine safe_append (by decide) (by decide) ?_
  exact safe_of_partOk (by decide)

theorem css_safe_serving : SafePart "Serving ".data CSS.data := by
  rw [css_split3]
  refine safe_append (by decide) (by decide) ?_
  refine safe_append (by decide) (by decide) ?_
  exact safe_of_partOk (by decide)

/-! unfolding `String.join` and `String.intercalate` -/

theorem foldl_append_acc (l : List String) :
    ∀ acc : String, List.foldl (fun r s => r ++ s) acc l =
      acc ++ List.foldl (fun r s => r ++ s) "" l := by
  induction l with
  | nil =>
    intro acc
    refine str_eq_of_data ?_
    simp [data_append]
  | cons a as ih =>
    intro acc
    show List.foldl _ (acc ++ a) as = acc ++ List.foldl _ ("" ++ a) as
    rw [ih (acc ++ a), ih ("" ++ a)]
    refine str_eq_of_data ?_
    simp [data_append, List.append_assoc]

theorem join_cons (a : String) (l : List String) :
    String.join (a :: l) = a ++ String.join l := by
  show List.foldl _ ("" ++ a) l = a ++ List.foldl _ "" l
  rw [foldl_append_acc l ("" ++ a)]
  refine str_eq_of_data ?_
  simp [data_append]

theorem join_nil : String.join ([] : List String) = "" := rfl

theorem intercalate_go_acc (s : String) (l : List String) :
    ∀ acc x : String, String.intercalate.go (acc ++ x) s l =
      acc ++ String.intercalate.go x s l := by
  induction l with
  | nil =>
    intro acc x
    rfl
  | cons c cs ih =>
    intro acc x
    show String.intercalate.go (acc ++ x ++ s ++ c) s cs =
      acc ++ String.intercalate.go (x ++ s ++ c) s cs
    rw [show acc ++ x ++ s ++ c = acc ++ (x ++ s ++ c) from
      str_eq_of_data (by simp [data_append, List.append_assoc])]
    exact ih acc (x ++ s ++ c)

theorem intercalate_cons2 (s a b : String) (l : List String) :
    String.intercalate s (a :: b :: l) =
      a ++ s ++ String.intercalate s (b :: l) := by
  show String.intercalate.go (a ++ s ++ b) s l =
    (a ++ s) ++ String.intercalate.go b s l
  exact intercalate_go_acc s l (a ++ s) b

theorem intercalate_one (s a : String) : String.intercalate s [a] = a := rfl

/-! Compositional safety, the home-page link roll, slug shape, and the
sitemap walk. -/

theorem SafePart.append {pat a b : List Char} (ha : SafePart pat a)
    (hb : SafePart pat b) : SafePart pat (a ++ b) := by
  intro W hW
  rw [List.append_assoc, contains_split]
  rw [ha _ (length_take_le' _ _), hb W hW]
  rfl

theorem safe_of_ne {pat : List Char} (hp : pat ≠ []) {x : List Char}
    (h : ∀ W : List Char, W.length ≤ pat.length - 1 →
      containsSub pat (x ++ W) = false) : SafePart pat x := h

/-- The combined city slug is well-shaped: non-empty, only `[a-z0-9-]`,
no edge hyphen, no hyphen run. -/
def goodSlug (s : String) : Bool :=
  !(s == "") && s.data.all (fun c => isSlugChar c || c == '-') &&
  !(s.data.head? == some '-') && !(s.data.getLast? == some '-') &&
  noTwoDash s.data

theorem goodSlug_no_lt {t : String} (h : goodSlug t = true) :
    '<' ∉ ("/" ++ t ++ "/").data := by
  intro hm
  rw [data_append, data_append] at hm
  rcases List.mem_append.mp hm with hm1 | hm2
  · rcases List.mem_append.mp hm1 with hm3 | hm4
    · simp at hm3
    · simp only [goodSlug, Bool.and_eq_true] at h
      have hall := h.1.1.1.2
      rw [List.all_eq_true] at hall
      have := hall '<' hm4
      simp [isSlugChar] at this
  · simp at hm2

/-- Safety of the home-page link roll follows from per-city safety of each
link (the separator is handled by the caller's `hsep`). -/
theorem links_safe {pat : List Char} (hp : pat ≠ [])
    (hsep : SafePart pat "\n".data) :
    ∀ l : List (String × String),
      (∀ cs ∈ l, partOk pat (city_link_li cs).data = true) →
      SafePart pat (String.intercalate "\n" (l.map city_link_li)).data := by
  intro l
  induction l with
  | nil =>
    intro _
    intro W hW
    show containsSub pat W = false
    have hl : 1 ≤ pat.length := by
      cases pat with
      | nil => exact absurd rfl hp
      | cons a as => simp
    exact contains_of_short (by omega)
  | cons c cs ih =>
    intro h
    cases cs with
    | nil =>
      simp only [List.map_cons, List.map_nil]
      rw [intercalate_one]
      exact safe_of_partOk (h c (List.mem_cons_self c []))
    | cons d ds =>
      simp only [List.map_cons]
      rw [intercalate_cons2]
      rw [show (city_link_li c ++ "\n" ++
          String.intercalate "\n" (city_link_li d :: List.map city_link_li ds)).data =
          ((city_link_li c).data ++ "\n".data) ++
          (String.intercalate "\n" (city_link_li d :: List.map city_link_li ds)).data from by
        rw [data_append, data_append]]
      refine SafePart.append (SafePart.append ?_ hsep) ?_
      · exact safe_of_partOk (h c (List.mem_cons_self _ _))
      · have := ih (fun cs hcs => h cs (List.mem_cons_of_mem c hcs))
        simpa [List.map_cons] using this

/-- The sitemap body walk: one extracted text per url, in order. -/
theorem locs_walk :
    ∀ urls : List String, (∀ u ∈ urls, '<' ∉ u.data) →
      subsBetween "<loc>".data "</loc>".data
        ((String.join (urls.map (fun u => LOCO ++ u ++ LOCC))).data ++ SM3.data) =
        urls.map String.data := by
  intro urls
  induction urls with
  | nil =>
    intro _
    rw [List.map_nil, List.map_nil, join_nil]
    show subsBetween "<loc>".data "</loc>".data (("" : String).data ++ SM3.data) = []
    rw [show ("" : String).data = [] from rfl, List.nil_append]
    exact sbEnd ("<loc>".data) SM3.data (by decide) (by decide)
  | cons u us ih =>
    intro h
    rw [List.map_cons, List.map_cons, join_cons]
    rw [show ((LOCO ++ u ++ LOCC) ++
        String.join (List.map (fun v => LOCO ++ v ++ LOCC) us)).data =
        ((LOCO.data ++ u.data) ++ LOCC.data) ++
        (String.join (List.map (fun v => LOCO ++ v ++ LOCC) us)).data from by
      rw [data_append, data_append, data_append]]
    simp only [List.append_assoc]
    rw [show LOCO.data = "  <url>".data ++ "<loc>".data from by decide,
      List.append_assoc]
    rw [skipStep ("<loc>".data) ("  <url>".data) (by decide)]
    rw [show LOCC.data = "</loc>".data ++ "</url>\n".data from by decide,
      List.append_assoc]
    rw [sbExtract ("<loc>".data) ("</loc>".data) u.data (by decide) (by decide)
      (by rw [show hChar "</loc>".data = '<' from rfl]
          exact h u (List.mem_cons_self u us))]
    rw [skipStep ("<loc>".data) ("</url>\n".data) (by decide)]
    rw [ih (fun v hv => h v (List.mem_cons_of_mem u hv))]

/-! Per-city facts, the roster scan in chunks, link-roll safety, the slug
uniqueness scan, and the page walk masters. -/

theorem disjoint_of_all_bool {l₁ l₂ : List String}
    (h : l₁.all (fun s => !(l₂.contains s)) = true) : List.Disjoint l₁ l₂ := by
  intro a ha hb
  rw [List.all_eq_true] at h
  have h2 := h a ha
  simp only [Bool.not_eq_true'] at h2
  have h3 : l₂.contains a = true := by
    rw [List.contains_eq_any_beq, List.any_eq_true]
    exact ⟨a, hb, by simp⟩
  rw [h3] at h2
  cases h2

/-- All per-city boolean facts needed by the walks: link safety for the
three scanned patterns, edge-safety of every city-dependent page part for
the "Serving " search, and the slug shape. -/
def cityOk (city state : String) : Bool :=
  partOk "<h1>".data (city_link_li (city, state)).data &&
  partOk "<h2>".data (city_link_li (city, state)).data &&
  partOk "Serving ".data (city_link_li (city, state)).data &&
  partOk "Serving ".data ((esc (city_h1 H1_TITLE city state)).data ++ (TTC.data)) &&
  partOk "Serving ".data ((esc (clamp_title (city_desc city state) 155)).data ++ (BH3.data)) &&
  partOk "Serving ".data ((esc ("/" ++ city_state_slug city state ++ "/")).data) &&
  partOk "Serving ".data ((esc (city_h1 H1_TITLE city state)).data ++ (H1C.data ++ (HB2R.data))) &&
  partOk "Serving ".data ((esc city).data ++ (CO4.data ++ ((esc state).data ++ (CO5.data)))) &&
  goodSlug (city_state_slug city state)

theorem cityOkE0 {city state : String} (h : cityOk city state = true) :
    partOk "<h1>".data (city_link_li (city, state)).data = true := by
  simp only [cityOk, Bool.and_eq_true] at h
  exact h.1.1.1.1.1.1.1.1

theorem cityOkE1 {city state : String} (h : cityOk city state = true) :
    partOk "<h2>".data (city_link_li (city, state)).data = true := by
  simp only [cityOk, Bool.and_eq_true] at h
  exact h.1.1.1.1.1.1.1.2

theorem cityOkE2 {city state : String} (h : cityOk city state = true) :
    partOk "Serving ".data (city_link_li (city, state)).data = true := by
  simp only [cityOk, Bool.and_eq_true] at h
  exact h.1.1.1.1.1.1.2

theorem cityOkE3 {city state : String} (h : cityOk city state = true) :
    partOk "Serving ".data ((esc (city_h1 H1_TITLE city state)).data ++ (TTC.data)) = true := by
  simp only [cityOk, Bool.and_eq_true] at h
  exact h.1.1.1.1.1.2

theorem cityOkE4 {city state : String} (h : cityOk city state = true) :
    partOk "Serving ".data ((esc (clamp_title (city_desc city state) 155)).data ++ (BH3.data)) = true := by
  simp only [cityOk, Bool.and_eq_true] at h
  exact h.1.1.1.1.2

theorem cityOkE5 {city state : String} (h : cityOk city state = true) :
    partOk "Serving ".data ((esc ("/" ++ city_state_slug city state ++ "/")).data) = true := by
  simp only [cityOk, Bool.and_eq_true] at h
  exact h.1.1.1.2

theorem cityOkE6 {city state : String} (h : cityOk city state = true) :
    partOk "Serving ".data ((esc (city_h1 H1_TITLE city state)).data ++ (H1C.data ++ (HB2R.data))) = true := by
  simp only [cityOk, Bool.and_eq_true] at h
  exact h.1.1.2

theorem cityOkE7 {city state : String} (h : cityOk city state = true) :
    partOk "Serving ".data ((esc city).data ++ (CO4.data ++ ((esc state).data ++ (CO5.data)))) = true := by
  simp only [cityOk, Bool.and_eq_true] at h
  exact h.1.2

theorem cityOkE8 {city state : String} (h : cityOk city state = true) :
    goodSlug (city_state_slug city state) = true := by
  simp only [cityOk, Bool.and_eq_true] at h
  exact h.2

theorem cityOkL1 (cs : String × String) (h : cityOk cs.1 cs.2 = true) :
    partOk "<h1>".data (city_link_li cs).data = true := by
  simp only [cityOk, Bool.and_eq_true] at h
  exact h.1.1.1.1.1.1.1.1

theorem cityOkL2 (cs : String × String) (h : cityOk cs.1 cs.2 = true) :
    partOk "<h2>".data (city_link_li cs).data = true := by
  simp only [cityOk, Bool.and_eq_true] at h
  exact h.1.1.1.1.1.1.1.2

theorem cityOkL3 (cs : String × String) (h : cityOk cs.1 cs.2 = true) :
    partOk "Serving ".data (city_link_li cs).data = true := by
  simp only [cityOk, Bool.and_eq_true] at h
  exact h.1.1.1.1.1.1.2

theorem cityOkG (cs : String × String) (h : cityOk cs.1 cs.2 = true) :
    goodSlug (city_state_slug cs.1 cs.2) = true := by
  simp only [cityOk, Bool.and_eq_true] at h
  exact h.2

theorem cityOk_c0 : ((CITIES.drop 0).take 20).all (fun cs => cityOk cs.1 cs.2) = true := by decide

theorem cityOk_c1 : ((CITIES.drop 20).take 20).all (fun cs => cityOk cs.1 cs.2) = true := by decide

theorem cityOk_c2 : ((CITIES.drop 40).take 20).all (fun cs => cityOk cs.1 cs.2) = true := by decide

theorem cityOk_c3 : ((CITIES.drop 60).take 20).all (fun cs => cityOk cs.1 cs.2) = true := by decide

theorem cityOk_c4 : ((CITIES.drop 80).take 20).all (fun cs => cityOk cs.1 cs.2) = true := by decide

theorem cityOk_c5 : ((CITIES.drop 100).take 20).all (fun cs => cityOk cs.1 cs.2) = true := by decide

theorem cityOk_c6 : ((CITIES.drop 120).take 20).all (fun cs => cityOk cs.1 cs.2) = true := by decide

theorem cityOk_c7 : ((CITIES.drop 140).take 20).all (fun cs => cityOk cs.1 cs.2) = true := by decide

theorem cityOk_c8 : ((CITIES.drop 160).take 20).all (fun cs => cityOk cs.1 cs.2) = true := by decide

theorem cityOk_c9 : ((CITIES.drop 180).take 20).all (fun cs => cityOk cs.1 cs.2) = true := by decide

theorem cityOk_c10 : ((CITIES.drop 200).take 20).all (fun cs => cityOk cs.1 cs.2) = true := by decide

theorem cityOk_c11 : ((CITIES.drop 220).take 20).all (fun cs => cityOk cs.1 cs.2) = true := by decide

theorem cityOk_c12 : ((CITIES.drop 240).take 20).all (fun cs => cityOk cs.1 cs.2) = true := by decide

theorem cityOk_c13 : ((CITIES.drop 260).take 20).all (fun cs => cityOk cs.1 cs.2) = true := by decide

theorem cityOk_c14 : ((CITIES.drop 280).take 20).all (fun cs => cityOk cs.1 cs.2) = true := by decide

theorem cityOk_c15 : ((CITIES.drop 300).take 20).all (fun cs => cityOk cs.1 cs.2) = true := by decide

theorem cityOk_c16 : ((CITIES.drop 320).take 20).all (fun cs => cityOk cs.1 cs.2) = true := by decide

theorem cityOk_clast : (CITIES.drop 340).all (fun cs => cityOk cs.1 cs.2) = true := by decide

theorem cities_cityOk : CITIES.all (fun cs => cityOk cs.1 cs.2) = true := by
  have h340 : (CITIES.drop 340).all (fun cs => cityOk cs.1 cs.2) = true := cityOk_clast
  have h320 : (CITIES.drop 320).all (fun cs => cityOk cs.1 cs.2) = true := by
    rw [← List.take_append_drop 20 (CITIES.drop 320), List.all_append]
    rw [show (CITIES.drop 320).drop 20 = CITIES.drop 340 from by simp [List.drop_drop]]
    rw [cityOk_c16, h340]
    rfl
  have h300 : (CITIES.drop 300).all (fun cs => cityOk cs.1 cs.2) = true := by
    rw [← List.take_append_drop 20 (CITIES.drop 300), List.all_append]
    rw [show (CITIES.drop 300).drop 20 = CITIES.drop 320 from by simp [List.drop_drop]]
    rw [cityOk_c15, h320]
    rfl
  have h280 : (CITIES.drop 280).all (fun cs => cityOk cs.1 cs.2) = true := by
    rw [← List.take_append_drop 20 (CITIES.drop 280), List.all_append]
    rw [show (CITIES.drop 280).drop 20 = CITIES.drop 300 from by simp [List.drop_drop]]
    rw [cityOk_c14, h300]
    rfl
  have h260 : (CITIES.drop 260).all (fun cs => cityOk cs.1 cs.2) = true := by
    rw [← List.take_append_drop 20 (CITIES.drop 260), List.all_append]
    rw [show (CITIES.drop 260).drop 20 = CITIES.drop 280 from by simp [List.drop_drop]]
    rw [cityOk_c13, h280]
    rfl
  have h240 : (CITIES.drop 240).all (fun cs => cityOk cs.1 cs.2) = true := by
    rw [← List.take_append_drop 20 (CITIES.drop 240), List.all_append]
    rw [show (CITIES.drop 240).drop 20 = CITIES.drop 260 from by simp [List.drop_drop]]
    rw [cityOk_c12, h260]
    rfl
  have h220 : (CITIES.drop 220).all (fun cs => cityOk cs.1 cs.2) = true := by
    rw [← List.take_append_drop 20 (CITIES.drop 220), List.all_append]
    rw [show (CITIES.drop 220).drop 20 = CITIES.drop 240 from by simp [List.drop_drop]]
    rw [cityOk_c11, h240]
    rfl
  have h200 : (CITIES.drop 200).all (fun cs => cityOk cs.1 cs.2) = true := by
    rw [← List.take_append_drop 20 (CITIES.drop 200), List.all_append]
    rw [show (CITIES.drop 200).drop 20 = CITIES.drop 220 from by simp [List.drop_drop]]
    rw [cityOk_c10, h220]
    rfl
  have h180 : (CITIES.drop 180).all (fun cs => cityOk cs.1 cs.2) = true := by
    rw [← List.take_append_drop 20 (CITIES.drop 180), List.all_append]
    rw [show (CITIES.drop 180).drop 20 = CITIES.drop 200 from by simp [List.drop_drop]]
    rw [cityOk_c9, h200]
    rfl
  have h160 : (CITIES.drop 160).all (fun cs => cityOk cs.1 cs.2) = true := by
    rw [← List.take_append_drop 20 (CITIES.drop 160), List.all_append]
    rw [show (CITIES.drop 160).drop 20 = CITIES.drop 180 from by simp [List.drop_drop]]
    rw [cityOk_c8, h180]
    rfl
  have h140 : (CITIES.drop 140).all (fun cs => cityOk cs.1 cs.2) = true := by
    rw [← List.take_append_drop 20 (CITIES.drop 140), List.all_append]
    rw [show (CITIES.drop 140).drop 20 = CITIES.drop 160 from by simp [List.drop_drop]]
    rw [cityOk_c7, h160]
    rfl
  have h120 : (CITIES.drop 120).all (fun cs => cityOk cs.1 cs.2) = true := by
    rw [← List.take_append_drop 20 (CITIES.drop 120), List.all_append]
    rw [show (CITIES.drop 120).drop 20 = CITIES.drop 140 from by simp [List.drop_drop]]
    rw [cityOk_c6, h140]
    rfl
  have h100 : (CITIES.drop 100).all (fun cs => cityOk cs.1 cs.2) = true := by
    rw [← List.take_append_drop 20 (CITIES.drop 100), List.all_append]
    rw [show (CITIES.drop 100).drop 20 = CITIES.drop 120 from by simp [List.drop_drop]]
    rw [cityOk_c5, h120]
    rfl
  have h80 : (CITIES.drop 80).all (fun cs => cityOk cs.1 cs.2) = true := by
    rw [← List.take_append_drop 20 (CITIES.drop 80), List.all_append]
    rw [show (CITIES.drop 80).drop 20 = CITIES.drop 100 from by simp [List.drop_drop]]
    rw [cityOk_c4, h100]
    rfl
  have h60 : (CITIES.drop 60).all (fun cs => cityOk cs.1 cs.2) = true := by
    rw [← List.take_append_drop 20 (CITIES.drop 60), List.all_append]
    rw [show (CITIES.drop 60).drop 20 = CITIES.drop 80 from by simp [List.drop_drop]]
    rw [cityOk_c3, h80]
    rfl
  have h40 : (CITIES.drop 40).all (fun cs => cityOk cs.1 cs.2) = true := by
    rw [← List.take_append_drop 20 (CITIES.drop 40), List.all_append]
    rw [show (CITIES.drop 40).drop 20 = CITIES.drop 60 from by simp [List.drop_drop]]
    rw [cityOk_c2, h60]
    rfl
  have h20 : (CITIES.drop 20).all (fun cs => cityOk cs.1 cs.2) = true := by
    rw [← List.take_append_drop 20 (CITIES.drop 20), List.all_append]
    rw [show (CITIES.drop 20).drop 20 = CITIES.drop 40 from by simp [List.drop_drop]]
    rw [cityOk_c1, h40]
    rfl
  have h0 : (CITIES.drop 0).all (fun cs => cityOk cs.1 cs.2) = true := by
    rw [← List.take_append_drop 20 (CITIES.drop 0), List.all_append]
    rw [show (CITIES.drop 0).drop 20 = CITIES.drop 20 from by simp [List.drop_drop]]
    rw [cityOk_c0, h20]
    rfl
  rw [show CITIES.drop 0 = CITIES from List.drop_zero CITIES] at h0
  exact h0

theorem cities_cityOk_mem : ∀ cs ∈ CITIES, cityOk cs.1 cs.2 = true := by
  have h := cities_cityOk
  rw [List.all_eq_true] at h
  intro cs hcs
  exact h cs hcs

theorem links_safe_h1 :
    SafePart "<h1>".data (String.intercalate "\n" (CITIES.map city_link_li)).data :=
  links_safe (by decide) (safe_of_partOk (by decide)) CITIES
    (fun cs hcs => cityOkL1 cs (cities_cityOk_mem cs hcs))

theorem links_safe_h2 :
    SafePart "<h2>".data (String.intercalate "\n" (CITIES.map city_link_li)).data :=
  links_safe (by decide) (safe_of_partOk (by decide)) CITIES
    (fun cs hcs => cityOkL2 cs (cities_cityOk_mem cs hcs))

theorem links_safe_serving :
    SafePart "Serving ".data (String.intercalate "\n" (CITIES.map city_link_li)).data :=
  links_safe (by decide) (safe_of_partOk (by decide)) CITIES
    (fun cs hcs => cityOkL3 cs (cities_cityOk_mem cs hcs))

/-- The combined slug of every roster city, in roster order. -/
def SLUGS : List String := CITIES.map (fun cs => city_state_slug cs.1 cs.2)

theorem slug_nd0 : ((SLUGS.drop 0).take 90).Nodup := by decide

theorem slug_dj0 : ((SLUGS.drop 0).take 90).all (fun s => !((SLUGS.drop 90).contains s)) = true := by decide

theorem slug_nd1 : ((SLUGS.drop 90).take 90).Nodup := by decide

theorem slug_dj1 : ((SLUGS.drop 90).take 90).all (fun s => !((SLUGS.drop 180).contains s)) = true := by decide

theorem slug_nd2 : ((SLUGS.drop 180).take 90).Nodup := by decide

theorem slug_dj2 : ((SLUGS.drop 180).take 90).all (fun s => !((SLUGS.drop 270).contains s)) = true := by decide

theorem slug_ndlast : (SLUGS.drop 270).Nodup := by decide

theorem slugs_nodup : SLUGS.Nodup := by
  have h270 : (SLUGS.drop 270).Nodup := slug_ndlast
  have h180 : (SLUGS.drop 180).Nodup := by
    rw [← List.take_append_drop 90 (SLUGS.drop 180),
      show (SLUGS.drop 180).drop 90 = SLUGS.drop 270 from by simp [List.drop_drop],
      List.nodup_append]
    exact ⟨slug_nd2, h270, disjoint_of_all_bool slug_dj2⟩
  have h90 : (SLUGS.drop 90).Nodup := by
    rw [← List.take_append_drop 90 (SLUGS.drop 90),
      show (SLUGS.drop 90).drop 90 = SLUGS.drop 180 from by simp [List.drop_drop],
      List.nodup_append]
    exact ⟨slug_nd1, h180, disjoint_of_all_bool slug_dj1⟩
  have h0 : (SLUGS.drop 0).Nodup := by
    rw [← List.take_append_drop 90 (SLUGS.drop 0),
      show (SLUGS.drop 0).drop 90 = SLUGS.drop 90 from by simp [List.drop_drop],
      List.nodup_append]
    exact ⟨slug_nd0, h90, disjoint_of_all_bool slug_dj0⟩
  rw [show SLUGS.drop 0 = SLUGS from List.drop_zero SLUGS] at h0
  exact h0

theorem site_urls_no_lt : ∀ u ∈ site_urls, '<' ∉ u.data := by
  intro u hu
  simp only [site_urls] at hu
  rcases List.mem_append.mp hu with h3 | hm
  · simp only [List.mem_cons, List.not_mem_nil, or_false] at h3
    rcases h3 with rfl | rfl | rfl <;> decide
  · obtain ⟨cs, hcs, rfl⟩ := List.mem_map.mp hm
    exact goodSlug_no_lt (cityOkG cs (cities_cityOk_mem cs hcs))

/-- The sitemap contains exactly one `<loc>` text per site url, in
order. -/
theorem sitemap_locs : locTexts (sitemap_xml site_urls) = site_urls := by
  unfold locTexts sitemap_xml
  rw [show (SM1 ++ SM2 ++
      String.join (site_urls.map (fun u => LOCO ++ u ++ LOCC)) ++ SM3).data =
      SM1.data ++ (SM2.data ++
        ((String.join (site_urls.map (fun u => LOCO ++ u ++ LOCC))).data ++
          SM3.data)) from by
    rw [data_append, data_append, data_append, List.append_assoc, List.append_assoc]]
  rw [skipStep ("<loc>".data) SM1.data (by decide)]
  rw [skipStep ("<loc>".data) SM2.data (by decide)]
  rw [locs_walk site_urls site_urls_no_lt]
  rw [List.map_map]
  have hid : ((fun l => String.mk l) ∘ String.data) = id := by
    funext s
    exact str_mk_data s
  rw [hid, List.map_id]

theorem cost_title_eq : titleText cost_page_html = some (esc COST_TITLE) := by
  unfold titleText
  rw [cost_parts_eq]
  simp only [costParts, catL, List.foldr, List.append_nil, TTO, TTC]
  rw [tbSkip ("<title>".data) (BH1.data) (by decide)]
  rw [tbExtract ("<title>".data) ("</title>".data) ((esc (COST_TITLE)).data) (by decide) (by decide)
    (by rw [show hChar ("</title>".data) = '<' from rfl]; exact esc_no_lt _)]
  simp only [Option.map_some', str_mk_data]

theorem cost_h1_eq : h1Text cost_page_html = some (esc COST_TITLE) := by
  unfold h1Text
  rw [cost_parts_eq]
  simp only [costParts, catL, List.foldr, List.append_nil, H1O, H1C]
  rw [tbSkip ("<h1>".data) (BH1.data) (by decide)]
  rw [tbSkip ("<h1>".data) (TTO.data) (by decide)]
  rw [tbSkip ("<h1>".data) ((esc (COST_TITLE)).data) (by decide)]
  rw [tbSkip ("<h1>".data) (TTC.data) (by decide)]
  rw [tbSkip ("<h1>".data) (BH2.data) (by decide)]
  rw [tbSkip ("<h1>".data) ((esc ("Typical wasp nest removal cost ranges and what changes pricing.")).data) (by decide)]
  rw [tbSkip ("<h1>".data) (BH3.data) (by decide)]
  rw [tbSkip ("<h1>".data) ((esc ("/cost/")).data) (by decide)]
  rw [tbSkip ("<h1>".data) (BH4.data) (by decide)]
  rw [tbSkipG ("<h1>".data) CSS.data css_safe_h1]
  rw [tbSkip ("<h1>".data) (BH5.data) (by decide)]
  rw [tbSkip ("<h1>".data) ((esc BRAND_NAME).data) (by decide)]
  rw [tbSkip ("<h1>".data) (BH6.data) (by decide)]
  rw [tbSkip ("<h1>".data) ((nav_html "cost").data) (by decide)]
  rw [tbSkip ("<h1>".data) (BH7.data) (by decide)]
  rw [tbSkip ("<h1>".data) (HB1.data) (by decide)]
  rw [tbExtract ("<h1>".data) ("</h1>".data) ((esc (COST_TITLE)).data) (by decide) (by decide)
    (by rw [show hChar ("</h1>".data) = '<' from rfl]; exact esc_no_lt _)]
  simp only [Option.map_some', str_mk_data]

theorem cost_h1_once : hasOnce "<h1>".data cost_page_html.data := by
  refine hasOnce_of_parts
    [BH1.data,
      TTO.data,
      (esc (COST_TITLE)).data,
      TTC.data,
      BH2.data,
      (esc ("Typical wasp nest removal cost ranges and what changes pricing.")).data,
      BH3.data,
      (esc ("/cost/")).data,
      BH4.data,
      CSS.data,
      BH5.data,
      (esc BRAND_NAME).data,
      BH6.data,
      (nav_html "cost").data,
      BH7.data,
      HB1.data]
    [(esc (COST_TITLE)).data,
      H1C.data,
      HB2R.data,
      PS1.data,
      (esc ("/" ++ CONFIG.image_filename)).data,
      PS2.data,
      NL.data,
      H2O.data,
      (esc (H2_COST.getD 0 "")).data,
      H2C.data,
      POP.data ++ ((esc (P_COST.getD 0 "")).data),
      PCL.data,
      H2O.data,
      (esc (H2_COST.getD 1 "")).data,
      H2C.data,
      POP.data ++ ((esc (P_COST.getD 1 "")).data),
      PCL.data,
      H2O.data,
      (esc (H2_COST.getD 2 "")).data,
      H2C.data,
      POP.data ++ ((esc (P_COST.getD 2 "")).data),
      PCL.data,
      H2O.data,
      (esc (H2_COST.getD 3 "")).data,
      H2C.data,
      POP.data ++ ((esc (P_COST.getD 3 "")).data),
      PCL.data,
      H2O.data,
      (esc (H2_COST.getD 4 "")).data,
      H2C.data,
      POP.data ++ ((esc (P_COST.getD 4 "")).data),
      PCL.data,
      H2O.data,
      (esc (H2_COST.getD 5 "")).data,
      H2C.data,
      POP.data ++ ((esc (P_COST.getD 5 "")).data),
      PCLE.data,
      CT1.data,
      (toString CONFIG.cost_low).data,
      CT2.data,
      (toString CONFIG.cost_high).data,
      CT3R.data,
      PS3.data,
      FB1.data,
      H2O.data,
      ("Next steps").data,
      H2C.data,
      FB2.data,
      (esc CONFIG.cta_href).data,
      FB3.data,
      (esc CONFIG.cta_text).data,
      FB4.data,
      (esc BRAND_NAME).data,
      FB5R.data,
      BH8.data]
    (by decide) ?_ ?_ ?_
  · rw [cost_parts_eq]
    simp only [costParts, catL, List.foldr, List.append_nil, List.append_assoc, H1O]
  · refine ?_
    refine zsCons (by decide) ?_
    refine zsCons (by decide) ?_
    refine zsCons (by decide) ?_
    refine zsCons (by decide) ?_
    refine zsCons (by decide) ?_
    refine zsCons (by decide) ?_
    refine zsCons (by decide) ?_
    refine zsCons (by decide) ?_
    refine zsCons (by decide) ?_
    refine zsConsG css_safe_h1 ?_
    refine zsCons (by decide) ?_
    refine zsCons (by decide) ?_
    refine zsCons (by decide) ?_
    refine zsCons (by decide) ?_
    refine zsCons (by decide) ?_
    refine zsCons (by decide) ?_
    exact ZeroStream.nil _
  · refine ?_
    refine zsCons (by decide) ?_
    refine zsCons (by decide) ?_
    refine zsCons (by decide) ?_
    refine zsCons (by decide) ?_
    refine zsCons (by decide) ?_
    refine zsCons (by decide) ?_
    refine zsCons (by decide) ?_
    refine zsCons (by decide) ?_
    refine zsCons (by decide) ?_
    refine zsCons (by decide) ?_
    refine zsCons (by decide) ?_
    refine zsCons (by decide) ?_
    refine zsCons (by decide) ?_
    refine zsCons (by decide) ?_
    refine zsCons (by decide) ?_
    refine zsCons (by decide) ?_
    refine zsCons (by decide) ?_
    refine zsCons (by decide) ?_
    refine zsCons (by decide) ?_
    refine zsCons (by decide) ?_
    refine zsCons (by decide) ?_
    refine zsCons (by decide) ?_
    refine zsCons (by decide) ?_
    refine zsCons (by decide) ?_
    refine zsCons (by decide) ?_
    refine zsCons (by decide) ?_
    refine zsCons (by decide) ?_
    refine zsCons (by decide) ?_
    refine zsCons (by decide) ?_
    refine zsCons (by decide) ?_
    refine zsCons (by decide) ?_
    refine zsCons (by decide) ?_
    refine zsCons (by decide) ?_
    refine zsCons (by decide) ?_
    refine zsCons (by decide) ?_
    refine zsCons (by decide) ?_
    refine zsCons (by decide) ?_
    refine zsCons (by decide) ?_
    refine zsCons (by decide) ?_
    refine zsCons (by decide) ?_
    refine zsCons (by decide) ?_
    refine zsCons (by decide) ?_
    refine zsCons (by decide) ?_
    refine zsCons (by decide) ?_
    refine zsCons (by decide) ?_
    refine zsCons (by decide) ?_
    refine zsCons (by decide) ?_
    refine zsCons (by decide) ?_
    refine zsCons (by decide) ?_
    refine zsCons (by decide) ?_
    refine zsCons (by decide) ?_
    refine zsCons (by decide) ?_
    refine zsCons (by decide) ?_
    refine zsCons (by decide) ?_
    refine zsCons (by decide) ?_
    exact ZeroStream.nil _

theorem cost_h2s : h2Texts cost_page_html = [esc (H2_COST.getD 0 ""), esc (H2_COST.getD 1 ""), esc (H2_COST.getD 2 ""), esc (H2_COST.getD 3 ""), esc (H2_COST.getD 4 ""), esc (H2_COST.getD 5 ""), "Next steps"] := by
  unfold h2Texts
  rw [cost_parts_eq]
  simp only [costParts, catL, List.foldr, List.append_nil, H2O, H2C]
  rw [skipStep ("<h2>".data) (BH1.data) (by decide)]
  rw [skipStep ("<h2>".data) (TTO.data) (by decide)]
  rw [skipStep ("<h2>".data) ((esc (COST_TITLE)).data) (by decide)]
  rw [skipStep ("<h2>".data) (TTC.data) (by decide)]
  rw [skipStep ("<h2>".data) (BH2.data) (by decide)]
  rw [skipStep ("<h2>".data) ((esc ("Typical wasp nest removal cost ranges and what changes pricing.")).data) (by decide)]
  rw [skipStep ("<h2>".data) (BH3.data) (by decide)]
  rw [skipStep ("<h2>".data) ((esc ("/cost/")).data) (by decide)]
  rw [skipStep ("<h2>".data) (BH4.data) (by decide)]
  rw [skipStepG ("<h2>".data) CSS.data css_safe_h2]
  rw [skipStep ("<h2>".data) (BH5.data) (by decide)]
  rw [skipStep ("<h2>".data) ((esc BRAND_NAME).data) (by decide)]
  rw [skipStep ("<h2>".data) (BH6.data) (by decide)]
  rw [skipStep ("<h2>".data) ((nav_html "cost").data) (by decide)]
  rw [skipStep ("<h2>".data) (BH7.data) (by decide)]
  rw [skipStep ("<h2>".data) (HB1.data) (by decide)]
  rw [skipStep ("<h2>".data) (H1O.data) (by decide)]
  rw [skipStep ("<h2>".data) ((esc (COST_TITLE)).data) (by decide)]
  rw [skipStep ("<h2>".data) (H1C.data) (by decide)]
  rw [skipStep ("<h2>".data) (HB2R.data) (by decide)]
  rw [skipStep ("<h2>".data) (PS1.data) (by decide)]
  rw [skipStep ("<h2>".data) ((esc ("/" ++ CONFIG.image_filename)).data) (by decide)]
  rw [skipStep ("<h2>".data) (PS2.data) (by decide)]
  rw [skipStep ("<h2>".data) (NL.data) (by decide)]
  rw [sbExtract ("<h2>".data) ("</h2>".data) ((esc (H2_COST.getD 0 "")).data) (by decide) (by decide)
    (by rw [show hChar ("</h2>".data) = '<' from rfl]; exact esc_no_lt _)]
  rw [← List.append_assoc]
  rw [skipStep ("<h2>".data) (POP.data ++ (esc (P_COST.getD 0 "")).data) (by decide)]
  rw [skipStep ("<h2>".data) (PCL.data) (by decide)]
  rw [sbExtract ("<h2>".data) ("</h2>".data) ((esc (H2_COST.getD 1 "")).data) (by decide) (by decide)
    (by rw [show hChar ("</h2>".data) = '<' from rfl]; exact esc_no_lt _)]
  rw [← List.append_assoc]
  rw [skipStep ("<h2>".data) (POP.data ++ (esc (P_COST.getD 1 "")).data) (by decide)]
  rw [skipStep ("<h2>".data) (PCL.data) (by decide)]
  rw [sbExtract ("<h2>".data) ("</h2>".data) ((esc (H2_COST.getD 2 "")).data) (by decide) (by decide)
    (by rw [show hChar ("</h2>".data) = '<' from rfl]; exact esc_no_lt _)]
  rw [← List.append_assoc]
  rw [skipStep ("<h2>".data) (POP.data ++ (esc (P_COST.getD 2 "")).data) (by decide)]
  rw [skipStep ("<h2>".data) (PCL.data) (by decide)]
  rw [sbExtract ("<h2>".data) ("</h2>".data) ((esc (H2_COST.getD 3 "")).data) (by decide) (by decide)
    (by rw [show hChar ("</h2>".data) = '<' from rfl]; exact esc_no_lt _)]
  rw [← List.append_assoc]
  rw [skipStep ("<h2>".data) (POP.data ++ (esc (P_COST.getD 3 "")).data) (by decide)]
  rw [skipStep ("<h2>".data) (PCL.data) (by decide)]
  rw [sbExtract ("<h2>".data) ("</h2>".data) ((esc (H2_COST.getD 4 "")).data) (by decide) (by decide)
    (by rw [show hChar ("</h2>".data) = '<' from rfl]; exact esc_no_lt _)]
  rw [← List.append_assoc]
  rw [skipStep ("<h2>".data) (POP.data ++ (esc (P_COST.getD 4 "")).data) (by decide)]
  rw [skipStep ("<h2>".data) (PCL.data) (by decide)]
  rw [sbExtract ("<h2>".data) ("</h2>".data) ((esc (H2_COST.getD 5 "")).data) (by decide) (by decide)
    (by rw [show hChar ("</h2>".data) = '<' from rfl]; exact esc_no_lt _)]
  rw [← List.append_assoc]
  rw [skipStep ("<h2>".data) (POP.data ++ (esc (P_COST.getD 5 "")).data) (by decide)]
  rw [skipStep ("<h2>".data) (PCLE.data) (by decide)]
  rw [skipStep ("<h2>".data) (CT1.data) (by decide)]
  rw [skipStep ("<h2>".data) ((toString CONFIG.cost_low).data) (by decide)]
  rw [skipStep ("<h2>".data) (CT2.data) (by decide)]
  rw [skipStep ("<h2>".data) ((toString CONFIG.cost_high).data) (by decide)]
  rw [skipStep ("<h2>".data) (CT3R.data) (by decide)]
  rw [skipStep ("<h2>".data) (PS3.data) (by decide)]
  rw [skipStep ("<h2>".data) (FB1.data) (by decide)]
  rw [sbExtract ("<h2>".data) ("</h2>".data) (("Next steps").data) (by decide) (by decide)
    (by decide)]
  rw [sbEnd ("<h2>".data) (FB2.data ++ ((esc CONFIG.cta_href).data ++ (FB3.data ++ ((esc CONFIG.cta_text).data ++ (FB4.data ++ ((esc BRAND_NAME).data ++ (FB5R.data ++ (BH8.data)))))))) (by decide) (by decide)]
  simp only [List.map_cons, List.map_nil, str_mk_data]

theorem cost_serving :
    containsSub "Serving ".data cost_page_html.data = false := by
  rw [cost_parts_eq]
  rw [show catL (costParts) = catL
      [BH1.data,
      TTO.data,
      (esc (COST_TITLE)).data,
      TTC.data,
      BH2.data,
      (esc ("Typical wasp nest removal cost ranges and what changes pricing.")).data,
      BH3.data,
      (esc ("/cost/")).data,
      BH4.data,
      CSS.data,
      BH5.data,
      (esc BRAND_NAME).data,
      BH6.data,
      (nav_html "cost").data,
      BH7.data,
      HB1.data,
      H1O.data,
      (esc (COST_TITLE)).data,
      H1C.data,
      HB2R.data,
      PS1.data,
      (esc ("/" ++ CONFIG.image_filename)).data,
      PS2.data,
      NL.data,
      H2O.data,
      (esc (H2_COST.getD 0 "")).data,
      H2C.data,
      POP.data,
      (esc (P_COST.getD 0 "")).data,
      PCL.data,
      H2O.data,
      (esc (H2_COST.getD 1 "")).data,
      H2C.data,
      POP.data,
      (esc (P_COST.getD 1 "")).data,
      PCL.data,
      H2O.data,
      (esc (H2_COST.getD 2 "")).data ++ (H2C.data),
      POP.data,
      (esc (P_COST.getD 2 "")).data,
      PCL.data,
      H2O.data,
      (esc (H2_COST.getD 3 "")).data ++ (H2C.data),
      POP.data,
      (esc (P_COST.getD 3 "")).data,
      PCL.data,
      H2O.data,
      (esc (H2_COST.getD 4 "")).data,
      H2C.data,
      POP.data,
      (esc (P_COST.getD 4 "")).data,
      PCL.data,
      H2O.data,
      (esc (H2_COST.getD 5 "")).data,
      H2C.data,
      POP.data,
      (esc (P_COST.getD 5 "")).data,
      PCLE.data,
      CT1.data,
      (toString CONFIG.cost_low).data,
      CT2.data,
      (toString CONFIG.cost_high).data,
      CT3R.data,
      PS3.data,
      FB1.data,
      H2O.data,
      ("Next steps").data,
      H2C.data,
      FB2.data,
      (esc CONFIG.cta_href).data,
      FB3.data,
      (esc CONFIG.cta_text).data,
      FB4.data,
      (esc BRAND_NAME).data,
      FB5R.data,
      BH8.data] from by
    simp only [costParts, catL, List.foldr, List.append_nil, List.append_assoc]]
  refine contains_catL_false (by decide) _ ?_
  refine zsCons (by decide) ?_
  refine zsCons (by decide) ?_
  refine zsCons (by decide) ?_
  refine zsCons (by decide) ?_
  refine zsCons (by decide) ?_
  refine zsCons (by decide) ?_
  refine zsCons (by decide) ?_
  refine zsCons (by decide) ?_
  refine zsCons (by decide) ?_
  refine zsConsG css_safe_serving ?_
  refine zsCons (by decide) ?_
  refine zsCons (by decide) ?_
  refine zsCons (by decide) ?_
  refine zsCons (by decide) ?_
  refine zsCons (by decide) ?_
  refine zsCons (by decide) ?_
  refine zsCons (by decide) ?_
  refine zsCons (by decide) ?_
  refine zsCons (by decide) ?_
  refine zsCons (by decide) ?_
  refine zsCons (by decide) ?_
  refine zsCons (by decide) ?_
  refine zsCons (by decide) ?_
  refine zsCons (by decide) ?_
  refine zsCons (by decide) ?_
  refine zsCons (by decide) ?_
  refine zsCons (by decide) ?_
  refine zsCons (by decide) ?_
  refine zsCons (by decide) ?_
  refine zsCons (by decide) ?_
  refine zsCons (by decide) ?_
  refine zsCons (by decide) ?_
  refine zsCons (by decide) ?_
  refine zsCons (by decide) ?_
  refine zsCons (by decide) ?_
  refine zsCons (by decide) ?_
  refine zsCons (by decide) ?_
  refine zsCons (by decide) ?_
  refine zsCons (by decide) ?_
  refine zsCons (by decide) ?_
  refine zsCons (by decide) ?_
  refine zsCons (by decide) ?_
  refine zsCons (by decide) ?_
  refine zsCons (by decide) ?_
  refine zsCons (by decide) ?_
  refine zsCons (by decide) ?_
  refine zsCons (by decide) ?_
  refine zsCons (by decide) ?_
  refine zsCons (by decide) ?_
  refine zsCons (by decide) ?_
  refine zsCons (by decide) ?_
  refine zsCons (by decide) ?_
  refine zsCons (by decide) ?_
  refine zsCons (by decide) ?_
  refine zsCons (by decide) ?_
  refine zsCons (by decide) ?_
  refine zsCons (by decide) ?_
  refine zsCons (by decide) ?_
  refine zsCons (by decide) ?_
  refine zsCons (by decide) ?_
  refine zsCons (by decide) ?_
  refine zsCons (by decide) ?_
  refine zsCons (by decide) ?_
  refine zsCons (by decide) ?_
  refine zsCons (by decide) ?_
  refine zsCons (by decide) ?_
  refine zsCons (by decide) ?_
  refine zsCons (by decide) ?_
  refine zsCons (by decide) ?_
  refine zsCons (by decide) ?_
  refine zsCons (by decide) ?_
  refine zsCons (by decide) ?_
  refine zsCons (by decide) ?_
  refine zsCons (by decide) ?_
  refine zsCons (by decide) ?_
  refine zsCons (by decide) ?_
  exact ZeroStream.nil _

theorem howto_title_eq : titleText howto_page_html = some (esc HOWTO_TITLE) := by
  unfold titleText
  rw [howto_parts_eq]
  simp only [howtoParts, catL, List.foldr, List.append_nil, TTO, TTC]
  rw [tbSkip ("<title>".data) (BH1.data) (by decide)]
  rw [tbExtract ("<title>".data) ("</title>".data) ((esc (HOWTO_TITLE)).data) (by decide) (by decide)
    (by rw [show hChar ("</title>".data) = '<' from rfl]; exact esc_no_lt _)]
  simp only [Option.map_some', str_mk_data]

theorem howto_h1_eq : h1Text howto_page_html = some (esc HOWTO_TITLE) := by
  unfold h1Text
  rw [howto_parts_eq]
  simp only [howtoParts, catL, List.foldr, List.append_nil, H1O, H1C]
  rw [tbSkip ("<h1>".data) (BH1.data) (by decide)]
  rw [tbSkip ("<h1>".data) (TTO.data) (by decide)]
  rw [tbSkip ("<h1>".data) ((esc (HOWTO_TITLE)).data) (by decide)]
  rw [tbSkip ("<h1>".data) (TTC.data) (by decide)]
  rw [tbSkip ("<h1>".data) (BH2.data) (by decide)]
  rw [tbSkip ("<h1>".data) ((esc ("Clear steps for dealing with a wasp nest without making it worse.")).data) (by decide)]
  rw [tbSkip ("<h1>".data) (BH3.data) (by decide)]
  rw [tbSkip ("<h1>".data) ((esc ("/how-to/")).data) (by decide)]
  rw [tbSkip ("<h1>".data) (BH4.data) (by decide)]
  rw [tbSkipG ("<h1>".data) CSS.data css_safe_h1]
  rw [tbSkip ("<h1>".data) (BH5.data) (by decide)]
  rw [tbSkip ("<h1>".data) ((esc BRAND_NAME).data) (by decide)]
  rw [tbSkip ("<h1>".data) (BH6.data) (by decide)]
  rw [tbSkip ("<h1>".data) ((nav_html "howto").data) (by decide)]
  rw [tbSkip ("<h1>".data) (BH7.data) (by decide)]
  rw [tbSkip ("<h1>".data) (HB1.data) (by decide)]
  rw [tbExtract ("<h1>".data) ("</h1>".data) ((esc (HOWTO_TITLE)).data) (by decide) (by decide)
    (by rw [show hChar ("</h1>".data) = '<' from rfl]; exact esc_no_lt _)]
  simp only [Option.map_some', str_mk_data]

theorem howto_h1_once : hasOnce "<h1>".data howto_page_html.data := by
  refine hasOnce_of_parts
    [BH1.data,
      TTO.data,
      (esc (HOWTO_TITLE)).data,
      TTC.data,
      BH2.data,
      (esc ("Clear steps for dealing with a wasp nest without making it worse.")).data,
      BH3.data,
      (esc ("/how-to/")).data,
      BH4.data,
      CSS.data,
      BH5.data,
      (esc BRAND_NAME).data,
      BH6.data,
      (nav_html "howto").data,
      BH7.data,
      HB1.data]
    [(esc (HOWTO_TITLE)).data,
      H1C.data,
      HB2R.data,
      PS1.data,
      (esc ("/" ++ CONFIG.image_filename)).data,
      PS2.data,
      NL.data,
      H2O.data,
      (esc (H2_HOWTO.getD 0 "")).data,
      H2C.data,
      POP.data ++ ((esc (P_HOWTO.getD 0 "")).data),
      PCL.data,
      H2O.data,
      (esc (H2_HOWTO.getD 1 "")).data,
      H2C.data,
      POP.data ++ ((esc (P_HOWTO.getD 1 "")).data),
      PCL.data,
      H2O.data,
      (esc (H2_HOWTO.getD 2 "")).data,
      H2C.data,
      POP.data ++ ((esc (P_HOWTO.getD 2 "")).data),
      PCL.data,
      H2O.data,
      (esc (H2_HOWTO.getD 3 "")).data,
      H2C.data,
      POP.data ++ ((esc (P_HOWTO.getD 3 "")).data),
      PCL.data,
      H2O.data,
      (esc (H2_HOWTO.getD 4 "")).data,
      H2C.data,
      POP.data ++ ((esc (P_HOWTO.getD 4 "")).data),
      PCL.data,
      H2O.data,
      (esc (H2_HOWTO.getD 5 "")).data,
      H2C.data,
      POP.data ++ ((esc (P_HOWTO.getD 5 "")).data),
      PCLER.data,
      PS3.data,
      FB1.data,
      H2O.data,
      ("Next steps").data,
      H2C.data,
      FB2.data,
      (esc CONFIG.cta_href).data,
      FB3.data,
      (esc CONFIG.cta_text).data,
      FB4.data,
      (esc BRAND_NAME).data,
      FB5R.data,
      BH8.data]
    (by decide) ?_ ?_ ?_
  · rw [howto_parts_eq]
    simp only [howtoParts, catL, List.foldr, List.append_nil, List.append_assoc, H1O]
  · refine ?_
    refine zsCons (by decide) ?_
    refine zsCons (by decide) ?_
    refine zsCons (by decide) ?_
    refine zsCons (by decide) ?_
    refine zsCons (by decide) ?_
    refine zsCons (by decide) ?_
    refine zsCons (by decide) ?_
    refine zsCons (by decide) ?_
    refine zsCons (by decide) ?_
    refine zsConsG css_safe_h1 ?_
    refine zsCons (by decide) ?_
    refine zsCons (by decide) ?_
    refine zsCons (by decide) ?_
    refine zsCons (by decide) ?_
    refine zsCons (by decide) ?_
    refine zsCons (by decide) ?_
    exact ZeroStream.nil _
  · refine ?_
    refine zsCons (by decide) ?_
    refine zsCons (by decide) ?_
    refine zsCons (by decide) ?_
    refine zsCons (by decide) ?_
    refine zsCons (by decide) ?_
    refine zsCons (by decide) ?_
    refine zsCons (by decide) ?_
    refine zsCons (by decide) ?_
    refine zsCons (by decide) ?_
    refine zsCons (by decide) ?_
    refine zsCons (by decide) ?_
    refine zsCons (by decide) ?_
    refine zsCons (by decide) ?_
    refine zsCons (by decide) ?_
    refine zsCons (by decide) ?_
    refine zsCons (by decide) ?_
    refine zsCons (by decide) ?_
    refine zsCons (by decide) ?_
    refine zsCons (by decide) ?_
    refine zsCons (by decide) ?_
    refine zsCons (by decide) ?_
    refine zsCons (by decide) ?_
    refine zsCons (by decide) ?_
    refine zsCons (by decide) ?_
    refine zsCons (by decide) ?_
    refine zsCons (by decide) ?_
    refine zsCons (by decide) ?_
    refine zsCons (by decide) ?_
    refine zsCons (by decide) ?_
    refine zsCons (by decide) ?_
    refine zsCons (by decide) ?_
    refine zsCons (by decide) ?_
    refine zsCons (by decide) ?_
    refine zsCons (by decide) ?_
    refine zsCons (by decide) ?_
    refine zsCons (by decide) ?_
    refine zsCons (by decide) ?_
    refine zsCons (by decide) ?_
    refine zsCons (by decide) ?_
    refine zsCons (by decide) ?_
    refine zsCons (by decide) ?_
    refine zsCons (by decide) ?_
    refine zsCons (by decide) ?_
    refine zsCons (by decide) ?_
    refine zsCons (by decide) ?_
    refine zsCons (by decide) ?_
    refine zsCons (by decide) ?_
    refine zsCons (by decide) ?_
    refine zsCons (by decide) ?_
    refine zsCons (by decide) ?_
    exact ZeroStream.nil _

theorem howto_h2s : h2Texts howto_page_html = [esc (H2_HOWTO.getD 0 ""), esc (H2_HOWTO.getD 1 ""), esc (H2_HOWTO.getD 2 ""), esc (H2_HOWTO.getD 3 ""), esc (H2_HOWTO.getD 4 ""), esc (H2_HOWTO.getD 5 ""), "Next steps"] := by
  unfold h2Texts
  rw [howto_parts_eq]
  simp only [howtoParts, catL, List.foldr, List.append_nil, H2O, H2C]
  rw [skipStep ("<h2>".data) (BH1.data) (by decide)]
  rw [skipStep ("<h2>".data) (TTO.data) (by decide)]
  rw [skipStep ("<h2>".data) ((esc (HOWTO_TITLE)).data) (by decide)]
  rw [skipStep ("<h2>".data) (TTC.data) (by decide)]
  rw [skipStep ("<h2>".data) (BH2.data) (by decide)]
  rw [skipStep ("<h2>".data) ((esc ("Clear steps for dealing with a wasp nest without making it worse.")).data) (by decide)]
  rw [skipStep ("<h2>".data) (BH3.data) (by decide)]
  rw [skipStep ("<h2>".data) ((esc ("/how-to/")).data) (by decide)]
  rw [skipStep ("<h2>".data) (BH4.data) (by decide)]
  rw [skipStepG ("<h2>".data) CSS.data css_safe_h2]
  rw [skipStep ("<h2>".data) (BH5.data) (by decide)]
  rw [skipStep ("<h2>".data) ((esc BRAND_NAME).data) (by decide)]
  rw [skipStep ("<h2>".data) (BH6.data) (by decide)]
  rw [skipStep ("<h2>".data) ((nav_html "howto").data) (by decide)]
  rw [skipStep ("<h2>".data) (BH7.data) (by decide)]
  rw [skipStep ("<h2>".data) (HB1.data) (by decide)]
  rw [skipStep ("<h2>".data) (H1O.data) (by decide)]
  rw [skipStep ("<h2>".data) ((esc (HOWTO_TITLE)).data) (by decide)]
  rw [skipStep ("<h2>".data) (H1C.data) (by decide)]
  rw [skipStep ("<h2>".data) (HB2R.data) (by decide)]
  rw [skipStep ("<h2>".data) (PS1.data) (by decide)]
  rw [skipStep ("<h2>".data) ((esc ("/" ++ CONFIG.image_filename)).data) (by decide)]
  rw [skipStep ("<h2>".data) (PS2.data) (by decide)]
  rw [skipStep ("<h2>".data) (NL.data) (by decide)]
  rw [sbExtract ("<h2>".data) ("</h2>".data) ((esc (H2_HOWTO.getD 0 "")).data) (by decide) (by decide)
    (by rw [show hChar ("</h2>".data) = '<' from rfl]; exact esc_no_lt _)]
  rw [← List.append_assoc]
  rw [skipStep ("<h2>".data) (POP.data ++ (esc (P_HOWTO.getD 0 "")).data) (by decide)]
  rw [skipStep ("<h2>".data) (PCL.data) (by decide)]
  rw [sbExtract ("<h2>".data) ("</h2>".data) ((esc (H2_HOWTO.getD 1 "")).data) (by decide) (by decide)
    (by rw [show hChar ("</h2>".data) = '<' from rfl]; exact esc_no_lt _)]
  rw [← List.append_assoc]
  rw [skipStep ("<h2>".data) (POP.data ++ (esc (P_HOWTO.getD 1 "")).data) (by decide)]
  rw [skipStep ("<h2>".data) (PCL.data) (by decide)]
  rw [sbExtract ("<h2>".data) ("</h2>".data) ((esc (H2_HOWTO.getD 2 "")).data) (by decide) (by decide)
    (by rw [show hChar ("</h2>".data) = '<' from rfl]; exact esc_no_lt _)]
  rw [← List.append_assoc]
  rw [skipStep ("<h2>".data) (POP.data ++ (esc (P_HOWTO.getD 2 "")).data) (by decide)]
  rw [skipStep ("<h2>".data) (PCL.data) (by decide)]
  rw [sbExtract ("<h2>".data) ("</h2>".data) ((esc (H2_HOWTO.getD 3 "")).data) (by decide) (by decide)
    (by rw [show hChar ("</h2>".data) = '<' from rfl]; exact esc_no_lt _)]
  rw [← List.append_assoc]
  rw [skipStep ("<h2>".data) (POP.data ++ (esc (P_HOWTO.getD 3 "")).data) (by decide)]
  rw [skipStep ("<h2>".data) (PCL.data) (by decide)]
  rw [sbExtract ("<h2>".data) ("</h2>".data) ((esc (H2_HOWTO.getD 4 "")).data) (by decide) (by decide)
    (by rw [show hChar ("</h2>".data) = '<' from rfl]; exact esc_no_lt _)]
  rw [← List.append_assoc]
  rw [skipStep ("<h2>".data) (POP.data ++ (esc (P_HOWTO.getD 4 "")).data) (by decide)]
  rw [skipStep ("<h2>".data) (PCL.data) (by decide)]
  rw [sbExtract ("<h2>".data) ("</h2>".data) ((esc (H2_HOWTO.getD 5 "")).data) (by decide) (by decide)
    (by rw [show hChar ("</h2>".data) = '<' from rfl]; exact esc_no_lt _)]
  rw [← List.append_assoc]
  rw [skipStep ("<h2>".data) (POP.data ++ (esc (P_HOWTO.getD 5 "")).data) (by decide)]
  rw [skipStep ("<h2>".data) (PCLER.data) (by decide)]
  rw [skipStep ("<h2>".data) (PS3.data) (by decide)]
  rw [skipStep ("<h2>".data) (FB1.data) (by decide)]
  rw [sbExtract ("<h2>".data) ("</h2>".data) (("Next steps").data) (by decide) (by decide)
    (by decide)]
  rw [sbEnd ("<h2>".data) (FB2.data ++ ((esc CONFIG.cta_href).data ++ (FB3.data ++ ((esc CONFIG.cta_text).data ++ (FB4.data ++ ((esc BRAND_NAME).data ++ (FB5R.data ++ (BH8.data)))))))) (by decide) (by decide)]
  simp only [List.map_cons, List.map_nil, str_mk_data]

theorem howto_serving :
    containsSub "Serving ".data howto_page_html.data = false := by
  rw [howto_parts_eq]
  rw [show catL (howtoParts) = catL
      [BH1.data,
      TTO.data,
      (esc (HOWTO_TITLE)).data,
      TTC.data,
      BH2.data,
      (esc ("Clear steps for dealing with a wasp nest without making it worse.")).data,
      BH3.data,
      (esc ("/how-to/")).data,
      BH4.data,
      CSS.data,
      BH5.data,
      (esc BRAND_NAME).data,
      BH6.data,
      (nav_html "howto").data,
      BH7.data,
      HB1.data,
      H1O.data,
      (esc (HOWTO_TITLE)).data,
      H1C.data,
      HB2R.data,
      PS1.data,
      (esc ("/" ++ CONFIG.image_filename)).data,
      PS2.data,
      NL.data,
      H2O.data,
      (esc (H2_HOWTO.getD 0 "")).data,
      H2C.data,
      POP.data,
      (esc (P_HOWTO.getD 0 "")).data,
      PCL.data,
      H2O.data,
      (esc (H2_HOWTO.getD 1 "")).data,
      H2C.data,
      POP.data,
      (esc (P_HOWTO.getD 1 "")).data,
      PCL.data,
      H2O.data,
      (esc (H2_HOWTO.getD 2 "")).data ++ (H2C.data),
      POP.data,
      (esc (P_HOWTO.getD 2 "")).data,
      PCL.data,
      H2O.data,
      (esc (H2_HOWTO.getD 3 "")).data ++ (H2C.data),
      POP.data,
      (esc (P_HOWTO.getD 3 "")).data,
      PCL.data,
      H2O.data,
      (esc (H2_HOWTO.getD 4 "")).data ++ (H2C.data),
      POP.data,
      (esc (P_HOWTO.getD 4 "")).data,
      PCL.data,
      H2O.data,
      (esc (H2_HOWTO.getD 5 "")).data,
      H2C.data,
      POP.data,
      (esc (P_HOWTO.getD 5 "")).data,
      PCLER.data,
      PS3.data,
      FB1.data,
      H2O.data,
      ("Next steps").data,
      H2C.data,
      FB2.data,
      (esc CONFIG.cta_href).data,
      FB3.data,
      (esc CONFIG.cta_text).data,
      FB4.data,
      (esc BRAND_NAME).data,
      FB5R.data,
      BH8.data] from by
    simp only [howtoParts, catL, List.foldr, List.append_nil, List.append_assoc]]
  refine contains_catL_false (by decide) _ ?_
  refine zsCons (by decide) ?_
  refine zsCons (by decide) ?_
  refine zsCons (by decide) ?_
  refine zsCons (by decide) ?_
  refine zsCons (by decide) ?_
  refine zsCons (by decide) ?_
  refine zsCons (by decide) ?_
  refine zsCons (by decide) ?_
  refine zsCons (by decide) ?_
  refine zsConsG css_safe_serving ?_
  refine zsCons (by decide) ?_
  refine zsCons (by decide) ?_
  refine zsCons (by decide) ?_
  refine zsCons (by decide) ?_
  refine zsCons (by decide) ?_
  refine zsCons (by decide) ?_
  refine zsCons (by decide) ?_
  refine zsCons (by decide) ?_
  refine zsCons (by decide) ?_
  refine zsCons (by decide) ?_
  refine zsCons (by decide) ?_
  refine zsCons (by decide) ?_
  refine zsCons (by decide) ?_
  refine zsCons (by decide) ?_
  refine zsCons (by decide) ?_
  refine zsCons (by decide) ?_
  refine zsCons (by decide) ?_
  refine zsCons (by decide) ?_
  refine zsCons (by decide) ?_
  refine zsCons (by decide) ?_
  refine zsCons (by decide) ?_
  refine zsCons (by decide) ?_
  refine zsCons (by decide) ?_
  refine zsCons (by decide) ?_
  refine zsCons (by decide) ?_
  refine zsCons (by decide) ?_
  refine zsCons (by decide) ?_
  refine zsCons (by decide) ?_
  refine zsCons (by decide) ?_
  refine zsCons (by decide) ?_
  refine zsCons (by decide) ?_
  refine zsCons (by decide) ?_
  refine zsCons (by decide) ?_
  refine zsCons (by decide) ?_
  refine zsCons (by decide) ?_
  refine zsCons (by decide) ?_
  refine zsCons (by decide) ?_
  refine zsCons (by decide) ?_
  refine zsCons (by decide) ?_
  refine zsCons (by decide) ?_
  refine zsCons (by decide) ?_
  refine zsCons (by decide) ?_
  refine zsCons (by decide) ?_
  refine zsCons (by decide) ?_
  refine zsCons (by decide) ?_
  refine zsCons (by decide) ?_
  refine zsCons (by decide) ?_
  refine zsCons (by decide) ?_
  refine zsCons (by decide) ?_
  refine zsCons (by decide) ?_
  refine zsCons (by decide) ?_
  refine zsCons (by decide) ?_
  refine zsCons (by decide) ?_
  refine zsCons (by decide) ?_
  refine zsCons (by decide) ?_
  refine zsCons (by decide) ?_
  refine zsCons (by decide) ?_
  refine zsCons (by decide) ?_
  refine zsCons (by decide) ?_
  refine zsCons (by decide) ?_
  exact ZeroStream.nil _

theorem home_title_eq : titleText homepage_html = some (esc H1_TITLE) := by
  unfold titleText
  rw [home_parts_eq]
  simp only [homeParts, catL, List.foldr, List.append_nil, TTO, TTC]
  rw [tbSkip ("<title>".data) (BH1.data) (by decide)]
  rw [tbExtract ("<title>".data) ("</title>".data) ((esc (H1_TITLE)).data) (by decide) (by decide)
    (by rw [show hChar ("</title>".data) = '<' from rfl]; exact esc_no_lt _)]
  simp only [Option.map_some', str_mk_data]

theorem home_h1_eq : h1Text homepage_html = some (esc H1_TITLE) := by
  unfold h1Text
  rw [home_parts_eq]
  simp only [homeParts, catL, List.foldr, List.append_nil, H1O, H1C]
  rw [tbSkip ("<h1>".data) (BH1.data) (by decide)]
  rw [tbSkip ("<h1>".data) (TTO.data) (by decide)]
  rw [tbSkip ("<h1>".data) ((esc (H1_TITLE)).data) (by decide)]
  rw [tbSkip ("<h1>".data) (TTC.data) (by decide)]
  rw [tbSkip ("<h1>".data) (BH2.data) (by decide)]
  rw [tbSkip ("<h1>".data) ((esc ("Straight answers on wasp nest removal and wasp control.")).data) (by decide)]
  rw [tbSkip ("<h1>".data) (BH3.data) (by decide)]
  rw [tbSkip ("<h1>".data) ((esc ("/")).data) (by decide)]
  rw [tbSkip ("<h1>".data) (BH4.data) (by decide)]
  rw [tbSkipG ("<h1>".data) CSS.data css_safe_h1]
  rw [tbSkip ("<h1>".data) (BH5.data) (by decide)]
  rw [tbSkip ("<h1>".data) ((esc BRAND_NAME).data) (by decide)]
  rw [tbSkip ("<h1>".data) (BH6.data) (by decide)]
  rw [tbSkip ("<h1>".data) ((nav_html "home").data) (by decide)]
  rw [tbSkip ("<h1>".data) (BH7.data) (by decide)]
  rw [tbSkip ("<h1>".data) (HB1.data) (by decide)]
  rw [tbExtract ("<h1>".data) ("</h1>".data) ((esc (H1_TITLE)).data) (by decide) (by decide)
    (by rw [show hChar ("</h1>".data) = '<' from rfl]; exact esc_no_lt _)]
  simp only [Option.map_some', str_mk_data]

theorem home_h1_once : hasOnce "<h1>".data homepage_html.data := by
  refine hasOnce_of_parts
    [BH1.data,
      TTO.data,
      (esc (H1_TITLE)).data,
      TTC.data,
      BH2.data,
      (esc ("Straight answers on wasp nest removal and wasp control.")).data,
      BH3.data,
      (esc ("/")).data,
      BH4.data,
      CSS.data,
      BH5.data,
      (esc BRAND_NAME).data,
      BH6.data,
      (nav_html "home").data,
      BH7.data,
      HB1.data]
    [(esc (H1_TITLE)).data,
      H1C.data,
      HB2R.data,
      PS1.data,
      (esc ("/" ++ CONFIG.image_filename)).data,
      PS2.data,
      NL.data,
      H2O.data,
      (esc (H2_SHARED.getD 0 "")).data,
      H2C.data,
      POP.data ++ ((esc (P_SHARED.getD 0 "")).data),
      PCB.data,
      H2O.data,
      (esc (H2_SHARED.getD 1 "")).data,
      H2C.data,
      POP.data ++ ((esc (P_SHARED.getD 1 "")).data),
      PCB.data,
      H2O.data,
      (esc (H2_SHARED.getD 2 "")).data,
      H2C.data,
      POP.data ++ ((esc (P_SHARED.getD 2 "")).data),
      PCB.data,
      H2O.data,
      (esc (H2_SHARED.getD 3 "")).data,
      H2C.data,
      POP.data ++ ((esc (P_SHARED.getD 3 "")).data),
      PCB.data,
      H2O.data,
      (esc (H2_SHARED.getD 4 "")).data,
      H2C.data,
      POP.data ++ ((esc (P_SHARED.getD 4 "")).data),
      PCB.data,
      H2O.data,
      (esc (H2_SHARED.getD 5 "")).data,
      H2C.data,
      POP.data ++ ((esc (P_SHARED.getD 5 "")).data),
      PCBER.data,
      HP1.data,
      H2O.data,
      ("Choose your city").data,
      H2C.data,
      HP2.data,
      (String.intercalate "\n" (CITIES.map city_link_li)).data,
      HP3.data,
      PS3.data,
      FB1.data,
      H2O.data,
      ("Next steps").data,
      H2C.data,
      FB2.data,
      (esc CONFIG.cta_href).data,
      FB3.data,
      (esc CONFIG.cta_text).data,
      FB4.data,
      (esc BRAND_NAME).data,
      FB5R.data,
      BH8.data]
    (by decide) ?_ ?_ ?_
  · rw [home_parts_eq]
    simp only [homeParts, catL, List.foldr, List.append_nil, List.append_assoc, H1O]
  · refine ?_
    refine zsCons (by decide) ?_
    refine zsCons (by decide) ?_
    refine zsCons (by decide) ?_
    refine zsCons (by decide) ?_
    refine zsCons (by decide) ?_
    refine zsCons (by decide) ?_
    refine zsCons (by decide) ?_
    refine zsCons (by decide) ?_
    refine zsCons (by decide) ?_
    refine zsConsG css_safe_h1 ?_
    refine zsCons (by decide) ?_
    refine zsCons (by decide) ?_
    refine zsCons (by decide) ?_
    refine zsCons (by decide) ?_
    refine zsCons (by decide) ?_
    refine zsCons (by decide) ?_
    exact ZeroStream.nil _
  · refine ?_
    refine zsCons (by decide) ?_
    refine zsCons (by decide) ?_
    refine zsCons (by decide) ?_
    refine zsCons (by decide) ?_
    refine zsCons (by decide) ?_
    refine zsCons (by decide) ?_
    refine zsCons (by decide) ?_
    refine zsCons (by decide) ?_
    refine zsCons (by decide) ?_
    refine zsCons (by decide) ?_
    refine zsCons (by decide) ?_
    refine zsCons (by decide) ?_
    refine zsCons (by decide) ?_
    refine zsCons (by decide) ?_
    refine zsCons (by decide) ?_
    refine zsCons (by decide) ?_
    refine zsCons (by decide) ?_
    refine zsCons (by decide) ?_
    refine zsCons (by decide) ?_
    refine zsCons (by decide) ?_
    refine zsCons (by decide) ?_
    refine zsCons (by decide) ?_
    refine zsCons (by decide) ?_
    refine zsCons (by decide) ?_
    refine zsCons (by decide) ?_
    refine zsCons (by decide) ?_
    refine zsCons (by decide) ?_
    refine zsCons (by decide) ?_
    refine zsCons (by decide) ?_
    refine zsCons (by decide) ?_
    refine zsCons (by decide) ?_
    refine zsCons (by decide) ?_
    refine zsCons (by decide) ?_
    refine zsCons (by decide) ?_
    refine zsCons (by decide) ?_
    refine zsCons (by decide) ?_
    refine zsCons (by decide) ?_
    refine zsCons (by decide) ?_
    refine zsCons (by decide) ?_
    refine zsCons (by decide) ?_
    refine zsCons (by decide) ?_
    refine zsCons (by decide) ?_
    refine zsConsG links_safe_h1 ?_
    refine zsCons (by decide) ?_
    refine zsCons (by decide) ?_
    refine zsCons (by decide) ?_
    refine zsCons (by decide) ?_
    refine zsCons (by decide) ?_
    refine zsCons (by decide) ?_
    refine zsCons (by decide) ?_
    refine zsCons (by decide) ?_
    refine zsCons (by decide) ?_
    refine zsCons (by decide) ?_
    refine zsCons (by decide) ?_
    refine zsCons (by decide) ?_
    refine zsCons (by decide) ?_
    refine zsCons (by decide) ?_
    exact ZeroStream.nil _

theorem home_h2s : h2Texts homepage_html = [esc (H2_SHARED.getD 0 ""), esc (H2_SHARED.getD 1 ""), esc (H2_SHARED.getD 2 ""), esc (H2_SHARED.getD 3 ""), esc (H2_SHARED.getD 4 ""), esc (H2_SHARED.getD 5 ""), "Choose your city", "Next steps"] := by
  unfold h2Texts
  rw [home_parts_eq]
  simp only [homeParts, catL, List.foldr, List.append_nil, H2O, H2C]
  rw [skipStep ("<h2>".data) (BH1.data) (by decide)]
  rw [skipStep ("<h2>".data) (TTO.data) (by decide)]
  rw [skipStep ("<h2>".data) ((esc (H1_TITLE)).data) (by decide)]
  rw [skipStep ("<h2>".data) (TTC.data) (by decide)]
  rw [skipStep ("<h2>".data) (BH2.data) (by decide)]
  rw [skipStep ("<h2>".data) ((esc ("Straight answers on wasp nest removal and wasp control.")).data) (by decide)]
  rw [skipStep ("<h2>".data) (BH3.data) (by decide)]
  rw [skipStep ("<h2>".data) ((esc ("/")).data) (by decide)]
  rw [skipStep ("<h2>".data) (BH4.data) (by decide)]
  rw [skipStepG ("<h2>".data) CSS.data css_safe_h2]
  rw [skipStep ("<h2>".data) (BH5.data) (by decide)]
  rw [skipStep ("<h2>".data) ((esc BRAND_NAME).data) (by decide)]
  rw [skipStep ("<h2>".data) (BH6.data) (by decide)]
  rw [skipStep ("<h2>".data) ((nav_html "home").data) (by decide)]
  rw [skipStep ("<h2>".data) (BH7.data) (by decide)]
  rw [skipStep ("<h2>".data) (HB1.data) (by decide)]
  rw [skipStep ("<h2>".data) (H1O.data) (by decide)]
  rw [skipStep ("<h2>".data) ((esc (H1_TITLE)).data) (by decide)]
  rw [skipStep ("<h2>".data) (H1C.data) (by decide)]
  rw [skipStep ("<h2>".data) (HB2R.data) (by decide)]
  rw [skipStep ("<h2>".data) (PS1.data) (by decide)]
  rw [skipStep ("<h2>".data) ((esc ("/" ++ CONFIG.image_filename)).data) (by decide)]
  rw [skipStep ("<h2>".data) (PS2.data) (by decide)]
  rw [skipStep ("<h2>".data) (NL.data) (by decide)]
  rw [sbExtract ("<h2>".data) ("</h2>".data) ((esc (H2_SHARED.getD 0 "")).data) (by decide) (by decide)
    (by rw [show hChar ("</h2>".data) = '<' from rfl]; exact esc_no_lt _)]
  rw [← List.append_assoc]
  rw [skipStep ("<h2>".data) (POP.data ++ (esc (P_SHARED.getD 0 "")).data) (by decide)]
  rw [skipStep ("<h2>".data) (PCB.data) (by decide)]
  rw [sbExtract ("<h2>".data) ("</h2>".data) ((esc (H2_SHARED.getD 1 "")).data) (by decide) (by decide)
    (by rw [show hChar ("</h2>".data) = '<' from rfl]; exact esc_no_lt _)]
  rw [← List.append_assoc]
  rw [skipStep ("<h2>".data) (POP.data ++ (esc (P_SHARED.getD 1 "")).data) (by decide)]
  rw [skipStep ("<h2>".data) (PCB.data) (by decide)]
  rw [sbExtract ("<h2>".data) ("</h2>".data) ((esc (H2_SHARED.getD 2 "")).data) (by decide) (by decide)
    (by rw [show hChar ("</h2>".data) = '<' from rfl]; exact esc_no_lt _)]
  rw [← List.append_assoc]
  rw [skipStep ("<h2>".data) (POP.data ++ (esc (P_SHARED.getD 2 "")).data) (by decide)]
  rw [skipStep ("<h2>".data) (PCB.data) (by decide)]
  rw [sbExtract ("<h2>".data) ("</h2>".data) ((esc (H2_SHARED.getD 3 "")).data) (by decide) (by decide)
    (by rw [show hChar ("</h2>".data) = '<' from rfl]; exact esc_no_lt _)]
  rw [← List.append_assoc]
  rw [skipStep ("<h2>".data) (POP.data ++ (esc (P_SHARED.getD 3 "")).data) (by decide)]
  rw [skipStep ("<h2>".data) (PCB.data) (by decide)]
  rw [sbExtract ("<h2>".data) ("</h2>".data) ((esc (H2_SHARED.getD 4 "")).data) (by decide) (by decide)
    (by rw [show hChar ("</h2>".data) = '<' from rfl]; exact esc_no_lt _)]
  rw [← List.append_assoc]
  rw [skipStep ("<h2>".data) (POP.data ++ (esc (P_SHARED.getD 4 "")).data) (by decide)]
  rw [skipStep ("<h2>".data) (PCB.data) (by decide)]
  rw [sbExtract ("<h2>".data) ("</h2>".data) ((esc (H2_SHARED.getD 5 "")).data) (by decide) (by decide)
    (by rw [show hChar ("</h2>".data) = '<' from rfl]; exact esc_no_lt _)]
  rw [← List.append_assoc]
  rw [skipStep ("<h2>".data) (POP.data ++ (esc (P_SHARED.getD 5 "")).data) (by decide)]
  rw [skipStep ("<h2>".data) (PCBER.data) (by decide)]
  rw [skipStep ("<h2>".data) (HP1.data) (by decide)]
  rw [sbExtract ("<h2>".data) ("</h2>".data) (("Choose your city").data) (by decide) (by decide)
    (by decide)]
  rw [skipStep ("<h2>".data) (HP2.data) (by decide)]
  rw [skipStepG ("<h2>".data) (String.intercalate "\n" (CITIES.map city_link_li)).data links_safe_h2]
  rw [skipStep ("<h2>".data) (HP3.data) (by decide)]
  rw [skipStep ("<h2>".data) (PS3.data) (by decide)]
  rw [skipStep ("<h2>".data) (FB1.data) (by decide)]
  rw [sbExtract ("<h2>".data) ("</h2>".data) (("Next steps").data) (by decide) (by decide)
    (by decide)]
  rw [sbEnd ("<h2>".data) (FB2.data ++ ((esc CONFIG.cta_href).data ++ (FB3.data ++ ((esc CONFIG.cta_text).data ++ (FB4.data ++ ((esc BRAND_NAME).data ++ (FB5R.data ++ (BH8.data)))))))) (by decide) (by decide)]
  simp only [List.map_cons, List.map_nil, str_mk_data]

theorem home_serving :
    containsSub "Serving ".data homepage_html.data = false := by
  rw [home_parts_eq]
  rw [show catL (homeParts) = catL
      [BH1.data,
      TTO.data,
      (esc (H1_TITLE)).data,
      TTC.data,
      BH2.data,
      (esc ("Straight answers on wasp nest removal and wasp control.")).data,
      BH3.data,
      (esc ("/")).data,
      BH4.data,
      CSS.data,
      BH5.data,
      (esc BRAND_NAME).data,
      BH6.data,
      (nav_html "home").data,
      BH7.data,
      HB1.data,
      H1O.data,
      (esc (H1_TITLE)).data,
      H1C.data,
      HB2R.data,
      PS1.data,
      (esc ("/" ++ CONFIG.image_filename)).data,
      PS2.data,
      NL.data,
      H2O.data,
      (esc (H2_SHARED.getD 0 "")).data,
      H2C.data,
      POP.data,
      (esc (P_SHARED.getD 0 "")).data,
      PCB.data,
      H2O.data,
      (esc (H2_SHARED.getD 1 "")).data,
      H2C.data,
      POP.data,
      (esc (P_SHARED.getD 1 "")).data,
      PCB.data,
      H2O.data,
      (esc (H2_SHARED.getD 2 "")).data,
      H2C.data,
      POP.data,
      (esc (P_SHARED.getD 2 "")).data,
      PCB.data,
      H2O.data,
      (esc (H2_SHARED.getD 3 "")).data ++ (H2C.data),
      POP.data,
      (esc (P_SHARED.getD 3 "")).data,
      PCB.data,
      H2O.data,
      (esc (H2_SHARED.getD 4 "")).data ++ (H2C.data),
      POP.data,
      (esc (P_SHARED.getD 4 "")).data,
      PCB.data,
      H2O.data,
      (esc (H2_SHARED.getD 5 "")).data,
      H2C.data,
      POP.data,
      (esc (P_SHARED.getD 5 "")).data,
      PCBER.data,
      HP1.data,
      H2O.data,
      ("Choose your city").data,
      H2C.data,
      HP2.data,
      (String.intercalate "\n" (CITIES.map city_link_li)).data,
      HP3.data,
      PS3.data,
      FB1.data,
      H2O.data,
      ("Next steps").data,
      H2C.data,
      FB2.data,
      (esc CONFIG.cta_href).data,
      FB3.data,
      (esc CONFIG.cta_text).data,
      FB4.data,
      (esc BRAND_NAME).data,
      FB5R.data,
      BH8.data] from by
    simp only [homeParts, catL, List.foldr, List.append_nil, List.append_assoc]]
  refine contains_catL_false (by decide) _ ?_
  refine zsCons (by decide) ?_
  refine zsCons (by decide) ?_
  refine zsCons (by decide) ?_
  refine zsCons (by decide) ?_
  refine zsCons (by decide) ?_
  refine zsCons (by decide) ?_
  refine zsCons (by decide) ?_
  refine zsCons (by decide) ?_
  refine zsCons (by decide) ?_
  refine zsConsG css_safe_serving ?_
  refine zsCons (by decide) ?_
  refine zsCons (by decide) ?_
  refine zsCons (by decide) ?_
  refine zsCons (by decide) ?_
  refine zsCons (by decide) ?_
  refine zsCons (by decide) ?_
  refine zsCons (by decide) ?_
  refine zsCons (by decide) ?_
  refine zsCons (by decide) ?_
  refine zsCons (by decide) ?_
  refine zsCons (by decide) ?_
  refine zsCons (by decide) ?_
  refine zsCons (by decide) ?_
  refine zsCons (by decide) ?_
  refine zsCons (by decide) ?_
  refine zsCons (by decide) ?_
  refine zsCons (by decide) ?_
  refine zsCons (by decide) ?_
  refine zsCons (by decide) ?_
  refine zsCons (by decide) ?_
  refine zsCons (by decide) ?_
  refine zsCons (by decide) ?_
  refine zsCons (by decide) ?_
  refine zsCons (by decide) ?_
  refine zsCons (by decide) ?_
  refine zsCons (by decide) ?_
  refine zsCons (by decide) ?_
  refine zsCons (by decide) ?_
  refine zsCons (by decide) ?_
  refine zsCons (by decide) ?_
  refine zsCons (by decide) ?_
  refine zsCons (by decide) ?_
  refine zsCons (by decide) ?_
  refine zsCons (by decide) ?_
  refine zsCons (by decide) ?_
  refine zsCons (by decide) ?_
  refine zsCons (by decide) ?_
  refine zsCons (by decide) ?_
  refine zsCons (by decide) ?_
  refine zsCons (by decide) ?_
  refine zsCons (by decide) ?_
  refine zsCons (by decide) ?_
  refine zsCons (by decide) ?_
  refine zsCons (by decide) ?_
  refine zsCons (by decide) ?_
  refine zsCons (by decide) ?_
  refine zsCons (by decide) ?_
  refine zsCons (by decide) ?_
  refine zsCons (by decide) ?_
  refine zsCons (by decide) ?_
  refine zsCons (by decide) ?_
  refine zsCons (by decide) ?_
  refine zsCons (by decide) ?_
  refine zsConsG links_safe_serving ?_
  refine zsCons (by decide) ?_
  refine zsCons (by decide) ?_
  refine zsCons (by decide) ?_
  refine zsCons (by decide) ?_
  refine zsCons (by decide) ?_
  refine zsCons (by decide) ?_
  refine zsCons (by decide) ?_
  refine zsCons (by decide) ?_
  refine zsCons (by decide) ?_
  refine zsCons (by decide) ?_
  refine zsCons (by decide) ?_
  refine zsCons (by decide) ?_
  refine zsCons (by decide) ?_
  refine zsCons (by decide) ?_
  exact ZeroStream.nil _

theorem city_title_eq (city state : String) : titleText (city_page_html city state) = some (esc (city_h1 H1_TITLE city state)) := by
  unfold titleText
  rw [city_parts_eq]
  simp only [cityParts, catL, List.foldr, List.append_nil, TTO, TTC]
  rw [tbSkip ("<title>".data) (BH1.data) (by decide)]
  rw [tbExtract ("<title>".data) ("</title>".data) ((esc (city_h1 H1_TITLE city state)).data) (by decide) (by decide)
    (by rw [show hChar ("</title>".data) = '<' from rfl]; exact esc_no_lt _)]
  simp only [Option.map_some', str_mk_data]

theorem city_h1_eq (city state : String) : h1Text (city_page_html city state) = some (esc (city_h1 H1_TITLE city state)) := by
  unfold h1Text
  rw [city_parts_eq]
  simp only [cityParts, catL, List.foldr, List.append_nil, H1O, H1C]
  rw [tbSkip ("<h1>".data) (BH1.data) (by decide)]
  rw [tbSkip ("<h1>".data) (TTO.data) (by decide)]
  rw [tbSkipN ("<h1>".data) (esc (city_h1 H1_TITLE city state)).data (by decide) (by rw [show hChar ("<h1>".data) = '<' from rfl]; exact esc_no_lt _)]
  rw [tbSkip ("<h1>".data) (TTC.data) (by decide)]
  rw [tbSkip ("<h1>".data) (BH2.data) (by decide)]
  rw [tbSkipN ("<h1>".data) (esc (clamp_title (city_desc city state) 155)).data (by decide) (by rw [show hChar ("<h1>".data) = '<' from rfl]; exact esc_no_lt _)]
  rw [tbSkip ("<h1>".data) (BH3.data) (by decide)]
  rw [tbSkipN ("<h1>".data) (esc ("/" ++ city_state_slug city state ++ "/")).data (by decide) (by rw [show hChar ("<h1>".data) = '<' from rfl]; exact esc_no_lt _)]
  rw [tbSkip ("<h1>".data) (BH4.data) (by decide)]
  rw [tbSkipG ("<h1>".data) CSS.data css_safe_h1]
  rw [tbSkip ("<h1>".data) (BH5.data) (by decide)]
  rw [tbSkip ("<h1>".data) ((esc BRAND_NAME).data) (by decide)]
  rw [tbSkip ("<h1>".data) (BH6.data) (by decide)]
  rw [tbSkip ("<h1>".data) ((nav_html "home").data) (by decide)]
  rw [tbSkip ("<h1>".data) (BH7.data) (by decide)]
  rw [tbSkip ("<h1>".data) (HB1.data) (by decide)]
  rw [tbExtract ("<h1>".data) ("</h1>".data) ((esc (city_h1 H1_TITLE city state)).data) (by decide) (by decide)
    (by rw [show hChar ("</h1>".data) = '<' from rfl]; exact esc_no_lt _)]
  simp only [Option.map_some', str_mk_data]

theorem city_h1_once (city state : String) : hasOnce "<h1>".data (city_page_html city state).data := by
  refine hasOnce_of_parts
    [BH1.data,
      TTO.data,
      (esc (city_h1 H1_TITLE city state)).data,
      TTC.data,
      BH2.data,
      (esc (clamp_title (city_desc city state) 155)).data,
      BH3.data,
      (esc ("/" ++ city_state_slug city state ++ "/")).data,
      BH4.data,
      CSS.data,
      BH5.data,
      (esc BRAND_NAME).data,
      BH6.data,
      (nav_html "home").data,
      BH7.data,
      HB1.data]
    [(esc (city_h1 H1_TITLE city state)).data,
      H1C.data,
      HB2R.data,
      PS1.data,
      (esc ("/" ++ CONFIG.image_filename)).data,
      PS2.data,
      NL.data,
      H2O.data,
      (esc (H2_SHARED.getD 0 "")).data,
      H2C.data,
      POP.data ++ ((esc (P_SHARED.getD 0 "")).data),
      PCB.data,
      H2O.data,
      (esc (H2_SHARED.getD 1 "")).data,
      H2C.data,
      POP.data ++ ((esc (P_SHARED.getD 1 "")).data),
      PCB.data,
      H2O.data,
      (esc (H2_SHARED.getD 2 "")).data,
      H2C.data,
      POP.data ++ ((esc (P_SHARED.getD 2 "")).data),
      PCB.data,
      H2O.data,
      (esc (H2_SHARED.getD 3 "")).data,
      H2C.data,
      POP.data ++ ((esc (P_SHARED.getD 3 "")).data),
      PCB.data,
      H2O.data,
      (esc (H2_SHARED.getD 4 "")).data,
      H2C.data,
      POP.data ++ ((esc (P_SHARED.getD 4 "")).data),
      PCB.data,
      H2O.data,
      (esc (H2_SHARED.getD 5 "")).data,
      H2C.data,
      POP.data ++ ((esc (P_SHARED.getD 5 "")).data),
      PCBER.data,
      CO1.data,
      (toString CONFIG.cost_low).data,
      CO2.data,
      (toString CONFIG.cost_high).data,
      CO3.data,
      (esc city).data,
      CO4.data,
      (esc state).data,
      CO5.data,
      (esc CONFIG.cta_text).data,
      CO6R.data,
      CY1.data,
      H2O.data,
      ("Wasp Nest Removal Cost").data,
      H2C.data,
      CY2.data,
      (toString CONFIG.cost_low).data,
      CY3.data,
      (toString CONFIG.cost_high).data,
      CY4.data,
      PS3.data,
      FB1.data,
      H2O.data,
      ("Next steps").data,
      H2C.data,
      FB2.data,
      (esc CONFIG.cta_href).data,
      FB3.data,
      (esc CONFIG.cta_text).data,
      FB4.data,
      (esc BRAND_NAME).data,
      FB5R.data,
      BH8.data]
    (by decide) ?_ ?_ ?_
  · rw [city_parts_eq]
    simp only [cityParts, catL, List.foldr, List.append_nil, List.append_assoc, H1O]
  · refine ?_
    refine zsCons (by decide) ?_
    refine zsCons (by decide) ?_
    refine zsConsN (by decide) (by rw [show hChar ("<h1>".data) = '<' from rfl]; exact esc_no_lt _) ?_
    refine zsCons (by decide) ?_
    refine zsCons (by decide) ?_
    refine zsConsN (by decide) (by rw [show hChar ("<h1>".data) = '<' from rfl]; exact esc_no_lt _) ?_
    refine zsCons (by decide) ?_
    refine zsConsN (by decide) (by rw [show hChar ("<h1>".data) = '<' from rfl]; exact esc_no_lt _) ?_
    refine zsCons (by decide) ?_
    refine zsConsG css_safe_h1 ?_
    refine zsCons (by decide) ?_
    refine zsCons (by decide) ?_
    refine zsCons (by decide) ?_
    refine zsCons (by decide) ?_
    refine zsCons (by decide) ?_
    refine zsCons (by decide) ?_
    exact ZeroStream.nil _
  · refine ?_
    refine zsConsN (by decide) (by rw [show hChar ("<h1>".data) = '<' from rfl]; exact esc_no_lt _) ?_
    refine zsCons (by decide) ?_
    refine zsCons (by decide) ?_
    refine zsCons (by decide) ?_
    refine zsCons (by decide) ?_
    refine zsCons (by decide) ?_
    refine zsCons (by decide) ?_
    refine zsCons (by decide) ?_
    refine zsCons (by decide) ?_
    refine zsCons (by decide) ?_
    refine zsCons (by decide) ?_
    refine zsCons (by decide) ?_
    refine zsCons (by decide) ?_
    refine zsCons (by decide) ?_
    refine zsCons (by decide) ?_
    refine zsCons (by decide) ?_
    refine zsCons (by decide) ?_
    refine zsCons (by decide) ?_
    refine zsCons (by decide) ?_
    refine zsCons (by decide) ?_
    refine zsCons (by decide) ?_
    refine zsCons (by decide) ?_
    refine zsCons (by decide) ?_
    refine zsCons (by decide) ?_
    refine zsCons (by decide) ?_
    refine zsCons (by decide) ?_
    refine zsCons (by decide) ?_
    refine zsCons (by decide) ?_
    refine zsCons (by decide) ?_
    refine zsCons (by decide) ?_
    refine zsCons (by decide) ?_
    refine zsCons (by decide) ?_
    refine zsCons (by decide) ?_
    refine zsCons (by decide) ?_
    refine zsCons (by decide) ?_
    refine zsCons (by decide) ?_
    refine zsCons (by decide) ?_
    refine zsCons (by decide) ?_
    refine zsCons (by decide) ?_
    refine zsCons (by decide) ?_
    refine zsCons (by decide) ?_
    refine zsCons (by decide) ?_
    refine zsConsN (by decide) (by rw [show hChar ("<h1>".data) = '<' from rfl]; exact esc_no_lt _) ?_
    refine zsCons (by decide) ?_
    refine zsConsN (by decide) (by rw [show hChar ("<h1>".data) = '<' from rfl]; exact esc_no_lt _) ?_
    refine zsCons (by decide) ?_
    refine zsCons (by decide) ?_
    refine zsCons (by decide) ?_
    refine zsCons (by decide) ?_
    refine zsCons (by decide) ?_
    refine zsCons (by decide) ?_
    refine zsCons (by decide) ?_
    refine zsCons (by decide) ?_
    refine zsCons (by decide) ?_
    refine zsCons (by decide) ?_
    refine zsCons (by decide) ?_
    refine zsCons (by decide) ?_
    refine zsCons (by decide) ?_
    refine zsCons (by decide) ?_
    refine zsCons (by decide) ?_
    refine zsCons (by decide) ?_
    refine zsCons (by decide) ?_
    refine zsCons (by decide) ?_
    refine zsCons (by decide) ?_
    refine zsCons (by decide) ?_
    refine zsCons (by decide) ?_
    refine zsCons (by decide) ?_
    refine zsCons (by decide) ?_
    refine zsCons (by decide) ?_
    refine zsCons (by decide) ?_
    exact ZeroStream.nil _

theorem city_h2s (city state : String) : h2Texts (city_page_html city state) = [esc (H2_SHARED.getD 0 ""), esc (H2_SHARED.getD 1 ""), esc (H2_SHARED.getD 2 ""), esc (H2_SHARED.getD 3 ""), esc (H2_SHARED.getD 4 ""), esc (H2_SHARED.getD 5 ""), "Wasp Nest Removal Cost", "Next steps"] := by
  unfold h2Texts
  rw [city_parts_eq]
  simp only [cityParts, catL, List.foldr, List.append_nil, H2O, H2C]
  rw [skipStep ("<h2>".data) (BH1.data) (by decide)]
  rw [skipStep ("<h2>".data) (TTO.data) (by decide)]
  rw [skipStepN ("<h2>".data) (esc (city_h1 H1_TITLE city state)).data (by decide) (by rw [show hChar ("<h2>".data) = '<' from rfl]; exact esc_no_lt _)]
  rw [skipStep ("<h2>".data) (TTC.data) (by decide)]
  rw [skipStep ("<h2>".data) (BH2.data) (by decide)]
  rw [skipStepN ("<h2>".data) (esc (clamp_title (city_desc city state) 155)).data (by decide) (by rw [show hChar ("<h2>".data) = '<' from rfl]; exact esc_no_lt _)]
  rw [skipStep ("<h2>".data) (BH3.data) (by decide)]
  rw [skipStepN ("<h2>".data) (esc ("/" ++ city_state_slug city state ++ "/")).data (by decide) (by rw [show hChar ("<h2>".data) = '<' from rfl]; exact esc_no_lt _)]
  rw [skipStep ("<h2>".data) (BH4.data) (by decide)]
  rw [skipStepG ("<h2>".data) CSS.data css_safe_h2]
  rw [skipStep ("<h2>".data) (BH5.data) (by decide)]
  rw [skipStep ("<h2>".data) ((esc BRAND_NAME).data) (by decide)]
  rw [skipStep ("<h2>".data) (BH6.data) (by decide)]
  rw [skipStep ("<h2>".data) ((nav_html "home").data) (by decide)]
  rw [skipStep ("<h2>".data) (BH7.data) (by decide)]
  rw [skipStep ("<h2>".data) (HB1.data) (by decide)]
  rw [skipStep ("<h2>".data) (H1O.data) (by decide)]
  rw [skipStepN ("<h2>".data) (esc (city_h1 H1_TITLE city state)).data (by decide) (by rw [show hChar ("<h2>".data) = '<' from rfl]; exact esc_no_lt _)]
  rw [skipStep ("<h2>".data) (H1C.data) (by decide)]
  rw [skipStep ("<h2>".data) (HB2R.data) (by decide)]
  rw [skipStep ("<h2>".data) (PS1.data) (by decide)]
  rw [skipStep ("<h2>".data) ((esc ("/" ++ CONFIG.image_filename)).data) (by decide)]
  rw [skipStep ("<h2>".data) (PS2.data) (by decide)]
  rw [skipStep ("<h2>".data) (NL.data) (by decide)]
  rw [sbExtract ("<h2>".data) ("</h2>".data) ((esc (H2_SHARED.getD 0 "")).data) (by decide) (by decide)
    (by rw [show hChar ("</h2>".data) = '<' from rfl]; exact esc_no_lt _)]
  rw [← List.append_assoc]
  rw [skipStep ("<h2>".data) (POP.data ++ (esc (P_SHARED.getD 0 "")).data) (by decide)]
  rw [skipStep ("<h2>".data) (PCB.data) (by decide)]
  rw [sbExtract ("<h2>".data) ("</h2>".data) ((esc (H2_SHARED.getD 1 "")).data) (by decide) (by decide)
    (by rw [show hChar ("</h2>".data) = '<' from rfl]; exact esc_no_lt _)]
  rw [← List.append_assoc]
  rw [skipStep ("<h2>".data) (POP.data ++ (esc (P_SHARED.getD 1 "")).data) (by decide)]
  rw [skipStep ("<h2>".data) (PCB.data) (by decide)]
  rw [sbExtract ("<h2>".data) ("</h2>".data) ((esc (H2_SHARED.getD 2 "")).data) (by decide) (by decide)
    (by rw [show hChar ("</h2>".data) = '<' from rfl]; exact esc_no_lt _)]
  rw [← List.append_assoc]
  rw [skipStep ("<h2>".data) (POP.data ++ (esc (P_SHARED.getD 2 "")).data) (by decide)]
  rw [skipStep ("<h2>".data) (PCB.data) (by decide)]
  rw [sbExtract ("<h2>".data) ("</h2>".data) ((esc (H2_SHARED.getD 3 "")).data) (by decide) (by decide)
    (by rw [show hChar ("</h2>".data) = '<' from rfl]; exact esc_no_lt _)]
  rw [← List.append_assoc]
  rw [skipStep ("<h2>".data) (POP.data ++ (esc (P_SHARED.getD 3 "")).data) (by decide)]
  rw [skipStep ("<h2>".data) (PCB.data) (by decide)]
  rw [sbExtract ("<h2>".data) ("</h2>".data) ((esc (H2_SHARED.getD 4 "")).data) (by decide) (by decide)
    (by rw [show hChar ("</h2>".data) = '<' from rfl]; exact esc_no_lt _)]
  rw [← List.append_assoc]
  rw [skipStep ("<h2>".data) (POP.data ++ (esc (P_SHARED.getD 4 "")).data) (by decide)]
  rw [skipStep ("<h2>".data) (PCB.data) (by decide)]
  rw [sbExtract ("<h2>".data) ("</h2>".data) ((esc (H2_SHARED.getD 5 "")).data) (by decide) (by decide)
    (by rw [show hChar ("</h2>".data) = '<' from rfl]; exact esc_no_lt _)]
  rw [← List.append_assoc]
  rw [skipStep ("<h2>".data) (POP.data ++ (esc (P_SHARED.getD 5 "")).data) (by decide)]
  rw [skipStep ("<h2>".data) (PCBER.data) (by decide)]
  rw [skipStep ("<h2>".data) (CO1.data) (by decide)]
  rw [skipStep ("<h2>".data) ((toString CONFIG.cost_low).data) (by decide)]
  rw [skipStep ("<h2>".data) (CO2.data) (by decide)]
  rw [skipStep ("<h2>".data) ((toString CONFIG.cost_high).data) (by decide)]
  rw [skipStep ("<h2>".data) (CO3.data) (by decide)]
  rw [skipStepN ("<h2>".data) (esc city).data (by decide) (by rw [show hChar ("<h2>".data) = '<' from rfl]; exact esc_no_lt _)]
  rw [skipStep ("<h2>".data) (CO4.data) (by decide)]
  rw [skipStepN ("<h2>".data) (esc state).data (by decide) (by rw [show hChar ("<h2>".data) = '<' from rfl]; exact esc_no_lt _)]
  rw [skipStep ("<h2>".data) (CO5.data) (by decide)]
  rw [skipStep ("<h2>".data) ((esc CONFIG.cta_text).data) (by decide)]
  rw [skipStep ("<h2>".data) (CO6R.data) (by decide)]
  rw [skipStep ("<h2>".data) (CY1.data) (by decide)]
  rw [sbExtract ("<h2>".data) ("</h2>".data) (("Wasp Nest Removal Cost").data) (by decide) (by decide)
    (by decide)]
  rw [skipStep ("<h2>".data) (CY2.data) (by decide)]
  rw [skipStep ("<h2>".data) ((toString CONFIG.cost_low).data) (by decide)]
  rw [skipStep ("<h2>".data) (CY3.data) (by decide)]
  rw [skipStep ("<h2>".data) ((toString CONFIG.cost_high).data) (by decide)]
  rw [skipStep ("<h2>".data) (CY4.data) (by decide)]
  rw [skipStep ("<h2>".data) (PS3.data) (by decide)]
  rw [skipStep ("<h2>".data) (FB1.data) (by decide)]
  rw [sbExtract ("<h2>".data) ("</h2>".data) (("Next steps").data) (by decide) (by decide)
    (by decide)]
  rw [sbEnd ("<h2>".data) (FB2.data ++ ((esc CONFIG.cta_href).data ++ (FB3.data ++ ((esc CONFIG.cta_text).data ++ (FB4.data ++ ((esc BRAND_NAME).data ++ (FB5R.data ++ (BH8.data)))))))) (by decide) (by decide)]
  simp only [List.map_cons, List.map_nil, str_mk_data]

theorem city_serving (city state : String) (h : cityOk city state = true) :
    containsSub "Serving ".data (city_page_html city state).data = false := by
  rw [city_parts_eq]
  rw [show catL (cityParts city state) = catL
      [BH1.data,
      TTO.data,
      (esc (city_h1 H1_TITLE city state)).data ++ (TTC.data),
      BH2.data,
      (esc (clamp_title (city_desc city state) 155)).data ++ (BH3.data),
      (esc ("/" ++ city_state_slug city state ++ "/")).data,
      BH4.data,
      CSS.data,
      BH5.data,
      (esc BRAND_NAME).data,
      BH6.data,
      (nav_html "home").data,
      BH7.data,
      HB1.data,
      H1O.data,
      (esc (city_h1 H1_TITLE city state)).data ++ (H1C.data ++ (HB2R.data)),
      PS1.data,
      (esc ("/" ++ CONFIG.image_filename)).data,
      PS2.data,
      NL.data,
      H2O.data,
      (esc (H2_SHARED.getD 0 "")).data,
      H2C.data,
      POP.data,
      (esc (P_SHARED.getD 0 "")).data,
      PCB.data,
      H2O.data,
      (esc (H2_SHARED.getD 1 "")).data,
      H2C.data,
      POP.data,
      (esc (P_SHARED.getD 1 "")).data,
      PCB.data,
      H2O.data,
      (esc (H2_SHARED.getD 2 "")).data,
      H2C.data,
      POP.data,
      (esc (P_SHARED.getD 2 "")).data,
      PCB.data,
      H2O.data,
      (esc (H2_SHARED.getD 3 "")).data ++ (H2C.data),
      POP.data,
      (esc (P_SHARED.getD 3 "")).data,
      PCB.data,
      H2O.data,
      (esc (H2_SHARED.getD 4 "")).data ++ (H2C.data),
      POP.data,
      (esc (P_SHARED.getD 4 "")).data,
      PCB.data,
      H2O.data,
      (esc (H2_SHARED.getD 5 "")).data,
      H2C.data,
      POP.data,
      (esc (P_SHARED.getD 5 "")).data,
      PCBER.data,
      CO1.data,
      (toString CONFIG.cost_low).data,
      CO2.data,
      (toString CONFIG.cost_high).data,
      CO3.data,
      (esc city).data ++ (CO4.data ++ ((esc state).data ++ (CO5.data))),
      (esc CONFIG.cta_text).data,
      CO6R.data,
      CY1.data,
      H2O.data,
      ("Wasp Nest Removal Cost").data,
      H2C.data,
      CY2.data,
      (toString CONFIG.cost_low).data,
      CY3.data,
      (toString CONFIG.cost_high).data,
      CY4.data,
      PS3.data,
      FB1.data,
      H2O.data,
      ("Next steps").data,
      H2C.data,
      FB2.data,
      (esc CONFIG.cta_href).data,
      FB3.data,
      (esc CONFIG.cta_text).data,
      FB4.data,
      (esc BRAND_NAME).data,
      FB5R.data,
      BH8.data] from by
    simp only [cityParts, catL, List.foldr, List.append_nil, List.append_assoc]]
  refine contains_catL_false (by decide) _ ?_
  refine zsCons (by decide) ?_
  refine zsCons (by decide) ?_
  refine zsCons (cityOkE3 h) ?_
  refine zsCons (by decide) ?_
  refine zsCons (cityOkE4 h) ?_
  refine zsCons (cityOkE5 h) ?_
  refine zsCons (by decide) ?_
  refine zsConsG css_safe_serving ?_
  refine zsCons (by decide) ?_
  refine zsCons (by decide) ?_
  refine zsCons (by decide) ?_
  refine zsCons (by decide) ?_
  refine zsCons (by decide) ?_
  refine zsCons (by decide) ?_
  refine zsCons (by decide) ?_
  refine zsCons (cityOkE6 h) ?_
  refine zsCons (by decide) ?_
  refine zsCons (by decide) ?_
  refine zsCons (by decide) ?_
  refine zsCons (by decide) ?_
  refine zsCons (by decide) ?_
  refine zsCons (by decide) ?_
  refine zsCons (by decide) ?_
  refine zsCons (by decide) ?_
  refine zsCons (by decide) ?_
  refine zsCons (by decide) ?_
  refine zsCons (by decide) ?_
  refine zsCons (by decide) ?_
  refine zsCons (by decide) ?_
  refine zsCons (by decide) ?_
  refine zsCons (by decide) ?_
  refine zsCons (by decide) ?_
  refine zsCons (by decide) ?_
  refine zsCons (by decide) ?_
  refine zsCons (by decide) ?_
  refine zsCons (by decide) ?_
  refine zsCons (by decide) ?_
  refine zsCons (by decide) ?_
  refine zsCons (by decide) ?_
  refine zsCons (by decide) ?_
  refine zsCons (by decide) ?_
  refine zsCons (by decide) ?_
  refine zsCons (by decide) ?_
  refine zsCons (by decide) ?_
  refine zsCons (by decide) ?_
  refine zsCons (by decide) ?_
  refine zsCons (by decide) ?_
  refine zsCons (by decide) ?_
  refine zsCons (by decide) ?_
  refine zsCons (by decide) ?_
  refine zsCons (by decide) ?_
  refine zsCons (by decide) ?_
  refine zsCons (by decide) ?_
  refine zsCons (by decide) ?_
  refine zsCons (by decide) ?_
  refine zsCons (by decide) ?_
  refine zsCons (by decide) ?_
  refine zsCons (by decide) ?_
  refine zsCons (by decide) ?_
  refine zsCons (cityOkE7 h) ?_
  refine zsCons (by decide) ?_
  refine zsCons (by decide) ?_
  refine zsCons (by decide) ?_
  refine zsCons (by decide) ?_
  refine zsCons (by decide) ?_
  refine zsCons (by decide) ?_
  refine zsCons (by decide) ?_
  refine zsCons (by decide) ?_
  refine zsCons (by decide) ?_
  refine zsCons (by decide) ?_
  refine zsCons (by decide) ?_
  refine zsCons (by decide) ?_
  refine zsCons (by decide) ?_
  refine zsCons (by decide) ?_
  refine zsCons (by decide) ?_
  refine zsCons (by decide) ?_
  refine zsCons (by decide) ?_
  refine zsCons (by decide) ?_
  refine zsCons (by decide) ?_
  refine zsCons (by decide) ?_
  refine zsCons (by decide) ?_
  refine zsCons (by decide) ?_
  refine zsCons (by decide) ?_
  refine zsCons (by decide) ?_
  exact ZeroStream.nil _

/-! The ten claims, settled against the definitions above. -/

/-- C1: on every generated page (home, cost, how-to, and each roster city's
page) the `<title>` element's text equals the text of the page's `<h1>`
element, and the page renders exactly one `<h1>` open tag. -/
theorem C1_title_eq_h1 : ∀ page ∈ all_pages,
    hasOnce "<h1>".data page.data ∧
    ∃ t : String, titleText page = some t ∧ h1Text page = some t := by
  intro page hp
  simp only [all_pages, List.mem_append, List.mem_cons, List.not_mem_nil,
    or_false] at hp
  rcases hp with (rfl | rfl | rfl) | hm
  · exact ⟨home_h1_once, esc H1_TITLE, home_title_eq, home_h1_eq⟩
  · exact ⟨cost_h1_once, esc COST_TITLE, cost_title_eq, cost_h1_eq⟩
  · exact ⟨howto_h1_once, esc HOWTO_TITLE, howto_title_eq, howto_h1_eq⟩
  · obtain ⟨cs, hcs, rfl⟩ := List.mem_map.mp hm
    exact ⟨city_h1_once cs.1 cs.2, esc (city_h1 H1_TITLE cs.1 cs.2),
      city_title_eq cs.1 cs.2, city_h1_eq cs.1 cs.2⟩

/-- C1, witnessed on the home page. -/
theorem C1_title_eq_h1_w :
    hasOnce "<h1>".data homepage_html.data ∧
    ∃ t : String, titleText homepage_html = some t ∧
      h1Text homepage_html = some t :=
  C1_title_eq_h1 homepage_html
    (by simp only [all_pages]
        exact List.mem_append_left _ (List.mem_cons_self _ _))

/-- C2, counterexample: the shared table has seven entries but the shared
section block does not contain the seventh heading at all. -/
theorem C2_cex : H2_SHARED.length = 7 ∧
    containsSub (H2_SHARED.getD 6 "").data (shared_sections_html none).data = false :=
  ⟨by decide, by decide⟩

/-- C2 (amended): the cost generator renders its entire six-entry table in
order, but the shared and how-to generators render only the first six of
their seven entries — each rendered block is exactly the heading/paragraph
chain below. -/
theorem C2_sections :
    H2_SHARED.length = 7 ∧ H2_COST.length = 6 ∧ H2_HOWTO.length = 7 ∧
    (∀ local_line : Option String, shared_sections_html local_line =
      NL ++ H2O ++ esc (H2_SHARED.getD 0 "") ++ H2C ++ POP ++ esc (P_SHARED.getD 0 "") ++ PCB ++ H2O ++ esc (H2_SHARED.getD 1 "") ++ H2C ++ POP ++ esc (P_SHARED.getD 1 "") ++ PCB ++ H2O ++ esc (H2_SHARED.getD 2 "") ++ H2C ++ POP ++ esc (P_SHARED.getD 2 "") ++ PCB ++ H2O ++ esc (H2_SHARED.getD 3 "") ++ H2C ++ POP ++ esc (P_SHARED.getD 3 "") ++ PCB ++ H2O ++ esc (H2_SHARED.getD 4 "") ++ H2C ++ POP ++ esc (P_SHARED.getD 4 "") ++ PCB ++ H2O ++ esc (H2_SHARED.getD 5 "") ++ H2C ++ POP ++ esc (P_SHARED.getD 5 "") ++ PCBER) ∧
    cost_sections_html =
      NL ++ H2O ++ esc (H2_COST.getD 0 "") ++ H2C ++ POP ++ esc (P_COST.getD 0 "") ++ PCL ++ H2O ++ esc (H2_COST.getD 1 "") ++ H2C ++ POP ++ esc (P_COST.getD 1 "") ++ PCL ++ H2O ++ esc (H2_COST.getD 2 "") ++ H2C ++ POP ++ esc (P_COST.getD 2 "") ++ PCL ++ H2O ++ esc (H2_COST.getD 3 "") ++ H2C ++ POP ++ esc (P_COST.getD 3 "") ++ PCL ++ H2O ++ esc (H2_COST.getD 4 "") ++ H2C ++ POP ++ esc (P_COST.getD 4 "") ++ PCL ++ H2O ++ esc (H2_COST.getD 5 "") ++ H2C ++ POP ++ esc (P_COST.getD 5 "") ++ PCLE ++ CT1 ++ toString CONFIG.cost_low ++ CT2 ++ toString CONFIG.cost_high ++ CT3R ∧
    howto_sections_html =
      NL ++ H2O ++ esc (H2_HOWTO.getD 0 "") ++ H2C ++ POP ++ esc (P_HOWTO.getD 0 "") ++ PCL ++ H2O ++ esc (H2_HOWTO.getD 1 "") ++ H2C ++ POP ++ esc (P_HOWTO.getD 1 "") ++ PCL ++ H2O ++ esc (H2_HOWTO.getD 2 "") ++ H2C ++ POP ++ esc (P_HOWTO.getD 2 "") ++ PCL ++ H2O ++ esc (H2_HOWTO.getD 3 "") ++ H2C ++ POP ++ esc (P_HOWTO.getD 3 "") ++ PCL ++ H2O ++ esc (H2_HOWTO.getD 4 "") ++ H2C ++ POP ++ esc (P_HOWTO.getD 4 "") ++ PCL ++ H2O ++ esc (H2_HOWTO.getD 5 "") ++ H2C ++ POP ++ esc (P_HOWTO.getD 5 "") ++ PCLER :=
  ⟨by decide, by decide, by decide, shared_flat, cost_sections_flat,
    howto_sections_flat⟩

/-- C3, counterexample: the home page's heading list and New York's city-page
heading list differ — "Choose your city" is rendered only on the home page
(the city page has "Wasp Nest Removal Cost" instead). -/
theorem C3_cex :
    "Choose your city" ∈ h2Texts homepage_html ∧
    "Choose your city" ∉ h2Texts (city_page_html "New York" "NY") := by
  constructor
  · rw [home_h2s]
    decide
  · rw [city_h2s]
    decide

/-- C3 (amended): every city page renders the six shared headings plus
"Wasp Nest Removal Cost" and "Next steps"; the home page renders the six
shared headings plus "Choose your city" and "Next steps" — so the two sets
agree except for that one heading each. -/
theorem C3_heading_parity : ∀ cs ∈ CITIES,
    h2Texts (city_page_html cs.1 cs.2) =
      [esc (H2_SHARED.getD 0 ""), esc (H2_SHARED.getD 1 ""), esc (H2_SHARED.getD 2 ""), esc (H2_SHARED.getD 3 ""), esc (H2_SHARED.getD 4 ""), esc (H2_SHARED.getD 5 ""), "Wasp Nest Removal Cost", "Next steps"] ∧
    h2Texts homepage_html =
      [esc (H2_SHARED.getD 0 ""), esc (H2_SHARED.getD 1 ""), esc (H2_SHARED.getD 2 ""), esc (H2_SHARED.getD 3 ""), esc (H2_SHARED.getD 4 ""), esc (H2_SHARED.getD 5 ""), "Choose your city", "Next steps"] := by
  intro cs hcs
  exact ⟨city_h2s cs.1 cs.2, home_h2s⟩

/-- C3, witnessed at the first roster city. -/
theorem C3_heading_parity_w :
    h2Texts (city_page_html "New York" "NY") =
      [esc (H2_SHARED.getD 0 ""), esc (H2_SHARED.getD 1 ""), esc (H2_SHARED.getD 2 ""), esc (H2_SHARED.getD 3 ""), esc (H2_SHARED.getD 4 ""), esc (H2_SHARED.getD 5 ""), "Wasp Nest Removal Cost", "Next steps"] ∧
    h2Texts homepage_html =
      [esc (H2_SHARED.getD 0 ""), esc (H2_SHARED.getD 1 ""), esc (H2_SHARED.getD 2 ""), esc (H2_SHARED.getD 3 ""), esc (H2_SHARED.getD 4 ""), esc (H2_SHARED.getD 5 ""), "Choose your city", "Next steps"] :=
  C3_heading_parity ("New York", "NY") (by decide)

/-- C4, counterexample: with `max_chars = 0` (Python slicing semantics,
`title[:-1]`) the clamp returns a two-character string, so the advertised
"result's length is at most maxChars" fails for non-positive limits. -/
theorem C4_cex : clamp_title "ab" 0 = "a…" ∧
    ¬ (((clamp_title "ab" 0).length : Int) ≤ 0) :=
  ⟨by decide, by decide⟩

/-- C4 (amended): for limits `1 ≤ maxChars` the clamp returns the text
unchanged when it fits, always stays within the limit, and otherwise is the
right-stripped `maxChars - 1`-character prefix plus one ellipsis character;
the two boundary examples evaluate as the spec says. -/
theorem C4_clamp :
    (∀ (t : String) (m : Int), 1 ≤ m →
      (((t.length : Int) ≤ m → clamp_title t m = t) ∧
       ((clamp_title t m).length : Int) ≤ m ∧
       ((t.length : Int) > m →
         clamp_title t m =
           pyRstrip (String.mk (pyTakeInt (m - 1) t.data)) ++ "…"))) ∧
    clamp_title "12345" 5 = "12345" ∧
    clamp_title "123456" 5 = "1234…" ∧ "1234…".length = 5 := by
  refine ⟨fun t m hm => ⟨fun hle => clamp_title_of_le hle,
    clamp_title_length t m hm, fun hgt => ?_⟩, by decide, by decide, by decide⟩
  unfold clamp_title
  rw [if_neg (by omega)]

/-- The slug pipeline as the spec words it: trim and lowercase, replace `&`
by " and ", collapse every run outside `[a-z0-9]` into one hyphen (a single
collapse pass), strip edge hyphens. -/
def slug_spec (s : String) : String :=
  String.mk (stripDashes (subNonAlnum (subAmp
    ((pyStripList s.data).map Char.toLower))))

/-- C5: `slugify` equals the spec's single-collapse pipeline on every input
(the source's extra `-{2,}` pass is a no-op), and the two cited examples
hold.  Both sides are plain functions of the input, so determinism and
purity are inherent. -/
theorem C5_slugify :
    (∀ s : String, slugify s = slug_spec s) ∧
    slugify "St. Paul" = "st-paul" ∧
    slugify "Washington & Lee" = "washington-and-lee" := by
  refine ⟨fun s => ?_, by decide, by decide⟩
  unfold slugify slug_spec
  rw [subHyphenRuns_subNonAlnum]

/-- C6: every roster city's combined slug is well-shaped (non-empty, only
`[a-z0-9]` and single non-adjacent hyphens, no edge hyphen — `goodSlug`),
all 356 combined slugs are pairwise distinct, and the two Washington
entries are both on the roster and map to distinct paths. -/
theorem C6_slug_unique :
    (∀ cs ∈ CITIES, goodSlug (city_state_slug cs.1 cs.2) = true) ∧
    (CITIES.map (fun cs => city_state_slug cs.1 cs.2)).Nodup ∧
    ("Washington", "DC") ∈ CITIES ∧ ("Washington", "NC") ∈ CITIES ∧
    city_state_slug "Washington" "DC" = "washington-dc" ∧
    city_state_slug "Washington" "NC" = "washington-nc" :=
  ⟨fun cs hcs => cityOkG cs (cities_cityOk_mem cs hcs), slugs_nodup,
    by decide, by decide, by decide, by decide⟩

/-- C7, counterexample: the heading "Next steps" (the footer section) is
rendered on both the cost page and the how-to page. -/
theorem C7_cex :
    "Next steps" ∈ h2Texts cost_page_html ∧
    "Next steps" ∈ h2Texts howto_page_html := by
  constructor
  · rw [cost_h2s]
    decide
  · rw [howto_h2s]
    decide

/-- C7 (amended): the three heading tables are pairwise disjoint, and the
only heading text the rendered cost and how-to pages share is the footer's
"Next steps". -/
theorem C7_heading_reuse :
    (∀ t ∈ H2_COST, t ∉ H2_HOWTO ∧ t ∉ H2_SHARED) ∧
    (∀ t ∈ H2_HOWTO, t ∉ H2_SHARED) ∧
    (h2Texts cost_page_html).filter
      (fun t => (h2Texts howto_page_html).contains t) = ["Next steps"] := by
  refine ⟨by decide, by decide, ?_⟩
  rw [cost_h2s, howto_h2s]
  decide

/-- C8: the sitemap opens with the XML declaration and the urlset element
with the sitemaps.org namespace, and contains exactly one `<loc>` text per
site path, in the order home, cost, how-to, then the roster cities in
roster order. -/
theorem C8_sitemap :
    locTexts (sitemap_xml site_urls) = site_urls ∧
    site_urls = ["/", "/cost/", "/how-to/"] ++
      CITIES.map (fun cs => "/" ++ city_state_slug cs.1 cs.2 ++ "/") ∧
    isPre ("<?xml version=\"1.0\" encoding=\"UTF-8\"?>\n<urlset xmlns=\"http://www.sitemaps.org/schemas/sitemap/0.9\">\n").data
      (sitemap_xml site_urls).data = true := by
  refine ⟨sitemap_locs, rfl, ?_⟩
  rw [show ("<?xml version=\"1.0\" encoding=\"UTF-8\"?>\n<urlset xmlns=\"http://www.sitemaps.org/schemas/sitemap/0.9\">\n" : String) = SM1 ++ SM2 from by decide]
  unfold sitemap_xml
  rw [show (SM1 ++ SM2 ++
      String.join (site_urls.map (fun u => LOCO ++ u ++ LOCC)) ++ SM3).data =
      (SM1 ++ SM2).data ++
        ((String.join (site_urls.map (fun u => LOCO ++ u ++ LOCC))).data ++
          SM3.data) from by
    rw [data_append, data_append, List.append_assoc]]
  exact isPre_append_self _ _

/-- C9: the shared-section generator's output is the same string whatever
`local_line` is, each of the six interpolated paragraph bodies is followed
by the malformed closing sequence `</</p>` (spelled out literally below),
and the malformed sequence does occur in the output. -/
theorem C9_malformed_close :
    (∀ x y : Option String, shared_sections_html x = shared_sections_html y) ∧
    (∀ local_line : Option String, shared_sections_html local_line =
      NL ++ H2O ++ esc (H2_SHARED.getD 0 "") ++ H2C ++ POP ++ esc (P_SHARED.getD 0 "") ++ ("</" ++ "</p>" ++ "\n\n") ++ H2O ++ esc (H2_SHARED.getD 1 "") ++ H2C ++ POP ++ esc (P_SHARED.getD 1 "") ++ ("</" ++ "</p>" ++ "\n\n") ++ H2O ++ esc (H2_SHARED.getD 2 "") ++ H2C ++ POP ++ esc (P_SHARED.getD 2 "") ++ ("</" ++ "</p>" ++ "\n\n") ++ H2O ++ esc (H2_SHARED.getD 3 "") ++ H2C ++ POP ++ esc (P_SHARED.getD 3 "") ++ ("</" ++ "</p>" ++ "\n\n") ++ H2O ++ esc (H2_SHARED.getD 4 "") ++ H2C ++ POP ++ esc (P_SHARED.getD 4 "") ++ ("</" ++ "</p>" ++ "\n\n") ++ H2O ++ esc (H2_SHARED.getD 5 "") ++ H2C ++ POP ++ esc (P_SHARED.getD 5 "") ++ ("</" ++ "</p>")) ∧
    containsSub ("</" ++ "</p>").data (shared_sections_html none).data = true := by
  refine ⟨fun x y => rfl, fun l => ?_, by decide⟩
  rw [shared_flat]
  rw [show PCB = "</" ++ "</p>" ++ "\n\n" from by decide,
    show PCBER = "</" ++ "</p>" from by decide]

/-- C10: the shared-section generator ignores its `local_line` argument, so
the "Serving city, state." line the city page builder passes in never
appears in any generated page (home, cost, how-to, or any city page, for
any roster city's line). -/
theorem C10_serving_never_rendered :
    (∀ x y : Option String, shared_sections_html x = shared_sections_html y) ∧
    (∀ cs ∈ CITIES, ∀ page ∈ all_pages,
      containsSub ("Serving " ++ cs.1 ++ ", " ++ cs.2 ++ ".").data
        page.data = false) := by
  refine ⟨fun x y => rfl, ?_⟩
  intro cs hcs page hp
  have hser : containsSub "Serving ".data page.data = false := by
    simp only [all_pages, List.mem_append, List.mem_cons, List.not_mem_nil,
      or_false] at hp
    rcases hp with (rfl | rfl | rfl) | hm
    · exact home_serving
    · exact cost_serving
    · exact howto_serving
    · obtain ⟨cs2, hcs2, rfl⟩ := List.mem_map.mp hm
      exact city_serving cs2.1 cs2.2 (cities_cityOk_mem cs2 hcs2)
  rw [show "Serving " ++ cs.1 ++ ", " ++ cs.2 ++ "." =
      "Serving " ++ (cs.1 ++ ", " ++ cs.2 ++ ".") from
    str_eq_of_data (by simp [data_append, List.append_assoc])]
  rw [data_append]
  exact contains_false_of_prefix hser

